import Mathlib

/-!
The topology engine of stadis.

A shallow embedding of `topology.go` and `config.go`, of the connection wrapper of `conn.go`
and of the handler of `/connState` of `api_server.go` (the conventions of the last two are
stated at their sections).

* Go pointers (`*dataCenter`, `*rack`, `*host`, the update channel) are addresses
  (`Nat`) into per-type stores carried by the `topology` value; `new(T)` takes the
  next free address of its store. Pointer comparison is address comparison.
* Go maps are total functions into `Option` (`none` = key absent).
* `time.Duration` is an `Int` holding an int64; `+` and `*` wrap modulo `2^64`.
* An `error` is `Option String` (`none` = `nil`). A Go run-time panic (closing a
  closed channel, dereferencing a nil config entry) is the outer `none` of the
  mutating operations.
* The mutex and the log output are not modelled: every operation is atomic.
* `newTopology` starts from the decoded `Config`; the JSON decoder is not modelled.
* The fields `HostLatency`, `RackLatency`, `DcLatency` of `topology` (never read or written)
  and the back pointer `dataCenter.topo` (there is one topology) are left out.
-/

namespace Stadis

/-! ## Durations -/

/-- Truncation of an integer to the int64 range, as Go arithmetic on `time.Duration` does. -/
def wrap64 (x : Int) : Int := (x + 2 ^ 63) % 2 ^ 64 - 2 ^ 63

/-- Go `a + b` on `time.Duration`. -/
def dadd (a b : Int) : Int := wrap64 (a + b)

/-- Go `a * b` on `time.Duration`. -/
def dmul (a b : Int) : Int := wrap64 (a * b)

/-- The constant `time.Millisecond`, in nanoseconds. -/
def Millisecond : Int := 1000000

/-- The constant `time.Minute`, in nanoseconds. -/
def Minute : Int := 60000000000

/-- The constant `tcpTimeOut = 15 * time.Minute`. -/
def tcpTimeOut : Int := 15 * Minute

/-- The constant `dialTimeOut = 3 * time.Minute`. -/
def dialTimeOut : Int := 3 * Minute

/-- The constant `serverPortType = true`. -/
def serverPortType : Bool := true

/-- The constant `clientPortType = false`. -/
def clientPortType : Bool := false

/-! ## config.go -/

/-- The struct `ConnState`. -/
structure ConnState where
  Latency : Int
  OK : Bool
deriving DecidableEq, Repr

/-- The struct `NodeState`. -/
structure NodeState where
  Latency : Int
  InternalDown : Bool
  ExternalDown : Bool
deriving DecidableEq, Repr

/-- The zero value of `NodeState`. -/
def NodeState.zero : NodeState := { Latency := 0, InternalDown := false, ExternalDown := false }

/-- The zero value of `ConnState`. -/
def ConnState.zero : ConnState := { Latency := 0, OK := false }

/-- The config struct `Host`; the embedded `*NodeState` may be nil. -/
structure Host where
  Name : String
  Ports : List Int
  NodeState : Option NodeState

/-- The config struct `Rack`; entries of `Hosts` are pointers and may be nil. -/
structure Rack where
  HostDefault : Option NodeState
  Name : String
  Hosts : List (Option Host)
  NodeState : Option NodeState

/-- The config struct `DataCenter`; entries of `Racks` are pointers and may be nil. -/
structure DataCenter where
  RackDefault : Option NodeState
  HostDefault : Option NodeState
  Name : String
  Racks : List (Option Rack)
  NodeState : Option NodeState

/-- The config struct `Config`, as produced by the JSON decoder. -/
structure Config where
  DcDefault : Option NodeState
  RackDefault : Option NodeState
  HostDefault : Option NodeState
  DataCenters : List (Option DataCenter)

/-! ## Go maps -/

/-- The empty map, `make(map[K]V)`. -/
def mapEmpty {K V : Type} : K → Option V := fun _ => none

/-- The assignment `m[k] = v`. -/
def mapSet {K V : Type} [DecidableEq K] (m : K → Option V) (k : K) (v : V) : K → Option V :=
  fun x => if x = k then some v else m x

/-- The call `delete(m, k)`. -/
def mapDelete {K V : Type} [DecidableEq K] (m : K → Option V) (k : K) : K → Option V :=
  fun x => if x = k then none else m x

/-- Overwriting one cell of a store. -/
def storeSet {T : Type} (st : Nat → T) (a : Nat) (v : T) : Nat → T :=
  fun x => if x = a then v else st x

/-! ## topology.go: the tree -/

/-- The struct `dataCenter`: `rackMap` holds rack addresses. -/
structure dataCenter extends NodeState where
  name : String
  rackMap : String → Option Nat

/-- The struct `rack`: `hostMap` holds host addresses, `dataCenter` is the address of the parent. -/
structure rack extends NodeState where
  name : String
  hostMap : String → Option Nat
  dataCenter : Nat

/-- The struct `host`: in `portMap` the value is true for a server port, false for a client port;
`rack` is the address of the parent. -/
structure host extends NodeState where
  name : String
  portMap : Int → Option Bool
  rack : Nat

/-- The struct `topology` together with the stores its pointers point into.
`ports` maps a port to the address of its host. `updateCh` is the address of the current
update channel, `chClosed` tells which channels have been closed. -/
structure topology where
  ports : Int → Option Nat
  dataCenterMap : String → Option Nat
  updateCh : Nat
  dcs : Nat → dataCenter
  racks : Nat → rack
  hosts : Nat → host
  chClosed : Nat → Bool
  dcNext : Nat
  rackNext : Nat
  hostNext : Nat
  chNext : Nat

/-- The interface `node`: a pointer to a datacenter, a rack or a host. -/
inductive node where
  | dc (p : Nat)
  | rack (p : Nat)
  | host (p : Nat)
deriving DecidableEq, Repr

/-- The method `state` of the three node kinds. -/
def node.state (topo : topology) : node → NodeState
  | .dc p => (topo.dcs p).toNodeState
  | .rack p => (topo.racks p).toNodeState
  | .host p => (topo.hosts p).toNodeState

/-- The body shared by the three `setState` methods: a zero latency keeps the stored one. -/
def setStateValue (old state : NodeState) : NodeState :=
  if state.Latency = 0 then { state with Latency := old.Latency } else state

/-- The method `setState` of the three node kinds. -/
def node.setState (topo : topology) (state : NodeState) : node → topology
  | .dc p =>
    let d := topo.dcs p
    { topo with dcs := storeSet topo.dcs p { d with toNodeState := setStateValue d.toNodeState state } }
  | .rack p =>
    let r := topo.racks p
    { topo with racks := storeSet topo.racks p { r with toNodeState := setStateValue r.toNodeState state } }
  | .host p =>
    let h := topo.hosts p
    { topo with hosts := storeSet topo.hosts p { h with toNodeState := setStateValue h.toNodeState state } }

/-! ## topology.go: verdicts -/

/-- The function `computeNetworkState`, on the addresses of the two hosts. -/
def computeNetworkState (topo : topology) (clientHost serverHost : Nat) : Bool × Int :=
  let c := topo.hosts clientHost
  let s := topo.hosts serverHost
  let cr := topo.racks c.rack
  let sr := topo.racks s.rack
  let cd := topo.dcs cr.dataCenter
  let sd := topo.dcs sr.dataCenter
  let clientSideDown := c.InternalDown
  let serverSideDown := s.InternalDown
  let latency : Int := 0
  if clientHost ≠ serverHost then
    let clientSideDown := clientSideDown || c.ExternalDown || cr.InternalDown
    let serverSideDown := serverSideDown || s.ExternalDown || sr.InternalDown
    let latency := dadd latency (dadd c.Latency s.Latency)
    if c.rack ≠ s.rack then
      let clientSideDown := clientSideDown || cr.ExternalDown || cd.InternalDown
      let serverSideDown := serverSideDown || sr.ExternalDown || sd.InternalDown
      let latency := dadd latency (dadd cr.Latency sr.Latency)
      if cr.dataCenter ≠ sr.dataCenter then
        let clientSideDown := clientSideDown || cd.ExternalDown
        let serverSideDown := serverSideDown || sd.ExternalDown
        let latency := dadd latency (dadd cd.Latency sd.Latency)
        (!(clientSideDown || serverSideDown), latency)
      else
        (!(clientSideDown || serverSideDown), latency)
    else
      (!(clientSideDown || serverSideDown), latency)
  else
    (!(clientSideDown || serverSideDown), latency)

/-! ## topology.go: name resolution -/

/-- Results of `lookup` and `lookupHost` can be compared. -/
instance instDecidableEqExcept {ε α : Type} [DecidableEq ε] [DecidableEq α] :
    DecidableEq (Except ε α)
  | .ok a, .ok b => if h : a = b then isTrue (by rw [h]) else isFalse (fun h2 => by cases h2; exact h rfl)
  | .error a, .error b =>
    if h : a = b then isTrue (by rw [h]) else isFalse (fun h2 => by cases h2; exact h rfl)
  | .ok _, .error _ => isFalse (fun h2 => by cases h2)
  | .error _, .ok _ => isFalse (fun h2 => by cases h2)


/-- The pieces of `strings.Split(s, ".")`, on the characters of `s`. -/
def splitDots : List Char → List (List Char)
  | [] => [[]]
  | c :: cs =>
    if c = '.' then [] :: splitDots cs
    else
      match splitDots cs with
      | [] => [[c]]
      | p :: ps => (c :: p) :: ps

/-- The call `strings.Split(fullName, ".")`. -/
def Split (fullName : String) : List String :=
  (splitDots fullName.data).map String.mk

/-- The method `lookup`: the node and the error it returns. -/
def lookup (topo : topology) (fullName : String) : Except String node :=
  let parts := Split fullName
  let p0 := parts.getD 0 ""
  match topo.dataCenterMap p0 with
  | none => .error ("undefined dataCenter name," ++ p0)
  | some dc =>
    if parts.length < 2 then .ok (.dc dc)
    else
      let p1 := parts.getD 1 ""
      match (topo.dcs dc).rackMap p1 with
      | none => .error ("undefined rack name," ++ p1)
      | some r =>
        if parts.length < 3 then .ok (.rack r)
        else
          let p2 := parts.getD 2 ""
          match (topo.racks r).hostMap p2 with
          | none => .error ("undefined host name," ++ p2)
          | some h => .ok (.host h)

/-- The method `lookupHost`: the address of the host, or the error. -/
def lookupHost (topo : topology) (hostName : String) : Except String Nat :=
  match lookup topo hostName with
  | .error err => .error err
  | .ok (.host h) => .ok h
  | .ok _ => .error "invalid host name"

/-! ## topology.go: mutations -/

/-- The two statements `close(topo.updateCh); topo.updateCh = make(chan struct{})`.
Closing a closed channel panics (`none`). -/
def rotate (topo : topology) : Option topology :=
  if topo.chClosed topo.updateCh then none
  else
    some { topo with
      chClosed := storeSet (storeSet topo.chClosed topo.updateCh true) topo.chNext false
      updateCh := topo.chNext
      chNext := topo.chNext + 1 }

/-- The method `addServerPort`: the topology after the call and the error returned. -/
def addServerPort (topo : topology) (name : String) (port : Int) :
    Option (topology × Option String) :=
  match lookupHost topo name with
  | .error err => some (topo, some err)
  | .ok hp =>
    let h := topo.hosts hp
    match h.portMap port with
    | some _ => some (topo, some "port has been taken already.")
    | none =>
      let topo1 := { topo with
        hosts := storeSet topo.hosts hp { h with portMap := mapSet h.portMap port serverPortType }
        ports := mapSet topo.ports port hp }
      match rotate topo1 with
      | none => none
      | some topo2 => some (topo2, none)

/-- The method `removeServerPort`: the host entry is deleted, the entry of `topo.ports` stays. -/
def removeServerPort (topo : topology) (name : String) (port : Int) :
    Option (topology × Option String) :=
  match lookupHost topo name with
  | .error err => some (topo, some err)
  | .ok hp =>
    let h := topo.hosts hp
    match h.portMap port with
    | none => some (topo, some "port hasn't been registered")
    | some portType =>
      if portType ≠ serverPortType then some (topo, some "port isn't registered as server")
      else
        let topo1 := { topo with
          hosts := storeSet topo.hosts hp { h with portMap := mapDelete h.portMap port } }
        match rotate topo1 with
        | none => none
        | some topo2 => some (topo2, none)

/-- The method `addClientPort`. -/
def addClientPort (topo : topology) (name : String) (port : Int) :
    Option (topology × Option String) :=
  match lookupHost topo name with
  | .error err => some (topo, some err)
  | .ok hp =>
    let h := topo.hosts hp
    match h.portMap port with
    | some _ => some (topo, some "port has been taken already.")
    | none =>
      some ({ topo with
        hosts := storeSet topo.hosts hp { h with portMap := mapSet h.portMap port clientPortType }
        ports := mapSet topo.ports port hp }, none)

/-- The method `removeClientPort`. -/
def removeClientPort (topo : topology) (port : Int) : Option (topology × Option String) :=
  match topo.ports port with
  | none => some (topo, some "unknown port")
  | some hp =>
    let h := topo.hosts hp
    match h.portMap port with
    | none => some (topo, some "port hasn't been registered")
    | some portType =>
      if portType ≠ clientPortType then
        some (topo, some "port isn't registered as client port")
      else
        some ({ topo with
          hosts := storeSet topo.hosts hp { h with portMap := mapDelete h.portMap port }
          ports := mapDelete topo.ports port }, none)

/-- The method `setNodeState`. -/
def setNodeState (topo : topology) (nodeName : String) (newState : NodeState) :
    Option (topology × Option String) :=
  match lookup topo nodeName with
  | .error err => some (topo, some err)
  | .ok nod =>
    match rotate (nod.setState topo newState) with
    | none => none
    | some topo2 => some (topo2, none)

/-- The method `nodeState`: the state and the error it returns. -/
def nodeState (topo : topology) (nodeName : String) : NodeState × Option String :=
  match lookup topo nodeName with
  | .error err => (NodeState.zero, some err)
  | .ok nod => (nod.state topo, none)

/-- The method `dialState`: the verdict and the error it returns. -/
def dialState (topo : topology) (clientName : String) (serverPort : Int) :
    ConnState × Option String :=
  match lookupHost topo clientName with
  | .error err => (ConnState.zero, some err)
  | .ok clientHost =>
    match topo.ports serverPort with
    | none => (ConnState.zero, some ("host undefined for address " ++ toString serverPort))
    | some serverHost =>
      let net := computeNetworkState topo clientHost serverHost
      if net.1 then
        ({ OK := ((topo.hosts serverHost).portMap serverPort).isSome, Latency := dmul net.2 2 },
          none)
      else
        ({ OK := false, Latency := dialTimeOut }, none)

/-- The method `connState`: the verdict and the error it returns. -/
def connState (topo : topology) (clientPort serverPort : Int) : ConnState × Option String :=
  match topo.ports clientPort with
  | none => (ConnState.zero, some ("connState:unknown client port " ++ toString clientPort))
  | some clientHost =>
    match topo.ports serverPort with
    | none => (ConnState.zero, some ("connState:unknown server port " ++ toString serverPort))
    | some serverHost =>
      match (topo.hosts clientHost).portMap clientPort with
      | none => (ConnState.zero, none)
      | some _ =>
        let net := computeNetworkState topo clientHost serverHost
        if net.1 then
          ({ OK := ((topo.hosts serverHost).portMap serverPort).isSome, Latency := net.2 }, none)
        else
          ({ OK := false, Latency := tcpTimeOut }, none)

/-! ## topology.go: construction -/

/-- The port loop of `newHost`: each configured port becomes a server port of the host at `hp`
and is entered in the global port map. -/
def newHostPorts (hp : Nat) :
    List Int → (Int → Option Bool) → (Int → Option Nat) → (Int → Option Bool) × (Int → Option Nat)
  | [], pm, gp => (pm, gp)
  | port :: rest, pm, gp =>
    newHostPorts hp rest (mapSet pm port serverPortType) (mapSet gp port hp)

/-- The function `newHost`: the new host is stored at the next free host address. -/
def newHost (topo : topology) (confHost : Host) (rackPtr : Nat) : topology × Nat :=
  let hp := topo.hostNext
  let maps := newHostPorts hp confHost.Ports mapEmpty topo.ports
  let st := match confHost.NodeState with
    | some v => v
    | none => NodeState.zero
  let h : host := { toNodeState := st, name := confHost.Name, portMap := maps.1, rack := rackPtr }
  ({ topo with hosts := storeSet topo.hosts hp h, ports := maps.2, hostNext := hp + 1 }, hp)

/-- The host loop of `newRack`; a nil entry of `Hosts` is a nil dereference (`none`). -/
def newRackHosts (rp : Nat) (hostDefault : Option NodeState) :
    List (Option Host) → topology → Option topology
  | [], topo => some topo
  | none :: _, _ => none
  | some confHost :: rest, topo =>
    let confHost1 : Host :=
      if confHost.NodeState.isNone then { confHost with NodeState := hostDefault } else confHost
    let res := newHost topo confHost1 rp
    let r := res.1.racks rp
    let hostName := (res.1.hosts res.2).name
    let topo1 := { res.1 with
      racks := storeSet res.1.racks rp { r with hostMap := mapSet r.hostMap hostName res.2 } }
    newRackHosts rp hostDefault rest topo1

/-- The function `newRack`. -/
def newRack (topo : topology) (confRack : Rack) (dcPtr : Nat) : Option (topology × Nat) :=
  let rp := topo.rackNext
  let st := match confRack.NodeState with
    | some v => v
    | none => NodeState.zero
  let r : rack := { toNodeState := st, name := confRack.Name, hostMap := mapEmpty, dataCenter := dcPtr }
  let topo1 := { topo with racks := storeSet topo.racks rp r, rackNext := rp + 1 }
  match newRackHosts rp confRack.HostDefault confRack.Hosts topo1 with
  | none => none
  | some topo2 => some (topo2, rp)

/-- The rack loop of `newDc`; a nil entry of `Racks` is a nil dereference (`none`). -/
def newDcRacks (dcPtr : Nat) (rackDefault hostDefault : Option NodeState) :
    List (Option Rack) → topology → Option topology
  | [], topo => some topo
  | none :: _, _ => none
  | some confRack :: rest, topo =>
    let confRack1 : Rack :=
      if confRack.HostDefault.isNone then { confRack with HostDefault := hostDefault } else confRack
    let confRack2 : Rack :=
      if confRack1.NodeState.isNone then { confRack1 with NodeState := rackDefault } else confRack1
    match newRack topo confRack2 dcPtr with
    | none => none
    | some res =>
      let d := res.1.dcs dcPtr
      let rackName := (res.1.racks res.2).name
      let topo1 := { res.1 with
        dcs := storeSet res.1.dcs dcPtr { d with rackMap := mapSet d.rackMap rackName res.2 } }
      newDcRacks dcPtr rackDefault hostDefault rest topo1

/-- The function `newDc`. -/
def newDc (topo : topology) (confDC : DataCenter) : Option (topology × Nat) :=
  let dp := topo.dcNext
  let st := match confDC.NodeState with
    | some v => v
    | none => NodeState.zero
  let d : dataCenter := { toNodeState := st, name := confDC.Name, rackMap := mapEmpty }
  let topo1 := { topo with dcs := storeSet topo.dcs dp d, dcNext := dp + 1 }
  match newDcRacks dp confDC.RackDefault confDC.HostDefault confDC.Racks topo1 with
  | none => none
  | some topo2 => some (topo2, dp)

/-- The datacenter loop of `newTopology`; a nil entry of `DataCenters` is a nil dereference. -/
def newTopologyDcs (config : Config) : List (Option DataCenter) → topology → Option topology
  | [], topo => some topo
  | none :: _, _ => none
  | some confDC :: rest, topo =>
    let confDC1 : DataCenter :=
      if confDC.RackDefault.isNone then { confDC with RackDefault := config.RackDefault } else confDC
    let confDC2 : DataCenter :=
      if confDC1.HostDefault.isNone then { confDC1 with HostDefault := config.HostDefault }
      else confDC1
    let confDC3 : DataCenter :=
      if confDC2.NodeState.isNone then { confDC2 with NodeState := config.DcDefault } else confDC2
    match newDc topo confDC3 with
    | none => none
    | some res =>
      let dcName := (res.1.dcs res.2).name
      newTopologyDcs config rest
        { res.1 with dataCenterMap := mapSet res.1.dataCenterMap dcName res.2 }

/-- The topology right after `new(topology)` and the three `make` calls: empty maps, the first
update channel open, empty stores. -/
def emptyTopology : topology :=
  { ports := mapEmpty
    dataCenterMap := mapEmpty
    updateCh := 0
    dcs := fun _ => { toNodeState := NodeState.zero, name := "", rackMap := mapEmpty }
    racks := fun _ => { toNodeState := NodeState.zero, name := "", hostMap := mapEmpty, dataCenter := 0 }
    hosts := fun _ => { toNodeState := NodeState.zero, name := "", portMap := mapEmpty, rack := 0 }
    chClosed := fun _ => false
    dcNext := 0
    rackNext := 0
    hostNext := 0
    chNext := 1 }

/-- The function `newTopology`, from the decoded configuration document. -/
def newTopology (config : Config) : Option topology :=
  newTopologyDcs config config.DataCenters emptyTopology

/-- A host entry of the default document: a name, no ports, no state. -/
def confHostNamed (n : String) : Option Host :=
  some { Name := n, Ports := [], NodeState := none }

/-- A rack entry of the default document: a name and three hosts. -/
def confRackNamed (n a b c : String) : Option Rack :=
  some { HostDefault := none, Name := n,
         Hosts := [confHostNamed a, confHostNamed b, confHostNamed c], NodeState := none }

/-- A datacenter entry of the default document: a name and three racks. -/
def confDcNamed (n : String) (r1 r2 r3 : Option Rack) : Option DataCenter :=
  some { RackDefault := none, HostDefault := none, Name := n, Racks := [r1, r2, r3],
         NodeState := none }

/-- The document `DefaultConfig`, decoded. -/
def DefaultConfig : Config :=
  { DcDefault := some { Latency := 100000000, InternalDown := false, ExternalDown := false }
    RackDefault := some { Latency := 10000000, InternalDown := false, ExternalDown := false }
    HostDefault := some { Latency := 1000000, InternalDown := false, ExternalDown := false }
    DataCenters :=
      [ confDcNamed "animal"
          (confRackNamed "land" "tiger" "lion" "wolf")
          (confRackNamed "sea" "shark" "whale" "cod")
          (confRackNamed "air" "eagle" "crow" "owl"),
        confDcNamed "plant"
          (confRackNamed "fruit" "apple" "pear" "grape")
          (confRackNamed "crop" "corn" "rice" "wheat")
          (confRackNamed "flower" "rose" "lily" "lotus"),
        confDcNamed "matter"
          (confRackNamed "metal" "gold" "silver" "iron")
          (confRackNamed "gem" "ruby" "ivory" "pearl")
          (confRackNamed "liquid" "water" "oil" "wine") ] }

/-! ## Sequences of operations -/

/-- A call of one of the five mutating methods of `topology`. -/
inductive Op where
  | addServerPort (name : String) (port : Int)
  | removeServerPort (name : String) (port : Int)
  | addClientPort (name : String) (port : Int)
  | removeClientPort (port : Int)
  | setNodeState (nodeName : String) (newState : NodeState)

/-- Performing one call. -/
def Op.apply (topo : topology) : Op → Option (topology × Option String)
  | .addServerPort name port => Stadis.addServerPort topo name port
  | .removeServerPort name port => Stadis.removeServerPort topo name port
  | .addClientPort name port => Stadis.addClientPort topo name port
  | .removeClientPort port => Stadis.removeClientPort topo port
  | .setNodeState nodeName newState => Stadis.setNodeState topo nodeName newState

/-- Performing a sequence of calls one after the other, whether each succeeds or returns an
error; `none` when one of them panics. -/
def runOps : topology → List Op → Option topology
  | topo, [] => some topo
  | topo, op :: rest =>
    match op.apply topo with
    | none => none
    | some res => runOps res.1 rest

/-! ## The scenario of `TestApi` -/

/-- The topology built from the default document and then mutated by `ops`. -/
def afterOps (ops : List Op) : Option topology :=
  (newTopology DefaultConfig).bind (fun t => runOps t ops)

/-- The value `NodeState{ExternalDown: true}`. -/
def stExternalDown : NodeState := { Latency := 0, InternalDown := false, ExternalDown := true }

/-- The value `NodeState{InternalDown: true}`. -/
def stInternalDown : NodeState := { Latency := 0, InternalDown := true, ExternalDown := false }

/-- The mutations `TestApi` sends to the server, in order. -/
def testApiOps : List Op :=
  [ .setNodeState "animal.land" stExternalDown,
    .addServerPort "animal.land.lion" 30001,
    .addServerPort "plant.fruit.apple" 30003,
    .addServerPort "animal.land.tiger" 30011,
    .setNodeState "animal.land" NodeState.zero,
    .setNodeState "plant.fruit.apple" { Latency := 30000000, InternalDown := false, ExternalDown := false },
    .setNodeState "plant.fruit" stExternalDown,
    .setNodeState "plant.fruit" stInternalDown,
    .setNodeState "plant.fruit" NodeState.zero,
    .setNodeState "plant" stInternalDown,
    .setNodeState "plant" stExternalDown,
    .setNodeState "plant" NodeState.zero,
    .setNodeState "animal" stExternalDown,
    .setNodeState "animal" stInternalDown,
    .setNodeState "animal" NodeState.zero,
    .setNodeState "animal.land" stExternalDown,
    .setNodeState "animal.land" stInternalDown,
    .setNodeState "animal.land" NodeState.zero,
    .setNodeState "animal.land.tiger" stExternalDown,
    .setNodeState "animal.land.tiger" stInternalDown,
    .setNodeState "animal.land.tiger" NodeState.zero,
    .removeServerPort "animal.land.tiger" 30011 ]

/-- The topology `afterOps ops` as a plain value (the empty topology if a call panicked). -/
def stateAfter (ops : List Op) : topology :=
  (afterOps ops).getD emptyTopology

/-- The topology of `TestApi` after its first `n` mutations. -/
def testApiState (n : Nat) : topology :=
  stateAfter (testApiOps.take n)

/-! ## The port registry -/

/-- The three calls that enter or delete a port in both maps of the registry. -/
def Op.isRegistryOp : Op → Bool
  | .addServerPort _ _ => true
  | .addClientPort _ _ => true
  | .removeClientPort _ => true
  | .removeServerPort _ _ => false
  | .setNodeState _ _ => false

/-- Bookkeeping for the registry: the role under which each port was registered last, after one
more successful call. -/
def Op.registers (roles : Int → Option Bool) : Op → Int → Option Bool
  | .addServerPort _ port => mapSet roles port serverPortType
  | .addClientPort _ port => mapSet roles port clientPortType
  | .removeClientPort port => mapDelete roles port
  | .removeServerPort _ _ => roles
  | .setNodeState _ _ => roles

/-- The function `runOps`, keeping the bookkeeping of `Op.registers` next to the topology: a call
that returns an error registers nothing. -/
def runOpsRoles :
    topology → (Int → Option Bool) → List Op → Option (topology × (Int → Option Bool))
  | topo, roles, [] => some (topo, roles)
  | topo, roles, op :: rest =>
    match op.apply topo with
    | none => none
    | some (topo2, none) => runOpsRoles topo2 (op.registers roles) rest
    | some (topo2, some _) => runOpsRoles topo2 roles rest

/-- The roles right after construction: every port of the configuration is a server port. -/
def initialRoles (topo : topology) : Int → Option Bool :=
  fun p => (topo.ports p).map (fun _ => serverPortType)

/-- The registry invariant of the data model: every entry `(port → host)` of the global map has
an entry for `port` in `host.portMap`. -/
def portsRegistered (topo : topology) : Prop :=
  ∀ p h, topo.ports p = some h → ((topo.hosts h).portMap p).isSome = true

/-- The registry invariant with roles: the entry in `host.portMap` carries the role the port was
registered under. -/
def portsRegisteredAs (topo : topology) (roles : Int → Option Bool) : Prop :=
  ∀ p h, topo.ports p = some h → (topo.hosts h).portMap p = roles p ∧ (roles p).isSome = true

/-- What construction establishes: the update channel is open, and every port of the global map
points to an allocated host that lists it as a server port. -/
def builtWell (topo : topology) : Prop :=
  topo.chClosed topo.updateCh = false ∧
  ∀ p h, topo.ports p = some h → h < topo.hostNext ∧ (topo.hosts h).portMap p = some serverPortType

/-- What the registry calls maintain: the update channel is open and the registry invariant
holds with the roles of the bookkeeping. -/
def registryWell (topo : topology) (roles : Int → Option Bool) : Prop :=
  topo.chClosed topo.updateCh = false ∧ portsRegisteredAs topo roles

/-! ## Reading the tree -/

/-- The rack `h.rack` of the host at address `h`. -/
def rackOf (topo : topology) (h : Nat) : rack := topo.racks (topo.hosts h).rack

/-- The address `h.rack.dataCenter` of the datacenter of the host at address `h`. -/
def dcPtrOf (topo : topology) (h : Nat) : Nat := (rackOf topo h).dataCenter

/-- The datacenter `h.rack.dataCenter` of the host at address `h`. -/
def dcOf (topo : topology) (h : Nat) : dataCenter := topo.dcs (dcPtrOf topo h)

/-- The latency of the reference algorithm, as a mathematical integer: the two host latencies
when the hosts differ, plus the two rack latencies when the racks differ, plus the two datacenter
latencies when the datacenters differ. -/
def levelLatency (topo : topology) (clientHost serverHost : Nat) : Int :=
  (if clientHost ≠ serverHost then
      (topo.hosts clientHost).Latency + (topo.hosts serverHost).Latency else 0) +
  (if (topo.hosts clientHost).rack ≠ (topo.hosts serverHost).rack then
      (rackOf topo clientHost).Latency + (rackOf topo serverHost).Latency else 0) +
  (if dcPtrOf topo clientHost ≠ dcPtrOf topo serverHost then
      (dcOf topo clientHost).Latency + (dcOf topo serverHost).Latency else 0)

/-- The sum of the latencies of the six nodes on the path between two hosts of different
datacenters: host, rack, datacenter on the client side, datacenter, rack, host on the server side
(as a mathematical integer). -/
def pathLatency (topo : topology) (c s : Nat) : Int :=
  (topo.hosts c).Latency + (rackOf topo c).Latency + (dcOf topo c).Latency +
    (dcOf topo s).Latency + (rackOf topo s).Latency + (topo.hosts s).Latency

/-- No node on the path between the two hosts is down: neither flag is set on either host, rack
or datacenter. -/
def pathUp (topo : topology) (c s : Nat) : Bool :=
  !((topo.hosts c).InternalDown || (topo.hosts c).ExternalDown ||
    (rackOf topo c).InternalDown || (rackOf topo c).ExternalDown ||
    (dcOf topo c).InternalDown || (dcOf topo c).ExternalDown ||
    (topo.hosts s).InternalDown || (topo.hosts s).ExternalDown ||
    (rackOf topo s).InternalDown || (rackOf topo s).ExternalDown ||
    (dcOf topo s).InternalDown || (dcOf topo s).ExternalDown)

/-! ## The update channel -/

/-- The three calls whose source closes the update channel and makes a new one. -/
def Op.rotates : Op → Bool
  | .addServerPort _ _ => true
  | .removeServerPort _ _ => true
  | .setNodeState _ _ => true
  | .addClientPort _ _ => false
  | .removeClientPort _ => false

/-- The current update channel has been allocated (its address is below the next free one) and
has not been closed. -/
def channelWell (topo : topology) : Prop :=
  topo.updateCh < topo.chNext ∧ topo.chClosed topo.updateCh = false

/-! ## Down flags -/

/-- The same topology with the externalDown flag of one node replaced by `b`: two topologies
that differ only in that flag are `topo` and `nod.setExternalDown topo b`. -/
def node.setExternalDown (topo : topology) (b : Bool) : node → topology
  | .dc p =>
    let d := topo.dcs p
    { topo with dcs := storeSet topo.dcs p { d with ExternalDown := b } }
  | .rack p =>
    let r := topo.racks p
    { topo with racks := storeSet topo.racks p { r with ExternalDown := b } }
  | .host p =>
    let h := topo.hosts p
    { topo with hosts := storeSet topo.hosts p { h with ExternalDown := b } }

/-- The host at address `h` is the node, or lies inside it. -/
def node.contains (topo : topology) : node → Nat → Bool
  | .dc p, h => decide (dcPtrOf topo h = p)
  | .rack p, h => decide ((topo.hosts h).rack = p)
  | .host p, h => decide (h = p)

/-- The internalDown flag of a node. -/
def node.internalDown (topo : topology) (nod : node) : Bool :=
  (nod.state topo).InternalDown

/-! ## Dotted names -/

/-- The number of dots in a name. -/
def dotCount (name : String) : Nat := name.data.count '.'

/-- The node a dotted name stands for, in the spec's words: the datacenter named by the first
segment; for two segments the rack of that datacenter named by the second; for three segments
(or more, the rest is not looked at) the host of that rack named by the third. It is `none` as
soon as a segment is absent at its level. -/
def resolveSegments (topo : topology) : List String → Option node
  | [] => none
  | [p0] => (topo.dataCenterMap p0).map node.dc
  | [p0, p1] =>
    (topo.dataCenterMap p0).bind (fun d => ((topo.dcs d).rackMap p1).map node.rack)
  | p0 :: p1 :: p2 :: _ =>
    (topo.dataCenterMap p0).bind (fun d =>
      ((topo.dcs d).rackMap p1).bind (fun r => ((topo.racks r).hostMap p2).map node.host))

/-- The level of a node: 0 for a datacenter, 1 for a rack, 2 for a host. -/
def node.level : node → Nat
  | .dc _ => 0
  | .rack _ => 1
  | .host _ => 2

/-! ## States at construction -/

/-- The state the spec gives a datacenter: its explicit state, else `DcDefault`, else zero. -/
def dcStateRule (config : Config) (dc : DataCenter) : NodeState :=
  match dc.NodeState with
  | some st => st
  | none =>
    match config.DcDefault with
    | some st => st
    | none => NodeState.zero

/-- The state the spec gives a rack: its explicit state, else its datacenter's `RackDefault`,
else the top-level `RackDefault`, else zero. -/
def rackStateRule (config : Config) (dc : DataCenter) (r : Rack) : NodeState :=
  match r.NodeState with
  | some st => st
  | none =>
    match dc.RackDefault with
    | some st => st
    | none =>
      match config.RackDefault with
      | some st => st
      | none => NodeState.zero

/-- The state the spec gives a host: its explicit state, else its rack's `HostDefault`, else its
datacenter's `HostDefault`, else the top-level `HostDefault`, else zero. -/
def hostStateRule (config : Config) (dc : DataCenter) (r : Rack) (h : Host) : NodeState :=
  match h.NodeState with
  | some st => st
  | none =>
    match r.HostDefault with
    | some st => st
    | none =>
      match dc.HostDefault with
      | some st => st
      | none =>
        match config.HostDefault with
        | some st => st
        | none => NodeState.zero

/-- The datacenters of a document, in document order. -/
def configDcs (config : Config) : List DataCenter := config.DataCenters.filterMap id

/-- The racks of a datacenter of the document, in document order. -/
def configRacks (dc : DataCenter) : List Rack := dc.Racks.filterMap id

/-- The hosts of a rack of the document, in document order. -/
def configHosts (r : Rack) : List Host := r.Hosts.filterMap id

/-- Name and state the spec gives each datacenter of the document, in document order. -/
def expectedDcStates (config : Config) : List (String × NodeState) :=
  (configDcs config).map (fun dc => (dc.Name, dcStateRule config dc))

/-- Name and state the spec gives each rack of the document, in document order. -/
def expectedRackStates (config : Config) : List (String × NodeState) :=
  ((configDcs config).map (fun dc =>
    (configRacks dc).map (fun r => (r.Name, rackStateRule config dc r)))).flatten

/-- Name and state the spec gives each host of the document, in document order. -/
def expectedHostStates (config : Config) : List (String × NodeState) :=
  ((configDcs config).map (fun dc =>
    ((configRacks dc).map (fun r =>
      (configHosts r).map (fun h => (h.Name, hostStateRule config dc r h)))).flatten)).flatten

/-- Name and state of the datacenters of a topology, in the order they were created. -/
def dcStates (topo : topology) : List (String × NodeState) :=
  (List.range topo.dcNext).map (fun i => ((topo.dcs i).name, (topo.dcs i).toNodeState))

/-- Name and state of the racks of a topology, in the order they were created. -/
def rackStates (topo : topology) : List (String × NodeState) :=
  (List.range topo.rackNext).map (fun i => ((topo.racks i).name, (topo.racks i).toNodeState))

/-- Name and state of the hosts of a topology, in the order they were created. -/
def hostStates (topo : topology) : List (String × NodeState) :=
  (List.range topo.hostNext).map (fun i => ((topo.hosts i).name, (topo.hosts i).toNodeState))

/-- The defaulting step of the constructors: `if x == nil { x = dflt }`. -/
def orDefault (explicit dflt : Option NodeState) : Option NodeState :=
  if explicit.isNone then dflt else explicit

/-- The state a constructor stores: the pointed-to state, or the zero state for nil. -/
def stateOfOption (o : Option NodeState) : NodeState :=
  match o with
  | some v => v
  | none => NodeState.zero

/-- A state with the given latency and no down flag. -/
def stLatency (ns : Int) : NodeState := { Latency := ns, InternalDown := false, ExternalDown := false }

/-- A small document that uses every step of the inheritance rule: datacenter `a` takes
`DcDefault`, `b` is explicit; rack `r1` takes its datacenter's `RackDefault`, `r2` is explicit,
`r3` has no default at all; host `h1` is explicit, `h2` takes its rack's `HostDefault`, `h3` the
top-level one, `h4` its datacenter's. -/
def sampleConfig : Config :=
  { DcDefault := some (stLatency 100)
    RackDefault := none
    HostDefault := some (stLatency 1)
    DataCenters :=
      [ some { RackDefault := some (stLatency 20), HostDefault := none, Name := "a", NodeState := none,
               Racks :=
                 [ some { HostDefault := some (stLatency 5), Name := "r1", NodeState := none,
                          Hosts := [ some { Name := "h1", Ports := [], NodeState := some (stLatency 7) },
                                     some { Name := "h2", Ports := [], NodeState := none } ] },
                   some { HostDefault := none, Name := "r2", NodeState := some (stLatency 30),
                          Hosts := [ some { Name := "h3", Ports := [], NodeState := none } ] } ] },
        some { RackDefault := none, HostDefault := some (stLatency 2), Name := "b",
               NodeState := some (stLatency 50),
               Racks :=
                 [ some { HostDefault := none, Name := "r3", NodeState := none,
                          Hosts := [ some { Name := "h4", Ports := [], NodeState := none } ] } ] } ] }

/-- The topology built from `sampleConfig`. -/
def sampleTopology : topology := (newTopology sampleConfig).getD emptyTopology

/-! ## conn.go: the connection wrapper

The wrapper is modelled one call at a time. Time, latency and the verdict poll are not modelled:
where the source waits in a `select`, the caller of the model says which case fires, and a case
that cannot fire gives `none`. The underlying socket `conn` is the list of bytes written to it
so far and a count of the `Close` calls on it; the bytes it delivers to `conn.Read` are an
argument of `readLoopStep`. -/

/-- The constant `packetSize`. -/
def packetSize : Nat := 4 * 1024

/-- The variable `NumOfPackets`, at its default. -/
def NumOfPackets : Nat := 128

/-- The struct `packet`: `data` is the buffer of `packetSize` bytes, of which the first `length`
are the payload (`sentTime` is not modelled). -/
structure packet where
  data : List UInt8
  length : Nat
  err : Option String
deriving DecidableEq

/-- The packet `packetPool.get` makes when the pool is empty: a zeroed buffer. -/
def newPacket : packet :=
  { data := List.replicate packetSize 0, length := 0, err := none }

/-- The struct `connection`: the two packet queues and the pool (oldest first), the overflow
buffer `readBuffer` with `readErr`, the one-place channel `writeErrCh`, whether `closeCh` has
been closed, and the socket `conn` (bytes written to it, number of `Close` calls on it). -/
structure connection where
  writePacketCh : List packet
  readPacketCh : List packet
  readBuffer : List UInt8
  readErr : Option String
  writeErrCh : Option String
  pool : List packet
  closeChClosed : Bool
  connWritten : List UInt8
  connCloses : Nat

/-- The wrapper right after `newConnection`. -/
def freshConnection : connection :=
  { writePacketCh := [], readPacketCh := [], readBuffer := [], readErr := none,
    writeErrCh := none, pool := [], closeChClosed := false, connWritten := [], connCloses := 0 }

/-- The method `packetPool.get`: the oldest pooled packet, or a new one. -/
def poolGet (c : connection) : packet × connection :=
  match c.pool with
  | p :: rest => (p, { c with pool := rest })
  | [] => (newPacket, c)

/-- The method `packetPool.put`: the pool holds at most 10 packets. -/
def poolPut (c : connection) (p : packet) : connection :=
  if c.pool.length < 10 then { c with pool := c.pool ++ [p] } else c

/-- The builtin `copy(dst, src)`: the buffer `dst` afterwards. It copies
`min (len dst) (len src)` bytes. -/
def copyInto (dst src : List UInt8) : List UInt8 :=
  src.take dst.length ++ dst.drop src.length

/-- The case of the `select` in `Write` that fires for one packet. -/
inductive writeEvent where
  | updateErr (err : String)
  | writeErr
  | deadline
  | accepted
  | closed

/-- The loop of `Write`, from the outcomes of the `select` of the coming iterations: `rest` is
`b[n:]`. The result is the wrapper afterwards, `n` and `err`. -/
def WriteFrom :
    List writeEvent → connection → Nat → List UInt8 → Option (connection × Nat × Option String)
  | [], c, n, rest => if rest.isEmpty then some (c, n, none) else none
  | ev :: evs, c, n, rest =>
    if rest.isEmpty then some (c, n, none)
    else
      let got := poolGet c
      let length := min got.1.data.length rest.length
      let pk : packet := { got.1 with data := copyInto got.1.data rest, length := length }
      match ev with
      | .updateErr err => some (got.2, n, some err)
      | .writeErr =>
        match got.2.writeErrCh with
        | some err => some ({ got.2 with writeErrCh := none }, n, some err)
        | none => none
      | .deadline => some (got.2, n, some "write timeout")
      | .accepted =>
        if got.2.writePacketCh.length < NumOfPackets then
          WriteFrom evs { got.2 with writePacketCh := got.2.writePacketCh ++ [pk] } (n + length)
            (rest.drop length)
        else none
      | .closed =>
        if got.2.closeChClosed then some (got.2, n, some "connection closed") else none

/-- The method `Write`. -/
def Write (c : connection) (b : List UInt8) (evs : List writeEvent) :
    Option (connection × Nat × Option String) :=
  WriteFrom evs c 0 b

/-- The method `writePacket`, once its delay is over (`closedFirst`: the close signal fired
before that): with an ok verdict the payload goes to the socket, where `connErr` is what
`conn.Write` returns and a failed write adds nothing; the packet goes back to the pool and an
error is left in `writeErrCh` if that is free. -/
def writePacket (c : connection) (pk : packet) (verdictOK closedFirst : Bool)
    (connErr : Option String) : connection :=
  if closedFirst then c
  else
    let err : Option String := if verdictOK then connErr else some "connection error"
    let c1 : connection :=
      if verdictOK && connErr.isNone then
        { c with connWritten := c.connWritten ++ pk.data.take pk.length }
      else c
    let c2 := poolPut c1 pk
    match err with
    | none => c2
    | some e => if c2.writeErrCh.isNone then { c2 with writeErrCh := some e } else c2

/-- One turn of `writeLoop`: the oldest queued packet is written. -/
def writeLoopStep (c : connection) (verdictOK closedFirst : Bool) (connErr : Option String) :
    Option connection :=
  match c.writePacketCh with
  | [] => none
  | pk :: rest => some (writePacket { c with writePacketCh := rest } pk verdictOK closedFirst connErr)

/-- One turn of `readLoop`: `conn.Read(packet.data)` delivers `chunk` with error `err` into a
packet from the pool, which is queued for `Read`. -/
def readLoopStep (c : connection) (chunk : List UInt8) (err : Option String) :
    Option connection :=
  let got := poolGet c
  let pk : packet :=
    { data := copyInto got.1.data chunk, length := min got.1.data.length chunk.length, err := err }
  if got.2.readPacketCh.length < NumOfPackets then
    some { got.2 with readPacketCh := got.2.readPacketCh ++ [pk] }
  else none

/-- The method `readPacket` for a read buffer of `bLen` bytes, once the delay is over
(`closedFirst`: the close signal fired before that): the wrapper afterwards, the bytes copied
into `b` (there are `n` of them) and `err`. -/
def readPacket (c : connection) (pk : packet) (bLen : Nat) (closedFirst : Bool) :
    connection × List UInt8 × Option String :=
  if closedFirst then (c, [], some "connection closed")
  else
    let out := (pk.data.take pk.length).take bLen
    if pk.length ≤ bLen then (c, out, pk.err)
    else
      let c1 := { c with readBuffer := c.readBuffer ++ pk.data.drop pk.length, readErr := pk.err }
      (poolPut c1 pk, out, none)

/-- The case of the `select` in `Read` that fires. -/
inductive readEvent where
  | packet (closedFirst : Bool)
  | updateErr (err : String)
  | closed
  | deadline

/-- The method `Read` for a read buffer of `bLen` bytes: the wrapper afterwards, the bytes put
into `b` (there are `n` of them) and `err`. -/
def Read (c : connection) (bLen : Nat) (ev : readEvent) :
    Option (connection × List UInt8 × Option String) :=
  let out := c.readBuffer.take bLen
  let c1 := { c with readBuffer := c.readBuffer.drop bLen }
  if out.length > 0 then some (c1, out, none)
  else
    let err := c1.readErr
    let c2 := { c1 with readErr := none }
    match err with
    | some e => some (c2, [], some e)
    | none =>
      match ev with
      | .packet closedFirst =>
        match c2.readPacketCh with
        | [] => none
        | pk :: rest => some (readPacket { c2 with readPacketCh := rest } pk bLen closedFirst)
      | .updateErr e => some (c2, [], some e)
      | .closed => if c2.closeChClosed then some (c2, [], some "connection closed") else none
      | .deadline => some (c2, [], some "read timeout")

/-- The method `Close`: closing the close signal a second time panics (`none`); otherwise the
socket is closed and `connResult`, the result of `conn.Close()`, is returned. -/
def Close (c : connection) (connResult : Option String) : Option (connection × Option String) :=
  if c.closeChClosed then none
  else some ({ c with closeChClosed := true, connCloses := c.connCloses + 1 }, connResult)

/-! ## api_server.go: the handler of `/connState`

The handler is modelled from the parsed request: the two port values as `intFormValue` gives
them (0 when the form value is missing or not a number) and the `If-None-Match` header as the
handler sees it. The JSON encoding of the reply is not modelled: a reply with a verdict carries
the verdict. Where the handler waits in its `select`, the caller of the model says which case
fires and gives the topology as it is at that moment; a case that cannot fire gives `none`. -/

/-- What the handler writes: `http.Error(w, message, code)`, the JSON of a verdict with
status 200, or `w.WriteHeader(304)`. -/
inductive reply where
  | error (code : Nat) (message : String)
  | verdict (state : ConnState)
  | notModified
deriving DecidableEq

/-- The header `If-None-Match` of a request: empty, a text `json.Unmarshal` rejects, or the
JSON of a verdict. -/
inductive oldStateHeader where
  | absent
  | invalid
  | state (oldState : ConnState)
deriving DecidableEq

/-- The case of the `select` of the long poll that fires: `time.After(time.Second * 3)` or
`updateCh`. -/
inductive pollEvent where
  | timeout
  | updated
deriving DecidableEq

/-- The method `ApiServer.connState`: `topo` is the topology as the request arrives, `later`
the same topology as it is when the `select` fires. -/
def ApiServer.connState (clientPort serverPort : Int) (header : oldStateHeader)
    (topo : topology) (ev : pollEvent) (later : topology) : Option reply :=
  if clientPort = 0 then some (.error 400 "'clientPort' required")
  else if serverPort = 0 then some (.error 400 "'serverPort' required")
  else
    let updateCh := topo.updateCh
    let res := Stadis.connState topo clientPort serverPort
    match res.2 with
    | some err => some (.error 400 err)
    | none =>
      match header with
      | .absent => some (.verdict res.1)
      | .invalid => some (.error 400 "invalid If-None-Match header")
      | .state oldState =>
        let polled : Option ConnState :=
          if oldState = res.1 then
            match ev with
            | .timeout => some res.1
            | .updated =>
              if later.chClosed updateCh then
                some (Stadis.connState later clientPort serverPort).1
              else none
          else some res.1
        match polled with
        | none => none
        | some connState =>
          if oldState = connState then some .notModified else some (.verdict connState)

/-! ## conn.go: `Write` among the other goroutines

While `Write` runs, the writer, the reader, `Read` and `Close` may take steps on the same
wrapper. A schedule says which of their steps happen before each pass of the loop of `Write`
takes its packet from the pool, which happen while the pass waits in its `select`, and which
case of the `select` then fires. A schedule that is no run of the source gives `none`. -/

/-- A step of another goroutine on the wrapper: one turn of `writeLoop`, one turn of `readLoop`,
one call of `Read`, or the call of `Close`. -/
inductive workerStep where
  | writeLoop (verdictOK closedFirst : Bool) (connErr : Option String)
  | readLoop (chunk : List UInt8) (err : Option String)
  | read (bLen : Nat) (ev : readEvent)
  | close (connResult : Option String)

/-- Performing one step of another goroutine. -/
def workerStep.apply (c : connection) : workerStep → Option connection
  | .writeLoop verdictOK closedFirst connErr => writeLoopStep c verdictOK closedFirst connErr
  | .readLoop chunk err => readLoopStep c chunk err
  | .read bLen ev => (Read c bLen ev).map (fun r => r.1)
  | .close connResult => (Close c connResult).map (fun r => r.1)

/-- Performing steps of the other goroutines one after the other. -/
def runWorkers : connection → List workerStep → Option connection
  | c, [] => some c
  | c, s :: rest =>
    match s.apply c with
    | none => none
    | some c1 => runWorkers c1 rest

/-- One pass of the loop of `Write` in a schedule. -/
structure writeStep where
  before : List workerStep
  during : List workerStep
  ev : writeEvent

/-- The loop of `Write` under a schedule: `rest` is `b[n:]`, and `sent` lists the packets handed
to the write queue so far. The result is the wrapper afterwards, `n`, `err` and the packets
handed to the queue. -/
def WriteConcurrent :
    List writeStep → connection → Nat → List UInt8 → List packet →
      Option (connection × Nat × Option String × List packet)
  | [], c, n, rest, sent => if rest.isEmpty then some (c, n, none, sent) else none
  | s :: sched, c, n, rest, sent =>
    if rest.isEmpty then some (c, n, none, sent)
    else
      match runWorkers c s.before with
      | none => none
      | some c0 =>
        let got := poolGet c0
        let length := min got.1.data.length rest.length
        let pk : packet := { got.1 with data := copyInto got.1.data rest, length := length }
        match runWorkers got.2 s.during with
        | none => none
        | some c1 =>
          match s.ev with
          | .updateErr err => some (c1, n, some err, sent)
          | .writeErr =>
            match c1.writeErrCh with
            | some err => some ({ c1 with writeErrCh := none }, n, some err, sent)
            | none => none
          | .deadline => some (c1, n, some "write timeout", sent)
          | .accepted =>
            if c1.writePacketCh.length < NumOfPackets then
              WriteConcurrent sched { c1 with writePacketCh := c1.writePacketCh ++ [pk] }
                (n + length) (rest.drop length) (sent ++ [pk])
            else none
          | .closed =>
            if c1.closeChClosed then some (c1, n, some "connection closed", sent) else none

/-- The bytes `packet.data[:packet.length]` of a packet. -/
def packet.payload (pk : packet) : List UInt8 := pk.data.take pk.length

/-- Every packet of the pool and of the two queues has a buffer of `packetSize` bytes, as
`packetPool.get` makes them. -/
def packetsSized (c : connection) : Prop :=
  (∀ p ∈ c.pool, p.data.length = packetSize) ∧
  (∀ p ∈ c.writePacketCh, p.data.length = packetSize) ∧
  (∀ p ∈ c.readPacketCh, p.data.length = packetSize)

/-- The error `Write` returns when the case `ev` of its `select` fires: the error received from
the updater, any error left by the writer, or the fixed texts of the deadline and of the close
signal. -/
def writeEvent.fails : writeEvent → String → Prop
  | .updateErr err, e => e = err
  | .writeErr, _ => True
  | .deadline, e => e = "write timeout"
  | .closed, e => e = "connection closed"
  | .accepted, _ => False

/-! ## Arithmetic of durations -/

theorem wrap64_of_range (x : Int) (h1 : -(2 ^ 63) ≤ x) (h2 : x < 2 ^ 63) : wrap64 x = x := by
  unfold wrap64
  rw [Int.emod_eq_of_lt (by omega) (by omega)]
  omega

theorem wrap64_add_left (a b : Int) : wrap64 (wrap64 a + b) = wrap64 (a + b) := by
  unfold wrap64
  have h : (a + 2 ^ 63) % 2 ^ 64 - 2 ^ 63 + b + 2 ^ 63 = (a + 2 ^ 63) % 2 ^ 64 + b := by ring
  rw [h, Int.emod_add_emod]
  congr 2
  ring

theorem wrap64_add_right (a b : Int) : wrap64 (a + wrap64 b) = wrap64 (a + b) := by
  rw [add_comm, wrap64_add_left, add_comm]

theorem wrap64_mul_left (a b : Int) : wrap64 (wrap64 a * b) = wrap64 (a * b) := by
  unfold wrap64
  have h : ((a + 2 ^ 63) % 2 ^ 64 - 2 ^ 63) * b + 2 ^ 63
      = (a + 2 ^ 63) % 2 ^ 64 * b + (2 ^ 63 - 2 ^ 63 * b) := by ring
  have h2 : a * b + 2 ^ 63 = (a + 2 ^ 63) * b + (2 ^ 63 - 2 ^ 63 * b) := by ring
  have h3 : (a + 2 ^ 63) % 2 ^ 64 * b % 2 ^ 64 = (a + 2 ^ 63) * b % 2 ^ 64 := by
    rw [Int.mul_emod, Int.emod_emod, ← Int.mul_emod]
  rw [h, h2, Int.add_emod, h3, ← Int.add_emod]

theorem wrap64_zero : wrap64 0 = 0 := by decide

theorem wrap64_wrap64 (a : Int) : wrap64 (wrap64 a) = wrap64 a := by
  have h := wrap64_add_left a 0
  simpa using h

/-! ## The verdict of `computeNetworkState` -/

/-- The verdict of `computeNetworkState`, level by level. -/
theorem computeNetworkState_levels (topo : topology) (clientHost serverHost : Nat) :
    ((computeNetworkState topo clientHost serverHost).1 = false ↔
      ((topo.hosts clientHost).InternalDown = true ∨ (topo.hosts serverHost).InternalDown = true ∨
       (clientHost ≠ serverHost ∧
          ((topo.hosts clientHost).ExternalDown = true ∨ (topo.hosts serverHost).ExternalDown = true ∨
           (rackOf topo clientHost).InternalDown = true ∨
           (rackOf topo serverHost).InternalDown = true)) ∨
       ((topo.hosts clientHost).rack ≠ (topo.hosts serverHost).rack ∧
          ((rackOf topo clientHost).ExternalDown = true ∨
           (rackOf topo serverHost).ExternalDown = true ∨
           (dcOf topo clientHost).InternalDown = true ∨
           (dcOf topo serverHost).InternalDown = true)) ∨
       (dcPtrOf topo clientHost ≠ dcPtrOf topo serverHost ∧
          ((dcOf topo clientHost).ExternalDown = true ∨
           (dcOf topo serverHost).ExternalDown = true)))) ∧
    (computeNetworkState topo clientHost serverHost).2 =
      wrap64
        ((if clientHost ≠ serverHost then
            (topo.hosts clientHost).Latency + (topo.hosts serverHost).Latency else 0) +
         (if (topo.hosts clientHost).rack ≠ (topo.hosts serverHost).rack then
            (rackOf topo clientHost).Latency + (rackOf topo serverHost).Latency else 0) +
         (if dcPtrOf topo clientHost ≠ dcPtrOf topo serverHost then
            (dcOf topo clientHost).Latency + (dcOf topo serverHost).Latency else 0)) := by
  by_cases hh : clientHost = serverHost
  · subst hh
    simp [computeNetworkState, wrap64_zero, dcPtrOf, rackOf]
  · by_cases hr : (topo.hosts clientHost).rack = (topo.hosts serverHost).rack
    · have hd : (topo.racks (topo.hosts clientHost).rack).dataCenter
          = (topo.racks (topo.hosts serverHost).rack).dataCenter := by rw [hr]
      constructor
      · simp only [computeNetworkState, rackOf, dcOf, dcPtrOf, ne_eq, hh, hr, hd, not_false_eq_true,
          not_true_eq_false, if_true, if_false, Bool.not_eq_false', Bool.or_eq_true, false_and,
          or_false, true_and]
        tauto
      · simp [computeNetworkState, hh, hr, hd, dadd, wrap64_add_right, wrap64_wrap64, dcPtrOf, rackOf]
    · by_cases hd : (topo.racks (topo.hosts clientHost).rack).dataCenter
          = (topo.racks (topo.hosts serverHost).rack).dataCenter
      · constructor
        · simp only [computeNetworkState, rackOf, dcOf, dcPtrOf, ne_eq, hh, hr, hd,
            not_false_eq_true, not_true_eq_false, if_true, if_false, Bool.not_eq_false',
            Bool.or_eq_true, false_and, or_false, true_and]
          tauto
        · simp [computeNetworkState, hh, hr, hd, dadd, wrap64_add_right, wrap64_add_left,
            wrap64_wrap64, rackOf, dcPtrOf]
      · constructor
        · simp only [computeNetworkState, rackOf, dcOf, dcPtrOf, ne_eq, hh, hr, hd,
            not_false_eq_true, not_true_eq_false, if_true, if_false, Bool.not_eq_false',
            Bool.or_eq_true, false_and, or_false, true_and]
          tauto
        · simp [computeNetworkState, hh, hr, hd, dadd, wrap64_add_right, wrap64_add_left,
            wrap64_wrap64, rackOf, dcOf, dcPtrOf, add_assoc]

theorem computeNetworkState_self (topo : topology) (h : Nat) :
    computeNetworkState topo h h = (!(topo.hosts h).InternalDown, 0) := by
  simp [computeNetworkState]

/-- C1. For every pair of host addresses of a topology, `computeNetworkState` answers
not-ok exactly when either host is internalDown, or the hosts differ and a host is externalDown
or a rack is internalDown, or the racks differ and a rack is externalDown or a datacenter is
internalDown, or the datacenters differ and a datacenter is externalDown. Its latency is the sum
of the two host latencies when the hosts differ, of the two rack latencies when the racks differ
and of the two datacenter latencies when the datacenters differ, computed in int64 arithmetic:
it is 0 for one host, and it is the exact sum whenever that sum fits in an int64. -/
theorem computeNetworkState_reference (topo : topology) (clientHost serverHost : Nat) :
    ((computeNetworkState topo clientHost serverHost).1 = false ↔
      ((topo.hosts clientHost).InternalDown = true ∨ (topo.hosts serverHost).InternalDown = true ∨
       (clientHost ≠ serverHost ∧
          ((topo.hosts clientHost).ExternalDown = true ∨ (topo.hosts serverHost).ExternalDown = true ∨
           (rackOf topo clientHost).InternalDown = true ∨
           (rackOf topo serverHost).InternalDown = true)) ∨
       ((topo.hosts clientHost).rack ≠ (topo.hosts serverHost).rack ∧
          ((rackOf topo clientHost).ExternalDown = true ∨
           (rackOf topo serverHost).ExternalDown = true ∨
           (dcOf topo clientHost).InternalDown = true ∨
           (dcOf topo serverHost).InternalDown = true)) ∨
       (dcPtrOf topo clientHost ≠ dcPtrOf topo serverHost ∧
          ((dcOf topo clientHost).ExternalDown = true ∨
           (dcOf topo serverHost).ExternalDown = true)))) ∧
    (computeNetworkState topo clientHost serverHost).2
      = wrap64 (levelLatency topo clientHost serverHost) ∧
    (clientHost = serverHost → (computeNetworkState topo clientHost serverHost).2 = 0) ∧
    (-(2 ^ 63) ≤ levelLatency topo clientHost serverHost →
      levelLatency topo clientHost serverHost < 2 ^ 63 →
      (computeNetworkState topo clientHost serverHost).2
        = levelLatency topo clientHost serverHost) := by
  have h := computeNetworkState_levels topo clientHost serverHost
  refine ⟨h.1, h.2, ?_, ?_⟩
  · intro heq
    rw [heq, computeNetworkState_self]
  · intro h1 h2
    rw [h.2]
    exact wrap64_of_range _ h1 h2

set_option maxRecDepth 100000 in
/-- In `TestApi` after five mutations, between apple (host 9) and tiger (host 0): the sum is
222 ms and fits, so it is the latency; between apple and itself the latency is 0. -/
theorem computeNetworkState_reference_witness :
    levelLatency (testApiState 5) 9 0 = 222000000 ∧
    (computeNetworkState (testApiState 5) 9 0).2 = levelLatency (testApiState 5) 9 0 ∧
    (computeNetworkState (testApiState 5) 9 9).2 = 0 :=
  ⟨by decide,
    (computeNetworkState_reference (testApiState 5) 9 0).2.2.2 (by decide) (by decide),
    (computeNetworkState_reference (testApiState 5) 9 9).2.2.1 rfl⟩

/-! ## Frame lemmas -/

theorem computeNetworkState_congr (t1 t2 : topology)
    (hs : ∀ h, (t2.hosts h).toNodeState = (t1.hosts h).toNodeState)
    (hr : ∀ h, (t2.hosts h).rack = (t1.hosts h).rack)
    (hracks : t2.racks = t1.racks) (hdcs : t2.dcs = t1.dcs) (c s : Nat) :
    computeNetworkState t2 c s = computeNetworkState t1 c s := by
  simp only [computeNetworkState, hr, hracks, hdcs, hs]

theorem lookup_congr (t1 t2 : topology) (h1 : t2.dataCenterMap = t1.dataCenterMap)
    (h2 : ∀ d, (t2.dcs d).rackMap = (t1.dcs d).rackMap)
    (h3 : ∀ r, (t2.racks r).hostMap = (t1.racks r).hostMap) (name : String) :
    lookup t2 name = lookup t1 name := by
  simp only [lookup, h1, h2, h3]

theorem lookupHost_congr (t1 t2 : topology) (h1 : t2.dataCenterMap = t1.dataCenterMap)
    (h2 : ∀ d, (t2.dcs d).rackMap = (t1.dcs d).rackMap)
    (h3 : ∀ r, (t2.racks r).hostMap = (t1.racks r).hostMap) (name : String) :
    lookupHost t2 name = lookupHost t1 name := by
  simp only [lookupHost, lookup_congr t1 t2 h1 h2 h3]

theorem rotate_eq (t t2 : topology) (h : rotate t = some t2) :
    t.chClosed t.updateCh = false ∧
    t2 = { t with
      chClosed := storeSet (storeSet t.chClosed t.updateCh true) t.chNext false
      updateCh := t.chNext
      chNext := t.chNext + 1 } := by
  unfold rotate at h
  by_cases hc : t.chClosed t.updateCh = true
  · simp [hc] at h
  · simp only [hc] at h
    simp only [Bool.false_eq_true, if_false, Option.some.injEq] at h
    exact ⟨by simpa using hc, h.symm⟩

theorem rotate_of_open (t : topology) (h : t.chClosed t.updateCh = false) :
    rotate t = some { t with
      chClosed := storeSet (storeSet t.chClosed t.updateCh true) t.chNext false
      updateCh := t.chNext
      chNext := t.chNext + 1 } := by
  simp [rotate, h]

theorem dialState_of_hosts (topo : topology) (clientName : String) (p : Int) (c s : Nat)
    (hc : lookupHost topo clientName = .ok c) (hs : topo.ports p = some s) :
    dialState topo clientName p =
      if (computeNetworkState topo c s).1 then
        ({ OK := ((topo.hosts s).portMap p).isSome,
           Latency := dmul (computeNetworkState topo c s).2 2 }, none)
      else ({ OK := false, Latency := dialTimeOut }, none) := by
  simp [dialState, hc, hs]

theorem computeNetworkState_cross (topo : topology) (c s : Nat)
    (hdc : dcPtrOf topo c ≠ dcPtrOf topo s) (hup : pathUp topo c s = true) :
    computeNetworkState topo c s = (true, wrap64 (pathLatency topo c s)) := by
  have hr : (topo.hosts c).rack ≠ (topo.hosts s).rack := by
    intro h
    exact hdc (by simp [dcPtrOf, rackOf, h])
  have hh : c ≠ s := by
    intro h
    exact hr (by rw [h])
  have hlev := computeNetworkState_levels topo c s
  have hok : (computeNetworkState topo c s).1 = true := by
    by_contra hne
    have hf : (computeNetworkState topo c s).1 = false := by simpa using hne
    have hcases := hlev.1.mp hf
    simp only [pathUp, Bool.not_eq_true', Bool.or_eq_false_iff] at hup
    simp [hup] at hcases
  have hlat : (computeNetworkState topo c s).2 = wrap64 (pathLatency topo c s) := by
    rw [hlev.2]
    simp only [ne_eq, hh, hr, hdc, not_false_eq_true, if_true, pathLatency]
    congr 1
    ring
  exact Prod.ext hok hlat

/-! ## Dialling -/

/-- C2, amended. Between a host and itself the verdict has latency 0 and is ok exactly when the
host is not internalDown, whatever the other flags and latencies are; hence dialling a port
that the global port map assigns to the client's own host and that is a server port in that
host's own map, when that host is not internalDown, gives ok with latency 0. -/
theorem same_host_verdict (topo : topology) (h : Nat) :
    computeNetworkState topo h h = (!(topo.hosts h).InternalDown, 0) ∧
    ∀ (name : String) (p : Int), lookupHost topo name = .ok h → topo.ports p = some h →
      (topo.hosts h).portMap p = some serverPortType → (topo.hosts h).InternalDown = false →
      dialState topo name p = ({ Latency := 0, OK := true }, none) := by
  refine ⟨computeNetworkState_self topo h, ?_⟩
  intro name p hl hp hm hd
  rw [dialState_of_hosts topo name p h h hl hp, computeNetworkState_self]
  simp [hd, hm, dmul, wrap64_zero]

set_option maxRecDepth 100000 in
/-- In `TestApi`, with rack `animal.land` externalDown, apple dialling its own port 30003. -/
theorem same_host_verdict_witness :
    (afterOps (testApiOps.take 3)).isSome = true ∧
    (nodeState (testApiState 3) "animal.land").1.ExternalDown = true ∧
    dialState (testApiState 3) "plant.fruit.apple" 30003 = ({ Latency := 0, OK := true }, none) :=
  ⟨by decide, by decide,
    (same_host_verdict (testApiState 3) 9).2 "plant.fruit.apple" 30003
      (by decide) (by decide) (by decide) (by decide)⟩

set_option maxRecDepth 100000 in
/-- C3, amended. When no node on the path is down and the port is a server port in the map of
a host `s` of another datacenter that the global port map assigns the port to, `dialState`
answers ok with latency twice the sum of the six latencies on the path (in int64 arithmetic,
which is the exact product whenever that fits in an int64). With the default document and tiger
registered at 30011, apple dialling 30011 gets (ok, 444 ms), and (ok, 502 ms) once apple's
latency is set to 30 ms. -/
theorem dialState_cross_datacenter :
    (∀ (topo : topology) (clientName : String) (c s : Nat) (p : Int),
      lookupHost topo clientName = .ok c → topo.ports p = some s →
      (topo.hosts s).portMap p = some serverPortType →
      dcPtrOf topo c ≠ dcPtrOf topo s → pathUp topo c s = true →
      dialState topo clientName p =
          ({ Latency := wrap64 (2 * pathLatency topo c s), OK := true }, none) ∧
        (-(2 ^ 63) ≤ 2 * pathLatency topo c s → 2 * pathLatency topo c s < 2 ^ 63 →
          (dialState topo clientName p).1.Latency = 2 * pathLatency topo c s)) ∧
    (afterOps [.addServerPort "animal.land.tiger" 30011]).map
        (fun t => dialState t "plant.fruit.apple" 30011)
      = some ({ Latency := 444000000, OK := true }, none) ∧
    (afterOps [.addServerPort "animal.land.tiger" 30011,
        .setNodeState "plant.fruit.apple"
          { Latency := 30000000, InternalDown := false, ExternalDown := false }]).map
        (fun t => dialState t "plant.fruit.apple" 30011)
      = some ({ Latency := 502000000, OK := true }, none) := by
  refine ⟨?_, by decide, by decide⟩
  intro topo clientName c s p hl hp hm hdc hup
  have hd : dialState topo clientName p =
      ({ Latency := wrap64 (2 * pathLatency topo c s), OK := true }, none) := by
    rw [dialState_of_hosts topo clientName p c s hl hp, computeNetworkState_cross topo c s hdc hup]
    simp only [if_true, hm, Option.isSome_some, dmul]
    rw [wrap64_mul_left, mul_comm]
  refine ⟨hd, ?_⟩
  intro h1 h2
  rw [hd]
  exact wrap64_of_range _ h1 h2

set_option maxRecDepth 100000 in
/-- In `TestApi` after tiger's port is registered and `animal.land` is up again: apple (host 9)
dials tiger (host 0) across datacenters. -/
theorem dialState_cross_datacenter_witness :
    (afterOps (testApiOps.take 5)).isSome = true ∧
    pathLatency (testApiState 5) 9 0 = 222000000 ∧
    dialState (testApiState 5) "plant.fruit.apple" 30011
      = ({ Latency := wrap64 (2 * pathLatency (testApiState 5) 9 0), OK := true }, none) ∧
    (dialState (testApiState 5) "plant.fruit.apple" 30011).1.Latency
      = 2 * pathLatency (testApiState 5) 9 0 :=
  have h := dialState_cross_datacenter.1 (testApiState 5) "plant.fruit.apple" 9 0 30011
    (by decide) (by decide) (by decide) (by decide) (by decide)
  ⟨by decide, by decide, h.1, h.2 (by decide) (by decide)⟩

/-- C4. When the network between the client host and the host that the global port map names
for the port is down, `dialState` returns, without error, not-ok with the latency
`dialTimeOut`, which is 3 minutes, whatever the latencies and the host's port map are. -/
theorem dialState_network_down (topo : topology) (clientName : String) (c s : Nat) (p : Int)
    (hl : lookupHost topo clientName = .ok c) (hp : topo.ports p = some s)
    (hdown : (computeNetworkState topo c s).1 = false) :
    dialState topo clientName p = ({ Latency := dialTimeOut, OK := false }, none) ∧
    dialTimeOut = 3 * 60 * 1000000000 := by
  rw [dialState_of_hosts topo clientName p c s hl hp]
  simp [hdown, dialTimeOut, Minute]

set_option maxRecDepth 100000 in
/-- In `TestApi`: rack `plant.fruit` externalDown (state 7) or internalDown (state 8) for apple
dialling tiger, and rack `animal.land` externalDown (state 2) for apple dialling lion. -/
theorem dialState_network_down_witness :
    (afterOps (testApiOps.take 8)).isSome = true ∧
    (nodeState (testApiState 7) "plant.fruit").1 = { stExternalDown with Latency := 10000000 } ∧
    dialState (testApiState 7) "plant.fruit.apple" 30011
      = ({ Latency := 180000000000, OK := false }, none) ∧
    (nodeState (testApiState 8) "plant.fruit").1 = { stInternalDown with Latency := 10000000 } ∧
    dialState (testApiState 8) "plant.fruit.apple" 30011
      = ({ Latency := 180000000000, OK := false }, none) ∧
    (nodeState (testApiState 2) "animal.land").1 = { stExternalDown with Latency := 10000000 } ∧
    dialState (testApiState 2) "plant.fruit.apple" 30001
      = ({ Latency := 180000000000, OK := false }, none) :=
  ⟨by decide, by decide,
    (dialState_network_down (testApiState 7) "plant.fruit.apple" 9 0 30011
      (by decide) (by decide) (by decide)).1,
    by decide,
    (dialState_network_down (testApiState 8) "plant.fruit.apple" 9 0 30011
      (by decide) (by decide) (by decide)).1,
    by decide,
    (dialState_network_down (testApiState 2) "plant.fruit.apple" 9 1 30001
      (by decide) (by decide) (by decide)).1⟩

/-! ## Node states -/

theorem setState_lookup (topo : topology) (nod : node) (st : NodeState) (name : String) :
    lookup (nod.setState topo st) name = lookup topo name := by
  apply lookup_congr
  · cases nod <;> rfl
  · intro d
    cases nod with
    | dc p =>
      by_cases hd : d = p
      · simp [node.setState, storeSet, hd]
      · simp [node.setState, storeSet, hd]
    | rack p => rfl
    | host p => rfl
  · intro r
    cases nod with
    | dc p => rfl
    | rack p =>
      by_cases hr : r = p
      · simp [node.setState, storeSet, hr]
      · simp [node.setState, storeSet, hr]
    | host p => rfl

theorem setState_state (topo : topology) (nod : node) (st : NodeState) :
    nod.state (nod.setState topo st) = setStateValue (nod.state topo) st := by
  cases nod <;> simp [node.state, node.setState, storeSet]

theorem setState_channel (topo : topology) (nod : node) (st : NodeState) :
    (nod.setState topo st).chClosed = topo.chClosed ∧
    (nod.setState topo st).updateCh = topo.updateCh := by
  cases nod <;> exact ⟨rfl, rfl⟩

theorem setNodeState_roundtrip (topo : topology) (name : String) (nod : node)
    (s : NodeState) (hres : lookup topo name = .ok nod)
    (hopen : topo.chClosed topo.updateCh = false) :
    ∃ topo2, setNodeState topo name s = some (topo2, none) ∧
      nodeState topo2 name =
        ({ Latency := if s.Latency = 0 then (nodeState topo name).1.Latency else s.Latency,
           InternalDown := s.InternalDown, ExternalDown := s.ExternalDown }, none) := by
  have hch := setState_channel topo nod s
  have hopen2 : (nod.setState topo s).chClosed (nod.setState topo s).updateCh = false := by
    rw [hch.1, hch.2]
    exact hopen
  obtain ⟨t2, ht2⟩ : ∃ t2 : topology, t2 = { nod.setState topo s with
      chClosed := storeSet (storeSet (nod.setState topo s).chClosed
        (nod.setState topo s).updateCh true) (nod.setState topo s).chNext false
      updateCh := (nod.setState topo s).chNext
      chNext := (nod.setState topo s).chNext + 1 } := ⟨_, rfl⟩
  have hset : setNodeState topo name s = some (t2, none) := by
    simp only [setNodeState, hres, rotate_of_open _ hopen2, ht2]
  have hl : lookup t2 name = .ok nod := by
    rw [lookup_congr (nod.setState topo s) t2 (by rw [ht2]) (fun _ => by rw [ht2])
      (fun _ => by rw [ht2]), setState_lookup]
    exact hres
  have hnode : nod.state t2 = nod.state (nod.setState topo s) := by
    rw [ht2]
    cases nod <;> rfl
  refine ⟨t2, hset, ?_⟩
  simp only [nodeState, hl, hres, hnode, setState_state]
  by_cases hz : s.Latency = 0
  · simp [setStateValue, hz]
  · simp [setStateValue, hz]

/-- C5. After `setNodeState(name, s)` succeeds, `nodeState(name)` returns, without error, the two
down flags of `s` and the latency of `s`, or the latency the node had before the call when
`s.Latency` is 0. The call does succeed for every name that resolves to a datacenter, a rack or a
host, as long as the update channel has not been closed. -/
theorem nodeState_after_setNodeState (topo : topology) (name : String) (s : NodeState) :
    (∀ topo2, setNodeState topo name s = some (topo2, none) →
      nodeState topo2 name =
        ({ Latency := if s.Latency = 0 then (nodeState topo name).1.Latency else s.Latency,
           InternalDown := s.InternalDown, ExternalDown := s.ExternalDown }, none)) ∧
    (∀ nod, lookup topo name = .ok nod → topo.chClosed topo.updateCh = false →
      ∃ topo2, setNodeState topo name s = some (topo2, none)) := by
  constructor
  · intro topo2 hset
    cases hl : lookup topo name with
    | error err => simp [setNodeState, hl] at hset
    | ok nod =>
      by_cases hopen : topo.chClosed topo.updateCh = false
      · obtain ⟨t2, h1, h2⟩ := setNodeState_roundtrip topo name nod s hl hopen
        rw [hset] at h1
        simp only [Option.some.injEq, Prod.mk.injEq, and_true] at h1
        rw [h1]
        exact h2
      · have hch := setState_channel topo nod s
        have hclosed : topo.chClosed topo.updateCh = true := by simpa using hopen
        simp [setNodeState, hl, rotate, hch.1, hch.2, hclosed] at hset
  · intro nod hl hopen
    obtain ⟨t2, h1, _⟩ := setNodeState_roundtrip topo name nod s hl hopen
    exact ⟨t2, h1⟩

set_option maxRecDepth 100000 in
/-- On the default topology: setting rack `animal.land` to externalDown with latency 0 succeeds
and keeps its 10 ms; setting apple to internalDown with latency 30 ms stores all of it. -/
theorem nodeState_after_setNodeState_witness :
    (newTopology DefaultConfig).isSome = true ∧
    (nodeState (stateAfter []) "animal.land").1.Latency = 10000000 ∧
    nodeState (stateAfter [.setNodeState "animal.land" stExternalDown]) "animal.land" =
      ({ Latency := if stExternalDown.Latency = 0 then
            (nodeState (stateAfter []) "animal.land").1.Latency
          else stExternalDown.Latency,
         InternalDown := false, ExternalDown := true }, none) ∧
    (∃ topo2, setNodeState (stateAfter []) "animal.land" stExternalDown = some (topo2, none)) ∧
    nodeState (stateAfter [.setNodeState "plant.fruit.apple"
        { Latency := 30000000, InternalDown := true, ExternalDown := false }]) "plant.fruit.apple"
      = ({ Latency := 30000000, InternalDown := true, ExternalDown := false }, none) :=
  ⟨by decide, by decide,
    (nodeState_after_setNodeState (stateAfter []) "animal.land" stExternalDown).1
      (stateAfter [.setNodeState "animal.land" stExternalDown]) rfl,
    (nodeState_after_setNodeState (stateAfter []) "animal.land" stExternalDown).2 (.rack 0)
      (by decide) (by decide),
    by decide⟩

/-! ## Unregistering a server port -/

theorem removeServerPort_of_registered (topo : topology) (serverName : String) (s : Nat) (p : Int)
    (hsn : lookupHost topo serverName = .ok s)
    (hm : (topo.hosts s).portMap p = some serverPortType)
    (hopen : topo.chClosed topo.updateCh = false) :
    removeServerPort topo serverName p =
      some ({ topo with
        hosts := storeSet topo.hosts s
          { topo.hosts s with portMap := mapDelete (topo.hosts s).portMap p }
        chClosed := storeSet (storeSet topo.chClosed topo.updateCh true) topo.chNext false
        updateCh := topo.chNext
        chNext := topo.chNext + 1 }, none) := by
  simp [removeServerPort, hsn, hm, rotate, hopen]

theorem removeServerPort_then_dial (topo : topology) (clientName serverName : String)
    (c s : Nat) (p : Int)
    (hc : lookupHost topo clientName = .ok c) (hsn : lookupHost topo serverName = .ok s)
    (hp : topo.ports p = some s) (hm : (topo.hosts s).portMap p = some serverPortType)
    (hnet : (computeNetworkState topo c s).1 = true)
    (hopen : topo.chClosed topo.updateCh = false) :
    dialState topo clientName p =
      ({ Latency := wrap64 ((computeNetworkState topo c s).2 * 2), OK := true }, none) ∧
    ∃ topo2, removeServerPort topo serverName p = some (topo2, none) ∧
      dialState topo2 clientName p =
        ({ Latency := wrap64 ((computeNetworkState topo c s).2 * 2), OK := false }, none) := by
  constructor
  · rw [dialState_of_hosts topo clientName p c s hc hp]
    simp [hnet, hm, dmul]
  · obtain ⟨t2, ht2⟩ : ∃ t2 : topology, t2 = { topo with
        hosts := storeSet topo.hosts s
          { topo.hosts s with portMap := mapDelete (topo.hosts s).portMap p }
        chClosed := storeSet (storeSet topo.chClosed topo.updateCh true) topo.chNext false
        updateCh := topo.chNext
        chNext := topo.chNext + 1 } := ⟨_, rfl⟩
    have hrem : removeServerPort topo serverName p = some (t2, none) := by
      rw [ht2]
      exact removeServerPort_of_registered topo serverName s p hsn hm hopen
    have hhosts : ∀ h, (t2.hosts h).toNodeState = (topo.hosts h).toNodeState ∧
        (t2.hosts h).rack = (topo.hosts h).rack := by
      intro h
      rw [ht2]
      by_cases hh : h = s
      · simp [storeSet, hh]
      · simp [storeSet, hh]
    have hl2 : lookupHost t2 clientName = .ok c := by
      rw [lookupHost_congr topo t2 (by rw [ht2]) (fun _ => by rw [ht2]) (fun _ => by rw [ht2])]
      exact hc
    have hp2 : t2.ports p = some s := by
      rw [ht2]
      exact hp
    have hgone : (t2.hosts s).portMap p = none := by
      rw [ht2]
      simp [storeSet, mapDelete]
    have hnet2 : computeNetworkState t2 c s = computeNetworkState topo c s :=
      computeNetworkState_congr topo t2 (fun h => (hhosts h).1) (fun h => (hhosts h).2)
        (by rw [ht2]) (by rw [ht2]) c s
    refine ⟨t2, hrem, ?_⟩
    rw [dialState_of_hosts t2 clientName p c s hl2 hp2, hnet2]
    simp [hnet, dmul, hgone]

/-- C6, amended. When the network between the client host and host `s` is up, `p` is a server
port in the port map of `s` and the global port map assigns `p` to `s`: `dialState(c, p)`
returns ok with twice the latency of `computeNetworkState` (in int64 arithmetic), and right
after `removeServerPort(s, p)` succeeds it returns, without error, not-ok with that same
latency, not a timeout constant. The removal does succeed as long as the update channel has not
been closed. -/
theorem dialState_after_removeServerPort (topo : topology) (clientName serverName : String)
    (c s : Nat) (p : Int)
    (hc : lookupHost topo clientName = .ok c) (hsn : lookupHost topo serverName = .ok s)
    (hp : topo.ports p = some s) (hm : (topo.hosts s).portMap p = some serverPortType)
    (hnet : (computeNetworkState topo c s).1 = true) :
    dialState topo clientName p =
      ({ Latency := wrap64 ((computeNetworkState topo c s).2 * 2), OK := true }, none) ∧
    (∀ topo2, removeServerPort topo serverName p = some (topo2, none) →
      dialState topo2 clientName p =
        ({ Latency := wrap64 ((computeNetworkState topo c s).2 * 2), OK := false }, none)) ∧
    (topo.chClosed topo.updateCh = false →
      ∃ topo2, removeServerPort topo serverName p = some (topo2, none)) := by
  refine ⟨?_, ?_, ?_⟩
  · rw [dialState_of_hosts topo clientName p c s hc hp]
    simp [hnet, hm, dmul]
  · intro topo2 hrem
    by_cases hopen : topo.chClosed topo.updateCh = false
    · obtain ⟨_, t2, h1, h2⟩ :=
        removeServerPort_then_dial topo clientName serverName c s p hc hsn hp hm hnet hopen
      rw [hrem] at h1
      simp only [Option.some.injEq, Prod.mk.injEq, and_true] at h1
      rw [h1]
      exact h2
    · have hclosed : topo.chClosed topo.updateCh = true := by simpa using hopen
      simp [removeServerPort, hsn, hm, rotate, hclosed] at hrem
  · intro hopen
    obtain ⟨_, t2, h1, _⟩ :=
      removeServerPort_then_dial topo clientName serverName c s p hc hsn hp hm hnet hopen
    exact ⟨t2, h1⟩

set_option maxRecDepth 100000 in
/-- In `TestApi` before and after its last mutation: stopping tiger's port 30011 turns apple's
dial from (ok, 502 ms) into (not ok, 502 ms). -/
theorem dialState_after_removeServerPort_witness :
    (afterOps (testApiOps.take 22)).isSome = true ∧
    wrap64 ((computeNetworkState (testApiState 21) 9 0).2 * 2) = 502000000 ∧
    dialState (testApiState 21) "plant.fruit.apple" 30011 =
      ({ Latency := wrap64 ((computeNetworkState (testApiState 21) 9 0).2 * 2), OK := true },
        none) ∧
    dialState (testApiState 22) "plant.fruit.apple" 30011 =
      ({ Latency := wrap64 ((computeNetworkState (testApiState 21) 9 0).2 * 2), OK := false },
        none) ∧
    dialState (testApiState 22) "plant.fruit.apple" 30011
      = ({ Latency := 502000000, OK := false }, none) :=
  have h := dialState_after_removeServerPort (testApiState 21) "plant.fruit.apple"
    "animal.land.tiger" 9 0 30011 (by decide) (by decide) (by decide) (by decide) (by decide)
  ⟨by decide, by decide, h.1, h.2.1 (testApiState 22) rfl, by decide⟩

/-! ## Ports with the client role -/

set_option maxRecDepth 100000 in
/-- C7. On the default topology, after tiger's server port 30011 is registered and removed, a
later `addClientPort` for 30011 (here on lion) makes apple's `dialState` for 30011 answer ok,
although no `addServerPort` for 30011 followed the removal. -/
theorem dialState_ok_after_removeServerPort :
    (afterOps [.addServerPort "animal.land.tiger" 30011,
        .removeServerPort "animal.land.tiger" 30011]).map
      (fun t => dialState t "plant.fruit.apple" 30011)
      = some ({ Latency := 444000000, OK := false }, none) ∧
    (afterOps [.addServerPort "animal.land.tiger" 30011,
        .removeServerPort "animal.land.tiger" 30011]).map
      (fun t => (Op.apply t (.addClientPort "animal.land.lion" 30011)).map (fun r => r.2))
      = some (some none) ∧
    (afterOps [.addServerPort "animal.land.tiger" 30011,
        .removeServerPort "animal.land.tiger" 30011,
        .addClientPort "animal.land.lion" 30011]).map
      (fun t => dialState t "plant.fruit.apple" 30011)
      = some ({ Latency := 444000000, OK := true }, none) := by
  decide

set_option maxRecDepth 100000 in
/-- C8. On the default topology, after `addClientPort("animal.land.tiger", 30011)` the port is
in tiger's port map with the client role only, and apple's `dialState` for 30011 answers ok. -/
theorem dialState_ok_on_client_port :
    (afterOps []).map (fun t => (addClientPort t "animal.land.tiger" 30011).map (fun r => r.2))
      = some (some none) ∧
    (afterOps [.addClientPort "animal.land.tiger" 30011]).map
      (fun t => (t.ports 30011, (t.hosts 0).portMap 30011))
      = some (some 0, some clientPortType) ∧
    (afterOps [.addClientPort "animal.land.tiger" 30011]).map
      (fun t => dialState t "plant.fruit.apple" 30011)
      = some ({ Latency := 444000000, OK := true }, none) := by
  decide

/-! ## Verdicts of established connections -/

set_option maxRecDepth 100000 in
/-- C10, as stated, fails: on the default topology with tiger serving 30011, after
`addClientPort("plant.fruit.apple", 40001)` and `removeClientPort(40001)` both succeed, port
40001 is not registered on apple (host 9), yet `connState(40001, 30011)` returns an error. -/
theorem connState_error_after_removeClientPort :
    (afterOps [.addServerPort "animal.land.tiger" 30011,
        .addClientPort "plant.fruit.apple" 40001]).map
      (fun t => ((t.hosts 9).portMap 40001,
        (removeClientPort t 40001).map (fun r => r.2)))
      = some (some clientPortType, some none) ∧
    (afterOps [.addServerPort "animal.land.tiger" 30011,
        .addClientPort "plant.fruit.apple" 40001, .removeClientPort 40001]).map
      (fun t => ((t.hosts 9).portMap 40001, connState t 40001 30011))
      = some (none, ConnState.zero, some "connState:unknown client port 40001") := by
  decide

/-- C10, amended. When the global port map names a host for both ports and the host it names for
`clientPort` has no entry for `clientPort` in its own port map, `connState` returns the zero
verdict and no error. When the global port map has no entry for `clientPort` it returns an
unknown-client-port error, and that is the case after a successful `removeClientPort`, which
deletes the entry of the global port map as well. -/
theorem connState_unregistered_client (topo : topology) (clientPort serverPort : Int) :
    (∀ ch sh, topo.ports clientPort = some ch → topo.ports serverPort = some sh →
      (topo.hosts ch).portMap clientPort = none →
      connState topo clientPort serverPort = (ConnState.zero, none)) ∧
    (topo.ports clientPort = none →
      connState topo clientPort serverPort =
        (ConnState.zero, some ("connState:unknown client port " ++ toString clientPort))) ∧
    (∀ topo2, removeClientPort topo clientPort = some (topo2, none) →
      topo2.ports clientPort = none) := by
  refine ⟨?_, ?_, ?_⟩
  · intro ch sh h1 h2 h3
    simp [connState, h1, h2, h3]
  · intro h1
    simp [connState, h1]
  · intro topo2 h
    unfold removeClientPort at h
    cases hp : topo.ports clientPort with
    | none => simp [hp] at h
    | some hp2 =>
      simp only [hp] at h
      cases hm : (topo.hosts hp2).portMap clientPort with
      | none => simp [hm] at h
      | some role =>
        simp only [hm] at h
        by_cases hrole : role = clientPortType
        · simp only [hrole, ne_eq, not_true_eq_false, if_false, Option.some.injEq,
            Prod.mk.injEq, and_true] at h
          rw [← h]
          simp [mapDelete]
        · simp [hrole] at h

set_option maxRecDepth 100000 in
/-- After tiger's port 30011 was registered and removed with `removeServerPort`, the global map
still names tiger for 30011 while tiger's own map has no entry: `connState(30011, 30001)` is
the zero verdict. After apple's client port 40001 was added and removed, `connState` fails. -/
theorem connState_unregistered_client_witness :
    connState (testApiState 22) 30011 30001 = (ConnState.zero, none) ∧
    connState (stateAfter [.addClientPort "plant.fruit.apple" 40001, .removeClientPort 40001])
        40001 30001
      = (ConnState.zero, some ("connState:unknown client port " ++ toString (40001 : Int))) ∧
    (stateAfter [.addClientPort "plant.fruit.apple" 40001, .removeClientPort 40001]).ports 40001
      = none :=
  ⟨(connState_unregistered_client (testApiState 22) 30011 30001).1 0 1
      (by decide) (by decide) (by decide),
    (connState_unregistered_client
      (stateAfter [.addClientPort "plant.fruit.apple" 40001, .removeClientPort 40001])
      40001 30001).2.1 (by decide),
    (connState_unregistered_client (stateAfter [.addClientPort "plant.fruit.apple" 40001])
      40001 30001).2.2 _ rfl⟩

/-! ## The registry invariant -/

theorem builtWell_congr (t1 t2 : topology) (h1 : t2.ports = t1.ports) (h2 : t2.hosts = t1.hosts)
    (h3 : t2.hostNext = t1.hostNext) (h4 : t2.chClosed = t1.chClosed)
    (h5 : t2.updateCh = t1.updateCh) (hb : builtWell t1) : builtWell t2 := by
  unfold builtWell
  rw [h1, h2, h3, h4, h5]
  exact hb

theorem newHostPorts_spec (hp : Nat) (ports : List Int) :
    ∀ (pm : Int → Option Bool) (gp : Int → Option Nat) (q : Int),
      (newHostPorts hp ports pm gp).1 q = (if q ∈ ports then some serverPortType else pm q) ∧
      (newHostPorts hp ports pm gp).2 q = (if q ∈ ports then some hp else gp q) := by
  induction ports with
  | nil => intro pm gp q; simp [newHostPorts]
  | cons port rest ih =>
    intro pm gp q
    have h := ih (mapSet pm port serverPortType) (mapSet gp port hp) q
    simp only [newHostPorts, h, List.mem_cons, mapSet]
    by_cases hq : q = port
    · simp [hq]
    · simp [hq]

theorem newHost_builtWell (topo : topology) (confHost : Host) (rp : Nat) (hb : builtWell topo) :
    builtWell (newHost topo confHost rp).1 := by
  refine ⟨hb.1, ?_⟩
  intro p h hph
  have hspec := newHostPorts_spec topo.hostNext confHost.Ports mapEmpty topo.ports p
  simp only [newHost] at hph ⊢
  rw [hspec.2] at hph
  by_cases hmem : p ∈ confHost.Ports
  · simp only [hmem, if_true, Option.some.injEq] at hph
    subst hph
    refine ⟨Nat.lt_succ_self _, ?_⟩
    simp [storeSet, hspec.1, hmem]
  · simp only [hmem, if_false] at hph
    have hold := hb.2 p h hph
    refine ⟨Nat.lt_succ_of_lt hold.1, ?_⟩
    have hne : h ≠ topo.hostNext := Nat.ne_of_lt hold.1
    simp only [storeSet, hne, if_false]
    exact hold.2

theorem newRackHosts_builtWell (rp : Nat) (hd : Option NodeState) (hosts : List (Option Host)) :
    ∀ (topo t2 : topology), newRackHosts rp hd hosts topo = some t2 → builtWell topo →
      builtWell t2 := by
  induction hosts with
  | nil =>
    intro topo t2 h hb
    simp only [newRackHosts, Option.some.injEq] at h
    rw [← h]
    exact hb
  | cons x rest ih =>
    intro topo t2 h hb
    cases x with
    | none => simp [newRackHosts] at h
    | some confHost =>
      simp only [newRackHosts] at h
      refine ih _ t2 h ?_
      exact builtWell_congr _ _ rfl rfl rfl rfl rfl (newHost_builtWell topo _ rp hb)

theorem newRack_builtWell (topo t2 : topology) (confRack : Rack) (dp rp : Nat)
    (h : newRack topo confRack dp = some (t2, rp)) (hb : builtWell topo) : builtWell t2 := by
  simp only [newRack] at h
  split at h
  · simp at h
  · rename_i t3 heq
    simp only [Option.some.injEq, Prod.mk.injEq] at h
    rw [← h.1]
    exact newRackHosts_builtWell _ _ _ _ t3 heq (builtWell_congr topo _ rfl rfl rfl rfl rfl hb)

theorem newDcRacks_builtWell (dp : Nat) (rd hd : Option NodeState) (racks : List (Option Rack)) :
    ∀ (topo t2 : topology), newDcRacks dp rd hd racks topo = some t2 → builtWell topo →
      builtWell t2 := by
  induction racks with
  | nil =>
    intro topo t2 h hb
    simp only [newDcRacks, Option.some.injEq] at h
    rw [← h]
    exact hb
  | cons x rest ih =>
    intro topo t2 h hb
    cases x with
    | none => simp [newDcRacks] at h
    | some confRack =>
      simp only [newDcRacks] at h
      split at h
      · simp at h
      · rename_i res heq
        refine ih _ t2 h ?_
        exact builtWell_congr _ _ rfl rfl rfl rfl rfl
          (newRack_builtWell topo res.1 _ dp res.2 heq hb)

theorem newDc_builtWell (topo t2 : topology) (confDC : DataCenter) (dp : Nat)
    (h : newDc topo confDC = some (t2, dp)) (hb : builtWell topo) : builtWell t2 := by
  simp only [newDc] at h
  split at h
  · simp at h
  · rename_i t3 heq
    simp only [Option.some.injEq, Prod.mk.injEq] at h
    rw [← h.1]
    exact newDcRacks_builtWell _ _ _ _ _ t3 heq (builtWell_congr topo _ rfl rfl rfl rfl rfl hb)

theorem newTopologyDcs_builtWell (config : Config) (dcs : List (Option DataCenter)) :
    ∀ (topo t2 : topology), newTopologyDcs config dcs topo = some t2 → builtWell topo →
      builtWell t2 := by
  induction dcs with
  | nil =>
    intro topo t2 h hb
    simp only [newTopologyDcs, Option.some.injEq] at h
    rw [← h]
    exact hb
  | cons x rest ih =>
    intro topo t2 h hb
    cases x with
    | none => simp [newTopologyDcs] at h
    | some confDC =>
      simp only [newTopologyDcs] at h
      split at h
      · simp at h
      · rename_i res heq
        refine ih _ t2 h ?_
        exact builtWell_congr _ _ rfl rfl rfl rfl rfl (newDc_builtWell topo res.1 _ res.2 heq hb)

theorem newTopology_builtWell (config : Config) (t0 : topology)
    (h : newTopology config = some t0) : builtWell t0 := by
  refine newTopologyDcs_builtWell config config.DataCenters emptyTopology t0 h ?_
  refine ⟨rfl, ?_⟩
  intro p hh hp
  simp [emptyTopology, mapEmpty] at hp

theorem builtWell_registryWell (topo : topology) (hb : builtWell topo) :
    registryWell topo (initialRoles topo) := by
  refine ⟨hb.1, ?_⟩
  intro p h hp
  simp [initialRoles, hp, (hb.2 p h hp).2]

theorem addServerPort_of_free (topo : topology) (name : String) (hp : Nat) (port : Int)
    (hl : lookupHost topo name = .ok hp) (hm : (topo.hosts hp).portMap port = none)
    (hopen : topo.chClosed topo.updateCh = false) :
    addServerPort topo name port =
      some ({ topo with
        hosts := storeSet topo.hosts hp
          { topo.hosts hp with portMap := mapSet (topo.hosts hp).portMap port serverPortType }
        ports := mapSet topo.ports port hp
        chClosed := storeSet (storeSet topo.chClosed topo.updateCh true) topo.chNext false
        updateCh := topo.chNext
        chNext := topo.chNext + 1 }, none) := by
  simp [addServerPort, hl, hm, rotate, hopen]

theorem addClientPort_of_free (topo : topology) (name : String) (hp : Nat) (port : Int)
    (hl : lookupHost topo name = .ok hp) (hm : (topo.hosts hp).portMap port = none) :
    addClientPort topo name port =
      some ({ topo with
        hosts := storeSet topo.hosts hp
          { topo.hosts hp with portMap := mapSet (topo.hosts hp).portMap port clientPortType }
        ports := mapSet topo.ports port hp }, none) := by
  simp [addClientPort, hl, hm]

theorem removeClientPort_of_client (topo : topology) (hp : Nat) (port : Int)
    (hg : topo.ports port = some hp)
    (hm : (topo.hosts hp).portMap port = some clientPortType) :
    removeClientPort topo port =
      some ({ topo with
        hosts := storeSet topo.hosts hp
          { topo.hosts hp with portMap := mapDelete (topo.hosts hp).portMap port }
        ports := mapDelete topo.ports port }, none) := by
  simp [removeClientPort, hg, hm]

theorem portsRegisteredAs_set (topo : topology) (roles : Int → Option Bool) (hp : Nat)
    (port : Int) (role : Bool) (hw : portsRegisteredAs topo roles) (t2 : topology)
    (hports : t2.ports = mapSet topo.ports port hp)
    (hhosts : t2.hosts = storeSet topo.hosts hp
      { topo.hosts hp with portMap := mapSet (topo.hosts hp).portMap port role }) :
    portsRegisteredAs t2 (mapSet roles port role) := by
  intro q h hq
  rw [hports] at hq
  rw [hhosts]
  by_cases hqp : q = port
  · simp only [mapSet, hqp, if_true, Option.some.injEq] at hq
    simp [mapSet, storeSet, hqp, ← hq]
  · simp only [mapSet, hqp, if_false] at hq
    have hold := hw q h hq
    by_cases hh : h = hp
    · subst hh
      simpa [mapSet, storeSet, hqp] using hold
    · simpa [mapSet, storeSet, hqp, hh] using hold

theorem portsRegisteredAs_delete (topo : topology) (roles : Int → Option Bool) (hp : Nat)
    (port : Int) (hw : portsRegisteredAs topo roles) (t2 : topology)
    (hports : t2.ports = mapDelete topo.ports port)
    (hhosts : t2.hosts = storeSet topo.hosts hp
      { topo.hosts hp with portMap := mapDelete (topo.hosts hp).portMap port }) :
    portsRegisteredAs t2 (mapDelete roles port) := by
  intro q h hq
  rw [hports] at hq
  rw [hhosts]
  by_cases hqp : q = port
  · simp [mapDelete, hqp] at hq
  · simp only [mapDelete, hqp, if_false] at hq
    have hold := hw q h hq
    by_cases hh : h = hp
    · subst hh
      simpa [mapDelete, storeSet, hqp] using hold
    · simpa [mapDelete, storeSet, hqp, hh] using hold

theorem registryOp_step (op : Op) (topo : topology) (roles : Int → Option Bool)
    (hop : op.isRegistryOp = true) (hw : registryWell topo roles) :
    (∃ t2, op.apply topo = some (t2, none) ∧ registryWell t2 (op.registers roles)) ∨
    (∃ err, op.apply topo = some (topo, some err)) := by
  cases op with
  | addServerPort name port =>
    cases hl : lookupHost topo name with
    | error err => exact Or.inr ⟨err, by simp only [Op.apply, addServerPort, hl]⟩
    | ok hp =>
      cases hm : (topo.hosts hp).portMap port with
      | some v =>
        exact Or.inr ⟨"port has been taken already.", by simp only [Op.apply, addServerPort, hl, hm]⟩
      | none =>
        left
        refine ⟨_, addServerPort_of_free topo name hp port hl hm hw.1, ?_, ?_⟩
        · simp [storeSet]
        · exact portsRegisteredAs_set topo roles hp port serverPortType hw.2 _ rfl rfl
  | addClientPort name port =>
    cases hl : lookupHost topo name with
    | error err => exact Or.inr ⟨err, by simp only [Op.apply, addClientPort, hl]⟩
    | ok hp =>
      cases hm : (topo.hosts hp).portMap port with
      | some v =>
        exact Or.inr ⟨"port has been taken already.", by simp only [Op.apply, addClientPort, hl, hm]⟩
      | none =>
        left
        refine ⟨_, addClientPort_of_free topo name hp port hl hm, hw.1, ?_⟩
        exact portsRegisteredAs_set topo roles hp port clientPortType hw.2 _ rfl rfl
  | removeClientPort port =>
    cases hg : topo.ports port with
    | none => exact Or.inr ⟨"unknown port", by simp only [Op.apply, removeClientPort, hg]⟩
    | some hp =>
      cases hm : (topo.hosts hp).portMap port with
      | none =>
        exact Or.inr ⟨"port hasn't been registered", by simp only [Op.apply, removeClientPort, hg, hm]⟩
      | some role =>
        cases role with
        | false =>
          left
          refine ⟨_, removeClientPort_of_client topo hp port hg hm, hw.1, ?_⟩
          exact portsRegisteredAs_delete topo roles hp port hw.2 _ rfl rfl
        | true =>
          exact Or.inr ⟨"port isn't registered as client port",
            by simp [Op.apply, removeClientPort, hg, hm, clientPortType]⟩
  | removeServerPort name port => simp [Op.isRegistryOp] at hop
  | setNodeState name st => simp [Op.isRegistryOp] at hop

theorem runOpsRoles_registryWell (ops : List Op) :
    ∀ (topo : topology) (roles : Int → Option Bool),
      (∀ op ∈ ops, op.isRegistryOp = true) → registryWell topo roles →
      ∃ t roles2, runOps topo ops = some t ∧ runOpsRoles topo roles ops = some (t, roles2) ∧
        registryWell t roles2 := by
  induction ops with
  | nil =>
    intro topo roles _ hw
    exact ⟨topo, roles, rfl, rfl, hw⟩
  | cons op rest ih =>
    intro topo roles hops hw
    have hop : op.isRegistryOp = true := hops op (List.mem_cons_self _ _)
    have hrest : ∀ o ∈ rest, o.isRegistryOp = true :=
      fun o ho => hops o (List.mem_cons_of_mem _ ho)
    rcases registryOp_step op topo roles hop hw with ⟨t2, happ, hw2⟩ | ⟨err, happ⟩
    · obtain ⟨t, roles2, h1, h2, h3⟩ := ih t2 (op.registers roles) hrest hw2
      exact ⟨t, roles2, by simp only [runOps, happ, h1], by simp only [runOpsRoles, happ, h2], h3⟩
    · obtain ⟨t, roles2, h1, h2, h3⟩ := ih topo roles hrest hw
      exact ⟨t, roles2, by simp only [runOps, happ, h1], by simp only [runOpsRoles, happ, h2], h3⟩

theorem removeServerPort_keeps_ports (topo topo2 : topology) (name : String) (port : Int)
    (h : removeServerPort topo name port = some (topo2, none)) :
    topo2.ports = topo.ports ∧
    ∃ hp, lookupHost topo name = .ok hp ∧ (topo.hosts hp).portMap port = some serverPortType ∧
      (topo2.hosts hp).portMap port = none := by
  unfold removeServerPort at h
  cases hl : lookupHost topo name with
  | error err => simp [hl] at h
  | ok hp =>
    simp only [hl] at h
    cases hm : (topo.hosts hp).portMap port with
    | none => simp [hm] at h
    | some role =>
      simp only [hm] at h
      by_cases hrole : role = serverPortType
      · simp only [hrole, ne_eq, not_true_eq_false, if_false] at h
        cases hr : rotate { topo with
            hosts := storeSet topo.hosts hp
              { topo.hosts hp with portMap := mapDelete (topo.hosts hp).portMap port } } with
        | none => simp [hr] at h
        | some t3 =>
          simp only [hr, Option.some.injEq, Prod.mk.injEq, and_true] at h
          have heq := (rotate_eq _ _ hr).2
          rw [← h, heq]
          refine ⟨rfl, hp, rfl, by rw [hm, hrole], ?_⟩
          simp [storeSet, mapDelete]
      · simp [hrole] at h

set_option maxRecDepth 100000 in
/-- C9, as stated, fails: on the default topology `addServerPort("animal.land.tiger", 30011)` and
then `removeServerPort("animal.land.tiger", 30011)` both succeed, and afterwards the global port
map still names tiger (host 0) for 30011 while tiger's port map has no entry for it. -/
theorem registry_broken_by_removeServerPort :
    (afterOps [.addServerPort "animal.land.tiger" 30011]).map
      (fun t => (removeServerPort t "animal.land.tiger" 30011).map (fun r => r.2))
      = some (some none) ∧
    (afterOps [.addServerPort "animal.land.tiger" 30011,
      .removeServerPort "animal.land.tiger" 30011]).isSome = true ∧
    ¬ portsRegistered (stateAfter [.addServerPort "animal.land.tiger" 30011,
      .removeServerPort "animal.land.tiger" 30011]) := by
  refine ⟨by decide, by decide, ?_⟩
  intro h
  have h2 := h 30011 0 (by decide)
  revert h2
  decide

/-- C9, amended. In every state reached from a topology built by `newTopology` through
`addServerPort`, `addClientPort` and `removeClientPort` (no call panics), every entry
`(port → host)` of the global port map has an entry for `port` in `host.portMap`, with the role
the port was registered under. `removeServerPort`, when it succeeds, deletes the port from the
host's own map only and leaves the global port map as it was. -/
theorem registry_invariant (config : Config) (t0 : topology) (ops : List Op)
    (h0 : newTopology config = some t0) (hops : ∀ op ∈ ops, op.isRegistryOp = true) :
    (∃ t roles, runOps t0 ops = some t ∧
      runOpsRoles t0 (initialRoles t0) ops = some (t, roles) ∧
      portsRegisteredAs t roles ∧ portsRegistered t) ∧
    (∀ (topo topo2 : topology) (name : String) (port : Int),
      removeServerPort topo name port = some (topo2, none) →
      topo2.ports = topo.ports ∧
      ∃ hp, lookupHost topo name = .ok hp ∧
        (topo.hosts hp).portMap port = some serverPortType ∧
        (topo2.hosts hp).portMap port = none) := by
  constructor
  · have hw := builtWell_registryWell t0 (newTopology_builtWell config t0 h0)
    obtain ⟨t, roles, h1, h2, h3⟩ := runOpsRoles_registryWell ops t0 (initialRoles t0) hops hw
    refine ⟨t, roles, h1, h2, h3.2, ?_⟩
    intro p h hp
    have hpr := h3.2 p h hp
    rw [hpr.1]
    exact hpr.2
  · intro topo topo2 name port h
    exact removeServerPort_keeps_ports topo topo2 name port h

set_option maxRecDepth 100000 in
/-- On the default topology: tiger registers 30011, apple opens and closes client port 40001,
lion opens client port 40002. -/
theorem registry_invariant_witness :
    ∃ t roles,
      runOps (stateAfter [])
        [.addServerPort "animal.land.tiger" 30011, .addClientPort "plant.fruit.apple" 40001,
          .removeClientPort 40001, .addClientPort "animal.land.lion" 40002] = some t ∧
      runOpsRoles (stateAfter []) (initialRoles (stateAfter []))
        [.addServerPort "animal.land.tiger" 30011, .addClientPort "plant.fruit.apple" 40001,
          .removeClientPort 40001, .addClientPort "animal.land.lion" 40002] = some (t, roles) ∧
      portsRegisteredAs t roles ∧ portsRegistered t :=
  (registry_invariant DefaultConfig (stateAfter [])
    [.addServerPort "animal.land.tiger" 30011, .addClientPort "plant.fruit.apple" 40001,
      .removeClientPort 40001, .addClientPort "animal.land.lion" 40002] rfl (by decide)).1

/-! ## Established connections -/

theorem connState_of_hosts (topo : topology) (clientPort serverPort : Int) (c s : Nat)
    (role : Bool) (hc : topo.ports clientPort = some c) (hs : topo.ports serverPort = some s)
    (hreg : (topo.hosts c).portMap clientPort = some role) :
    connState topo clientPort serverPort =
      if (computeNetworkState topo c s).1 then
        ({ OK := ((topo.hosts s).portMap serverPort).isSome,
           Latency := (computeNetworkState topo c s).2 }, none)
      else ({ OK := false, Latency := tcpTimeOut }, none) := by
  simp [connState, hc, hs, hreg]

/-- C11, amended. For a client port that the global map assigns to host `c` and that is in the
own map of `c`, and a server port whose host in the global map is `s`: when
`computeNetworkState(c, s)` is not ok, `connState` returns, without error, not-ok with latency
`tcpTimeOut`, which is 15 minutes; otherwise it returns the latency of `computeNetworkState` as
it is (not doubled) and ok exactly when `s.portMap` has an entry for the server port. -/
theorem connState_verdict (topo : topology) (clientPort serverPort : Int) (c s : Nat)
    (role : Bool) (hc : topo.ports clientPort = some c) (hs : topo.ports serverPort = some s)
    (hreg : (topo.hosts c).portMap clientPort = some role) :
    ((computeNetworkState topo c s).1 = false →
      connState topo clientPort serverPort = ({ Latency := tcpTimeOut, OK := false }, none)) ∧
    ((computeNetworkState topo c s).1 = true →
      connState topo clientPort serverPort =
        ({ Latency := (computeNetworkState topo c s).2,
           OK := ((topo.hosts s).portMap serverPort).isSome }, none)) ∧
    tcpTimeOut = 15 * 60 * 1000000000 := by
  rw [connState_of_hosts topo clientPort serverPort c s role hc hs hreg]
  refine ⟨?_, ?_, by simp [tcpTimeOut, Minute]⟩
  · intro h
    simp [h]
  · intro h
    simp [h]

set_option maxRecDepth 100000 in
/-- On the default topology with apple serving 30003 and tiger holding client port 50000: the
verdict is (ok, 222 ms), the one-way latency; with datacenter `plant` externalDown,
(not ok, 15 min). -/
theorem connState_verdict_witness :
    connState (stateAfter [.addServerPort "plant.fruit.apple" 30003,
        .addClientPort "animal.land.tiger" 50000]) 50000 30003
      = ({ Latency := (computeNetworkState (stateAfter [.addServerPort "plant.fruit.apple" 30003,
            .addClientPort "animal.land.tiger" 50000]) 0 9).2,
           OK := (((stateAfter [.addServerPort "plant.fruit.apple" 30003,
            .addClientPort "animal.land.tiger" 50000]).hosts 9).portMap 30003).isSome }, none) ∧
    connState (stateAfter [.addServerPort "plant.fruit.apple" 30003,
        .addClientPort "animal.land.tiger" 50000]) 50000 30003
      = ({ Latency := 222000000, OK := true }, none) ∧
    connState (stateAfter [.addServerPort "plant.fruit.apple" 30003,
        .addClientPort "animal.land.tiger" 50000, .setNodeState "plant" stExternalDown])
        50000 30003
      = ({ Latency := tcpTimeOut, OK := false }, none) ∧
    tcpTimeOut = 900000000000 :=
  ⟨(connState_verdict (stateAfter [.addServerPort "plant.fruit.apple" 30003,
        .addClientPort "animal.land.tiger" 50000]) 50000 30003 0 9 clientPortType
      (by decide) (by decide) (by decide)).2.1 (by decide),
    by decide,
    (connState_verdict (stateAfter [.addServerPort "plant.fruit.apple" 30003,
        .addClientPort "animal.land.tiger" 50000, .setNodeState "plant" stExternalDown])
      50000 30003 0 9 clientPortType (by decide) (by decide) (by decide)).1 (by decide),
    by decide⟩

/-! ## Symmetry -/

theorem computeNetworkState_symm (topo : topology) (a b : Nat) :
    computeNetworkState topo a b = computeNetworkState topo b a := by
  by_cases hh : a = b
  · subst hh
    rfl
  · have hh2 : ¬ b = a := fun h => hh h.symm
    by_cases hr : (topo.hosts a).rack = (topo.hosts b).rack
    · simp only [computeNetworkState, ne_eq, hh, hh2, hr, not_false_eq_true, not_true_eq_false,
        if_true, if_false, dadd, Bool.or_comm, Bool.or_left_comm, Bool.or_assoc, add_comm]
    · have hr2 : ¬ (topo.hosts b).rack = (topo.hosts a).rack := fun h => hr h.symm
      by_cases hd : (topo.racks (topo.hosts a).rack).dataCenter
          = (topo.racks (topo.hosts b).rack).dataCenter
      · simp only [computeNetworkState, ne_eq, hh, hh2, hr, hr2, hd, not_false_eq_true,
          not_true_eq_false, if_true, if_false, dadd, Bool.or_comm, Bool.or_left_comm,
          Bool.or_assoc, add_comm]
      · have hd2 : ¬ (topo.racks (topo.hosts b).rack).dataCenter
            = (topo.racks (topo.hosts a).rack).dataCenter := fun h => hd h.symm
        simp only [computeNetworkState, ne_eq, hh, hh2, hr, hr2, hd, hd2, not_false_eq_true,
          not_true_eq_false, if_true, if_false, dadd, Bool.or_comm, Bool.or_left_comm,
          Bool.or_assoc, add_comm]

/-- C12. For every pair of hosts of one topology, `computeNetworkState(a, b)` and
`computeNetworkState(b, a)` return the same latency and the same ok; the ok results agree
whatever the down flags are, so in particular when both sides have identical down flags. -/
theorem computeNetworkState_symmetric (topo : topology) (a b : Nat) :
    (computeNetworkState topo a b).2 = (computeNetworkState topo b a).2 ∧
    (computeNetworkState topo a b).1 = (computeNetworkState topo b a).1 ∧
    (((topo.hosts a).InternalDown = (topo.hosts b).InternalDown ∧
      (topo.hosts a).ExternalDown = (topo.hosts b).ExternalDown ∧
      (rackOf topo a).InternalDown = (rackOf topo b).InternalDown ∧
      (rackOf topo a).ExternalDown = (rackOf topo b).ExternalDown ∧
      (dcOf topo a).InternalDown = (dcOf topo b).InternalDown ∧
      (dcOf topo a).ExternalDown = (dcOf topo b).ExternalDown) →
      (computeNetworkState topo a b).1 = (computeNetworkState topo b a).1) :=
  ⟨by rw [computeNetworkState_symm], by rw [computeNetworkState_symm],
    fun _ => by rw [computeNetworkState_symm]⟩

set_option maxRecDepth 100000 in
/-- On the default topology, apple (host 9) and tiger (host 0) have identical down flags on
both sides; the two directions agree on (ok, 222 ms). -/
theorem computeNetworkState_symmetric_witness :
    computeNetworkState (stateAfter []) 9 0 = (true, 222000000) ∧
    computeNetworkState (stateAfter []) 0 9 = (true, 222000000) ∧
    (computeNetworkState (stateAfter []) 9 0).1 = (computeNetworkState (stateAfter []) 0 9).1 :=
  ⟨by decide, by decide,
    (computeNetworkState_symmetric (stateAfter []) 9 0).2.2
      ⟨by decide, by decide, by decide, by decide, by decide, by decide⟩⟩

/-! ## Calls that return an error -/

theorem addServerPort_error (topo t2 : topology) (name : String) (port : Int) (err : String)
    (h : addServerPort topo name port = some (t2, some err)) : t2 = topo := by
  unfold addServerPort at h
  split at h
  · simp only [Option.some.injEq, Prod.mk.injEq] at h
    exact h.1.symm
  · dsimp only at h
    split at h
    · simp only [Option.some.injEq, Prod.mk.injEq] at h
      exact h.1.symm
    · split at h <;> simp at h

theorem removeServerPort_error (topo t2 : topology) (name : String) (port : Int) (err : String)
    (h : removeServerPort topo name port = some (t2, some err)) : t2 = topo := by
  unfold removeServerPort at h
  split at h
  · simp only [Option.some.injEq, Prod.mk.injEq] at h
    exact h.1.symm
  · dsimp only at h
    split at h
    · simp only [Option.some.injEq, Prod.mk.injEq] at h
      exact h.1.symm
    · split at h
      · simp only [Option.some.injEq, Prod.mk.injEq] at h
        exact h.1.symm
      · split at h <;> simp at h

theorem addClientPort_error (topo t2 : topology) (name : String) (port : Int) (err : String)
    (h : addClientPort topo name port = some (t2, some err)) : t2 = topo := by
  unfold addClientPort at h
  split at h
  · simp only [Option.some.injEq, Prod.mk.injEq] at h
    exact h.1.symm
  · dsimp only at h
    split at h
    · simp only [Option.some.injEq, Prod.mk.injEq] at h
      exact h.1.symm
    · simp at h

theorem removeClientPort_error (topo t2 : topology) (port : Int) (err : String)
    (h : removeClientPort topo port = some (t2, some err)) : t2 = topo := by
  unfold removeClientPort at h
  split at h
  · simp only [Option.some.injEq, Prod.mk.injEq] at h
    exact h.1.symm
  · dsimp only at h
    split at h
    · simp only [Option.some.injEq, Prod.mk.injEq] at h
      exact h.1.symm
    · split at h
      · simp only [Option.some.injEq, Prod.mk.injEq] at h
        exact h.1.symm
      · simp at h

theorem setNodeState_error (topo t2 : topology) (name : String) (st : NodeState) (err : String)
    (h : setNodeState topo name st = some (t2, some err)) : t2 = topo := by
  unfold setNodeState at h
  split at h
  · simp only [Option.some.injEq, Prod.mk.injEq] at h
    exact h.1.symm
  · split at h <;> simp at h

/-- C14. Whenever `addServerPort`, `removeServerPort`, `addClientPort`, `removeClientPort` or
`setNodeState` returns an error, the topology after the call is the topology before it: node
states, port maps of the hosts, global port map and update channel (the same channel, not
closed) are all unchanged. -/
theorem failed_call_leaves_topology (topo t2 : topology) (op : Op) (err : String)
    (h : op.apply topo = some (t2, some err)) :
    t2 = topo ∧ t2.dcs = topo.dcs ∧ t2.racks = topo.racks ∧ t2.hosts = topo.hosts ∧
    t2.ports = topo.ports ∧ t2.updateCh = topo.updateCh ∧ t2.chClosed = topo.chClosed := by
  have heq : t2 = topo := by
    cases op with
    | addServerPort name port => exact addServerPort_error topo t2 name port err h
    | removeServerPort name port => exact removeServerPort_error topo t2 name port err h
    | addClientPort name port => exact addClientPort_error topo t2 name port err h
    | removeClientPort port => exact removeClientPort_error topo t2 port err h
    | setNodeState name st => exact setNodeState_error topo t2 name st err h
  rw [heq]
  exact ⟨rfl, rfl, rfl, rfl, rfl, rfl, rfl⟩

set_option maxRecDepth 100000 in
/-- In `TestApi` after three mutations, each kind of error: port already taken, unknown name,
a name that is not a host, port not registered, role mismatch (both ways), unknown port. -/
theorem failed_call_leaves_topology_witness :
    (testApiState 3 = testApiState 3 ∧ (testApiState 3).dcs = (testApiState 3).dcs ∧
      (testApiState 3).racks = (testApiState 3).racks ∧
      (testApiState 3).hosts = (testApiState 3).hosts ∧
      (testApiState 3).ports = (testApiState 3).ports ∧
      (testApiState 3).updateCh = (testApiState 3).updateCh ∧
      (testApiState 3).chClosed = (testApiState 3).chClosed) ∧
    (addServerPort (testApiState 3) "plant.fruit.apple" 30003).map (fun r => r.2)
      = some (some "port has been taken already.") ∧
    (addClientPort (testApiState 3) "plant.fruit.apple" 30003).map (fun r => r.2)
      = some (some "port has been taken already.") ∧
    (addServerPort (testApiState 3) "plant.fruit.melon" 30005).map (fun r => r.2)
      = some (some "undefined host name,melon") ∧
    (addServerPort (testApiState 3) "plant.fruit" 30005).map (fun r => r.2)
      = some (some "invalid host name") ∧
    (removeServerPort (testApiState 3) "plant.fruit.apple" 30005).map (fun r => r.2)
      = some (some "port hasn't been registered") ∧
    (removeClientPort (testApiState 3) 30003).map (fun r => r.2)
      = some (some "port isn't registered as client port") ∧
    (removeClientPort (testApiState 3) 30005).map (fun r => r.2)
      = some (some "unknown port") ∧
    (setNodeState (testApiState 3) "mineral" stExternalDown).map (fun r => r.2)
      = some (some "undefined dataCenter name,mineral") :=
  ⟨failed_call_leaves_topology (testApiState 3) (testApiState 3)
      (.addServerPort "plant.fruit.apple" 30003) "port has been taken already." rfl,
    by decide, by decide, by decide, by decide, by decide, by decide, by decide, by decide⟩

/-! ## The update channel -/

theorem newHost_channel (topo : topology) (confHost : Host) (rp : Nat) :
    (newHost topo confHost rp).1.updateCh = topo.updateCh ∧
    (newHost topo confHost rp).1.chNext = topo.chNext ∧
    (newHost topo confHost rp).1.chClosed = topo.chClosed :=
  ⟨rfl, rfl, rfl⟩

theorem newRackHosts_channel (rp : Nat) (hd : Option NodeState) (hosts : List (Option Host)) :
    ∀ (topo t2 : topology), newRackHosts rp hd hosts topo = some t2 →
      t2.updateCh = topo.updateCh ∧ t2.chNext = topo.chNext ∧ t2.chClosed = topo.chClosed := by
  induction hosts with
  | nil =>
    intro topo t2 h
    simp only [newRackHosts, Option.some.injEq] at h
    rw [← h]
    exact ⟨rfl, rfl, rfl⟩
  | cons x rest ih =>
    intro topo t2 h
    cases x with
    | none => simp [newRackHosts] at h
    | some confHost =>
      simp only [newRackHosts] at h
      have h2 := ih _ t2 h
      exact h2

theorem newRack_channel (topo t2 : topology) (confRack : Rack) (dp rp : Nat)
    (h : newRack topo confRack dp = some (t2, rp)) :
    t2.updateCh = topo.updateCh ∧ t2.chNext = topo.chNext ∧ t2.chClosed = topo.chClosed := by
  simp only [newRack] at h
  split at h
  · simp at h
  · rename_i t3 heq
    simp only [Option.some.injEq, Prod.mk.injEq] at h
    rw [← h.1]
    have h2 := newRackHosts_channel _ _ _ _ t3 heq
    exact h2

theorem newDcRacks_channel (dp : Nat) (rd hd : Option NodeState) (racks : List (Option Rack)) :
    ∀ (topo t2 : topology), newDcRacks dp rd hd racks topo = some t2 →
      t2.updateCh = topo.updateCh ∧ t2.chNext = topo.chNext ∧ t2.chClosed = topo.chClosed := by
  induction racks with
  | nil =>
    intro topo t2 h
    simp only [newDcRacks, Option.some.injEq] at h
    rw [← h]
    exact ⟨rfl, rfl, rfl⟩
  | cons x rest ih =>
    intro topo t2 h
    cases x with
    | none => simp [newDcRacks] at h
    | some confRack =>
      simp only [newDcRacks] at h
      split at h
      · simp at h
      · rename_i res heq
        have h1 := newRack_channel topo res.1 _ dp res.2 heq
        have h2 := ih _ t2 h
        exact ⟨h2.1.trans h1.1, h2.2.1.trans h1.2.1, h2.2.2.trans h1.2.2⟩

theorem newDc_channel (topo t2 : topology) (confDC : DataCenter) (dp : Nat)
    (h : newDc topo confDC = some (t2, dp)) :
    t2.updateCh = topo.updateCh ∧ t2.chNext = topo.chNext ∧ t2.chClosed = topo.chClosed := by
  simp only [newDc] at h
  split at h
  · simp at h
  · rename_i t3 heq
    simp only [Option.some.injEq, Prod.mk.injEq] at h
    rw [← h.1]
    have h2 := newDcRacks_channel _ _ _ _ _ t3 heq
    exact h2

theorem newTopologyDcs_channel (config : Config) (dcs : List (Option DataCenter)) :
    ∀ (topo t2 : topology), newTopologyDcs config dcs topo = some t2 →
      t2.updateCh = topo.updateCh ∧ t2.chNext = topo.chNext ∧ t2.chClosed = topo.chClosed := by
  induction dcs with
  | nil =>
    intro topo t2 h
    simp only [newTopologyDcs, Option.some.injEq] at h
    rw [← h]
    exact ⟨rfl, rfl, rfl⟩
  | cons x rest ih =>
    intro topo t2 h
    cases x with
    | none => simp [newTopologyDcs] at h
    | some confDC =>
      simp only [newTopologyDcs] at h
      split at h
      · simp at h
      · rename_i res heq
        have h1 := newDc_channel topo res.1 _ res.2 heq
        have h2 := ih _ t2 h
        exact ⟨h2.1.trans h1.1, h2.2.1.trans h1.2.1, h2.2.2.trans h1.2.2⟩

theorem newTopology_channelWell (config : Config) (t0 : topology)
    (h : newTopology config = some t0) : channelWell t0 := by
  have hc := newTopologyDcs_channel config config.DataCenters emptyTopology t0 h
  unfold channelWell
  rw [hc.1, hc.2.1, hc.2.2]
  exact ⟨by decide, rfl⟩

theorem rotated_channelWell (t1 t2 : topology) (_hw : channelWell t1)
    (hc : t2.chClosed = storeSet (storeSet t1.chClosed t1.updateCh true) t1.chNext false)
    (hu : t2.updateCh = t1.chNext) (hn : t2.chNext = t1.chNext + 1) : channelWell t2 := by
  refine ⟨?_, ?_⟩
  · rw [hu, hn]
    exact Nat.lt_succ_self _
  · rw [hc, hu]
    simp [storeSet]

theorem rotated_closes (t1 t2 : topology) (hw : channelWell t1)
    (hc : t2.chClosed = storeSet (storeSet t1.chClosed t1.updateCh true) t1.chNext false) :
    t2.chClosed t1.updateCh = true := by
  have hne : t1.updateCh ≠ t1.chNext := Nat.ne_of_lt hw.1
  rw [hc]
  simp [storeSet, hne]

theorem rotated_open (t1 t2 : topology)
    (hc : t2.chClosed = storeSet (storeSet t1.chClosed t1.updateCh true) t1.chNext false)
    (hu : t2.updateCh = t1.chNext) : t2.chClosed t2.updateCh = false := by
  rw [hc, hu]
  simp [storeSet]

theorem op_channel_step (op : Op) (topo : topology) (hw : channelWell topo) :
    ∃ t2 e, op.apply topo = some (t2, e) ∧ channelWell t2 ∧
      (e = none → op.rotates = true →
        t2.chClosed topo.updateCh = true ∧ t2.updateCh = topo.chNext ∧
        t2.chClosed t2.updateCh = false) ∧
      (e = none → op.rotates = false →
        t2.updateCh = topo.updateCh ∧ t2.chClosed = topo.chClosed) := by
  have hfail : ∀ (msg : String), op.apply topo = some (topo, some msg) →
      ∃ t2 e, op.apply topo = some (t2, e) ∧ channelWell t2 ∧
        (e = none → op.rotates = true →
          t2.chClosed topo.updateCh = true ∧ t2.updateCh = topo.chNext ∧
          t2.chClosed t2.updateCh = false) ∧
        (e = none → op.rotates = false →
          t2.updateCh = topo.updateCh ∧ t2.chClosed = topo.chClosed) := by
    intro msg h
    exact ⟨topo, some msg, h, hw, fun h2 => by simp at h2, fun h2 => by simp at h2⟩
  cases op with
  | addServerPort name port =>
    cases hl : lookupHost topo name with
    | error err => exact hfail err (by simp only [Op.apply, addServerPort, hl])
    | ok hp =>
      cases hm : (topo.hosts hp).portMap port with
      | some v =>
        exact hfail "port has been taken already." (by simp only [Op.apply, addServerPort, hl, hm])
      | none =>
        exact ⟨_, none, addServerPort_of_free topo name hp port hl hm hw.2,
          rotated_channelWell topo _ hw rfl rfl rfl,
          fun _ _ => ⟨rotated_closes topo _ hw rfl, rfl, rotated_open topo _ rfl rfl⟩,
          fun _ h2 => by simp [Op.rotates] at h2⟩
  | removeServerPort name port =>
    cases hl : lookupHost topo name with
    | error err => exact hfail err (by simp only [Op.apply, removeServerPort, hl])
    | ok hp =>
      cases hm : (topo.hosts hp).portMap port with
      | none =>
        exact hfail "port hasn't been registered"
          (by simp only [Op.apply, removeServerPort, hl, hm])
      | some role =>
        cases role with
        | false =>
          exact hfail "port isn't registered as server"
            (by simp [Op.apply, removeServerPort, hl, hm, serverPortType])
        | true =>
          exact ⟨_, none, removeServerPort_of_registered topo name hp port hl hm hw.2,
            rotated_channelWell topo _ hw rfl rfl rfl,
            fun _ _ => ⟨rotated_closes topo _ hw rfl, rfl, rotated_open topo _ rfl rfl⟩,
            fun _ h2 => by simp [Op.rotates] at h2⟩
  | addClientPort name port =>
    cases hl : lookupHost topo name with
    | error err => exact hfail err (by simp only [Op.apply, addClientPort, hl])
    | ok hp =>
      cases hm : (topo.hosts hp).portMap port with
      | some v =>
        exact hfail "port has been taken already." (by simp only [Op.apply, addClientPort, hl, hm])
      | none =>
        exact ⟨_, none, addClientPort_of_free topo name hp port hl hm, hw,
          fun _ h2 => by simp [Op.rotates] at h2, fun _ _ => ⟨rfl, rfl⟩⟩
  | removeClientPort port =>
    cases hg : topo.ports port with
    | none => exact hfail "unknown port" (by simp only [Op.apply, removeClientPort, hg])
    | some hp =>
      cases hm : (topo.hosts hp).portMap port with
      | none =>
        exact hfail "port hasn't been registered"
          (by simp only [Op.apply, removeClientPort, hg, hm])
      | some role =>
        cases role with
        | false =>
          exact ⟨_, none, removeClientPort_of_client topo hp port hg hm, hw,
            fun _ h2 => by simp [Op.rotates] at h2, fun _ _ => ⟨rfl, rfl⟩⟩
        | true =>
          exact hfail "port isn't registered as client port"
            (by simp [Op.apply, removeClientPort, hg, hm, clientPortType])
  | setNodeState name st =>
    cases hl : lookup topo name with
    | error err => exact hfail err (by simp only [Op.apply, setNodeState, hl])
    | ok nod =>
      have hch := setState_channel topo nod st
      have hnext : (nod.setState topo st).chNext = topo.chNext := by cases nod <;> rfl
      have hw2 : channelWell (nod.setState topo st) := by
        unfold channelWell
        rw [hch.1, hch.2, hnext]
        exact hw
      have happ : (Op.setNodeState name st).apply topo = some ({ nod.setState topo st with
          chClosed := storeSet (storeSet (nod.setState topo st).chClosed
            (nod.setState topo st).updateCh true) (nod.setState topo st).chNext false
          updateCh := (nod.setState topo st).chNext
          chNext := (nod.setState topo st).chNext + 1 }, none) := by
        simp only [Op.apply, setNodeState, hl, rotate_of_open _ hw2.2]
      refine ⟨_, none, happ, rotated_channelWell (nod.setState topo st) _ hw2 rfl rfl rfl,
        fun _ _ => ⟨?_, hnext, rotated_open (nod.setState topo st) _ rfl rfl⟩,
        fun _ h2 => by simp [Op.rotates] at h2⟩
      have h3 := rotated_closes (nod.setState topo st) _ hw2 (rfl : ({ nod.setState topo st with
          chClosed := storeSet (storeSet (nod.setState topo st).chClosed
            (nod.setState topo st).updateCh true) (nod.setState topo st).chNext false
          updateCh := (nod.setState topo st).chNext
          chNext := (nod.setState topo st).chNext + 1 } : topology).chClosed = _)
      cases nod <;> exact h3

theorem runOps_channelWell (ops : List Op) :
    ∀ (topo : topology), channelWell topo → ∃ t, runOps topo ops = some t ∧ channelWell t := by
  induction ops with
  | nil =>
    intro topo hw
    exact ⟨topo, rfl, hw⟩
  | cons op rest ih =>
    intro topo hw
    obtain ⟨t2, e, happ, hw2, _, _⟩ := op_channel_step op topo hw
    obtain ⟨t, h1, h2⟩ := ih t2 hw2
    exact ⟨t, by simp only [runOps, happ, h1], h2⟩

/-- C13. In every state reached from a topology built by `newTopology` through the five
mutating calls (none of them panics), the current update channel is open. From such a state, a
successful `addServerPort`, `removeServerPort` or `setNodeState` closes the channel that was
current before the call and installs a new, open channel at a fresh address (the next free
one, above the old channel), while a successful `addClientPort` or `removeClientPort` leaves the
current channel and every closed flag as they were. -/
theorem update_channel_rotation (config : Config) (t0 : topology) (ops : List Op)
    (h0 : newTopology config = some t0) :
    ∃ t, runOps t0 ops = some t ∧ t.chClosed t.updateCh = false ∧
      ∀ op : Op, ∃ t2 e, op.apply t = some (t2, e) ∧
        (e = none → op.rotates = true →
          t2.chClosed t.updateCh = true ∧ t2.updateCh = t.chNext ∧ t.updateCh < t2.updateCh ∧
          t2.chClosed t2.updateCh = false) ∧
        (e = none → op.rotates = false →
          t2.updateCh = t.updateCh ∧ t2.chClosed = t.chClosed ∧
          t2.chClosed t2.updateCh = false) := by
  obtain ⟨t, hrun, hw⟩ := runOps_channelWell ops t0 (newTopology_channelWell config t0 h0)
  refine ⟨t, hrun, hw.2, ?_⟩
  intro op
  obtain ⟨t2, e, happ, hw2, hrot, hkeep⟩ := op_channel_step op t hw
  refine ⟨t2, e, happ, ?_, ?_⟩
  · intro he hr
    have h := hrot he hr
    exact ⟨h.1, h.2.1, by rw [h.2.1]; exact hw.1, h.2.2⟩
  · intro he hr
    have h := hkeep he hr
    exact ⟨h.1, h.2, hw2.2⟩

set_option maxRecDepth 100000 in
/-- The whole of `TestApi` runs from the default topology; tiger's `addServerPort` (third
mutation, channel 1 current) closes channel 1 and installs channel 2; a client port changes
nothing. -/
theorem update_channel_rotation_witness :
    (∃ t, runOps (stateAfter []) testApiOps = some t ∧ t.chClosed t.updateCh = false ∧
      ∀ op : Op, ∃ t2 e, op.apply t = some (t2, e) ∧
        (e = none → op.rotates = true →
          t2.chClosed t.updateCh = true ∧ t2.updateCh = t.chNext ∧ t.updateCh < t2.updateCh ∧
          t2.chClosed t2.updateCh = false) ∧
        (e = none → op.rotates = false →
          t2.updateCh = t.updateCh ∧ t2.chClosed = t.chClosed ∧
          t2.chClosed t2.updateCh = false)) ∧
    ((testApiState 1).updateCh, (testApiState 1).chClosed 1) = (1, false) ∧
    ((testApiState 2).updateCh, (testApiState 2).chClosed 1, (testApiState 2).chClosed 2)
      = (2, true, false) ∧
    (stateAfter [.addClientPort "plant.fruit.apple" 40001]).updateCh = 0 ∧
    (stateAfter [.addClientPort "plant.fruit.apple" 40001, .removeClientPort 40001]).updateCh
      = 0 :=
  ⟨update_channel_rotation DefaultConfig (stateAfter []) testApiOps rfl,
    by decide, by decide, by decide, by decide⟩

/-! ## Internal down -/

set_option maxRecDepth 100000 in
/-- C18, as stated, fails: on the default topology with rack `plant.fruit` (rack 3) internalDown
and apple (host 9, inside that rack) serving 30003, the connection of apple with itself is ok;
with datacenter `plant` (datacenter 1) internalDown, the connection between apple and pear
(host 10), two hosts of rack `plant.fruit`, is ok. -/
theorem internalDown_not_always_down :
    (node.rack 3).internalDown (stateAfter [.setNodeState "plant.fruit" stInternalDown,
        .addServerPort "plant.fruit.apple" 30003]) = true ∧
    (node.rack 3).contains (stateAfter [.setNodeState "plant.fruit" stInternalDown,
        .addServerPort "plant.fruit.apple" 30003]) 9 = true ∧
    computeNetworkState (stateAfter [.setNodeState "plant.fruit" stInternalDown,
        .addServerPort "plant.fruit.apple" 30003]) 9 9 = (true, 0) ∧
    dialState (stateAfter [.setNodeState "plant.fruit" stInternalDown,
        .addServerPort "plant.fruit.apple" 30003]) "plant.fruit.apple" 30003
      = ({ Latency := 0, OK := true }, none) ∧
    (node.dc 1).internalDown (stateAfter [.setNodeState "plant" stInternalDown]) = true ∧
    (node.dc 1).contains (stateAfter [.setNodeState "plant" stInternalDown]) 9 = true ∧
    (node.dc 1).contains (stateAfter [.setNodeState "plant" stInternalDown]) 10 = true ∧
    lookupHost (stateAfter [.setNodeState "plant" stInternalDown]) "plant.fruit.pear" = .ok 10 ∧
    computeNetworkState (stateAfter [.setNodeState "plant" stInternalDown]) 9 10
      = (true, 2000000) := by
  decide

/-- C18, amended. A connection is not ok when its client host or its server host is
internalDown; when the two hosts differ and the rack of either is internalDown; when the two
racks differ and the datacenter of either is internalDown. Then `dialState` and `connState`
answer not-ok as well. A connection of a host with itself reads no flag of the rack or the
datacenter, and a connection inside one rack reads no flag of the datacenter. -/
theorem internalDown_blocks (topo : topology) (c s : Nat) :
    (((topo.hosts c).InternalDown = true ∨ (topo.hosts s).InternalDown = true) →
      (computeNetworkState topo c s).1 = false) ∧
    (c ≠ s → ((rackOf topo c).InternalDown = true ∨ (rackOf topo s).InternalDown = true) →
      (computeNetworkState topo c s).1 = false) ∧
    ((topo.hosts c).rack ≠ (topo.hosts s).rack →
      ((dcOf topo c).InternalDown = true ∨ (dcOf topo s).InternalDown = true) →
      (computeNetworkState topo c s).1 = false) ∧
    ((computeNetworkState topo c s).1 = false →
      (∀ name p, lookupHost topo name = .ok c → topo.ports p = some s →
        (dialState topo name p).1.OK = false) ∧
      (∀ cp sp, topo.ports cp = some c → topo.ports sp = some s →
        (connState topo cp sp).1.OK = false)) ∧
    (c = s → (computeNetworkState topo c s).1 = !(topo.hosts c).InternalDown) ∧
    (c ≠ s → (topo.hosts c).rack = (topo.hosts s).rack →
      (computeNetworkState topo c s).1 =
        !((topo.hosts c).InternalDown || (topo.hosts c).ExternalDown ||
          (rackOf topo c).InternalDown || (topo.hosts s).InternalDown ||
          (topo.hosts s).ExternalDown)) := by
  have hlev := (computeNetworkState_levels topo c s).1
  refine ⟨?_, ?_, ?_, ?_, ?_, ?_⟩
  · intro h
    rw [hlev]
    rcases h with h | h
    · exact Or.inl h
    · exact Or.inr (Or.inl h)
  · intro hne h
    rw [hlev]
    refine Or.inr (Or.inr (Or.inl ⟨hne, ?_⟩))
    rcases h with h | h
    · exact Or.inr (Or.inr (Or.inl h))
    · exact Or.inr (Or.inr (Or.inr h))
  · intro hne h
    rw [hlev]
    refine Or.inr (Or.inr (Or.inr (Or.inl ⟨hne, ?_⟩)))
    rcases h with h | h
    · exact Or.inr (Or.inr (Or.inl h))
    · exact Or.inr (Or.inr (Or.inr h))
  · intro hdown
    constructor
    · intro name p hl hp
      rw [dialState_of_hosts topo name p c s hl hp]
      simp [hdown]
    · intro cp sp hc hs
      cases hreg : (topo.hosts c).portMap cp with
      | none => simp [connState, hc, hs, hreg, ConnState.zero]
      | some role =>
        rw [connState_of_hosts topo cp sp c s role hc hs hreg]
        simp [hdown]
  · intro h
    rw [h, computeNetworkState_self]
  · intro hne hr
    simp only [computeNetworkState, ne_eq, hne, hr, not_false_eq_true, not_true_eq_false, if_true,
      if_false, rackOf]
    cases (topo.hosts c).InternalDown <;> cases (topo.hosts c).ExternalDown <;>
      cases (topo.racks (topo.hosts s).rack).InternalDown <;>
      cases (topo.hosts s).InternalDown <;> cases (topo.hosts s).ExternalDown <;> rfl

set_option maxRecDepth 100000 in
/-- In `TestApi` with rack `plant.fruit` internalDown (state 8): apple (host 9) and tiger
(host 0) differ, so the connection is not ok and the dial is refused. -/
theorem internalDown_blocks_witness :
    (rackOf (testApiState 8) 9).InternalDown = true ∧
    (computeNetworkState (testApiState 8) 9 0).1 = false ∧
    (dialState (testApiState 8) "plant.fruit.apple" 30011).1.OK = false :=
  have h := (internalDown_blocks (testApiState 8) 9 0).2.1 (by decide) (Or.inl (by decide))
  ⟨by decide, h,
    ((internalDown_blocks (testApiState 8) 9 0).2.2.2.1 h).1 "plant.fruit.apple" 30011
      (by decide) (by decide)⟩

/-! ## External down -/

theorem setExternalDown_lookup (topo : topology) (nod : node) (b : Bool) (name : String) :
    lookup (nod.setExternalDown topo b) name = lookup topo name := by
  apply lookup_congr
  · cases nod <;> rfl
  · intro d
    cases nod with
    | dc p =>
      by_cases hd : d = p
      · simp [node.setExternalDown, storeSet, hd]
      · simp [node.setExternalDown, storeSet, hd]
    | rack p => rfl
    | host p => rfl
  · intro r
    cases nod with
    | dc p => rfl
    | rack p =>
      by_cases hr : r = p
      · simp [node.setExternalDown, storeSet, hr]
      · simp [node.setExternalDown, storeSet, hr]
    | host p => rfl

theorem setExternalDown_maps (topo : topology) (nod : node) (b : Bool) :
    (nod.setExternalDown topo b).ports = topo.ports ∧
    ∀ h, ((nod.setExternalDown topo b).hosts h).portMap = (topo.hosts h).portMap := by
  refine ⟨by cases nod <;> rfl, ?_⟩
  intro h
  cases nod with
  | dc p => rfl
  | rack p => rfl
  | host p =>
    by_cases hh : h = p
    · simp [node.setExternalDown, storeSet, hh]
    · simp [node.setExternalDown, storeSet, hh]

theorem setExternalDown_network (topo : topology) (nod : node) (b : Bool) (c s : Nat)
    (hc : nod.contains topo c = true) (hs : nod.contains topo s = true) :
    computeNetworkState (nod.setExternalDown topo b) c s = computeNetworkState topo c s := by
  cases nod with
  | host p =>
    simp only [node.contains, decide_eq_true_eq] at hc hs
    subst hc
    subst hs
    rw [computeNetworkState_self, computeNetworkState_self]
    simp [node.setExternalDown, storeSet]
  | rack p =>
    simp only [node.contains, decide_eq_true_eq] at hc hs
    have hr : (topo.hosts c).rack = (topo.hosts s).rack := by rw [hc, hs]
    by_cases hh : c = s
    · subst hh
      rw [computeNetworkState_self, computeNetworkState_self]
      rfl
    · simp only [computeNetworkState, node.setExternalDown, ne_eq, hh, hr, not_false_eq_true,
        not_true_eq_false, if_true, if_false]
      rw [← hs]
      simp [storeSet]
  | dc p =>
    simp only [node.contains, decide_eq_true_eq, dcPtrOf, rackOf] at hc hs
    have hd : (topo.racks (topo.hosts c).rack).dataCenter
        = (topo.racks (topo.hosts s).rack).dataCenter := by rw [hc, hs]
    by_cases hh : c = s
    · subst hh
      rw [computeNetworkState_self, computeNetworkState_self]
      rfl
    · by_cases hr : (topo.hosts c).rack = (topo.hosts s).rack
      · simp only [computeNetworkState, node.setExternalDown, ne_eq, hh, hr, not_false_eq_true,
          not_true_eq_false, if_true, if_false]
      · simp only [computeNetworkState, node.setExternalDown, ne_eq, hh, hr, hd,
          not_false_eq_true, not_true_eq_false, if_true, if_false]
        rw [hs]
        simp [storeSet]

/-- C17. Two topologies that differ only in the externalDown flag of one node give the same
verdict to every pair of hosts that are that host, or both lie in that rack, or both lie in that
datacenter: `computeNetworkState` returns the same pair, and `dialState` and `connState` for a
client and a server port of such hosts return the same verdict and error. -/
theorem externalDown_noninterference (topo : topology) (nod : node) (b : Bool) (c s : Nat)
    (hc : nod.contains topo c = true) (hs : nod.contains topo s = true) :
    computeNetworkState (nod.setExternalDown topo b) c s = computeNetworkState topo c s ∧
    (∀ name p, lookupHost topo name = .ok c → topo.ports p = some s →
      dialState (nod.setExternalDown topo b) name p = dialState topo name p) ∧
    (∀ cp sp, topo.ports cp = some c → topo.ports sp = some s →
      connState (nod.setExternalDown topo b) cp sp = connState topo cp sp) := by
  have hnet := setExternalDown_network topo nod b c s hc hs
  have hmaps := setExternalDown_maps topo nod b
  refine ⟨hnet, ?_, ?_⟩
  · intro name p hl hp
    have hl2 : lookupHost (nod.setExternalDown topo b) name = .ok c := by
      simp only [lookupHost, setExternalDown_lookup]
      exact hl
    have hp2 : (nod.setExternalDown topo b).ports p = some s := by
      rw [hmaps.1]
      exact hp
    rw [dialState_of_hosts _ name p c s hl2 hp2, dialState_of_hosts topo name p c s hl hp, hnet,
      hmaps.2]
  · intro cp sp hcp hsp
    simp only [connState, hmaps.1, hmaps.2, hcp, hsp, hnet]

set_option maxRecDepth 100000 in
/-- On the default topology with apple serving 30003 and pear (host 10) holding client port
50001: setting rack `plant.fruit` (rack 3) externalDown changes neither the verdict between pear
and apple nor the dial of pear. -/
theorem externalDown_noninterference_witness :
    (((node.rack 3).setExternalDown (stateAfter [.addServerPort "plant.fruit.apple" 30003,
        .addClientPort "plant.fruit.pear" 50001]) true).racks 3).ExternalDown = true ∧
    computeNetworkState ((node.rack 3).setExternalDown
        (stateAfter [.addServerPort "plant.fruit.apple" 30003,
          .addClientPort "plant.fruit.pear" 50001]) true) 10 9
      = computeNetworkState (stateAfter [.addServerPort "plant.fruit.apple" 30003,
          .addClientPort "plant.fruit.pear" 50001]) 10 9 ∧
    connState ((node.rack 3).setExternalDown
        (stateAfter [.addServerPort "plant.fruit.apple" 30003,
          .addClientPort "plant.fruit.pear" 50001]) true) 50001 30003
      = ({ Latency := 2000000, OK := true }, none) :=
  have h := externalDown_noninterference (stateAfter [.addServerPort "plant.fruit.apple" 30003,
    .addClientPort "plant.fruit.pear" 50001]) (.rack 3) true 10 9 (by decide) (by decide)
  ⟨by decide, h.1, by decide⟩

/-! ## Dotted names -/

theorem splitDots_length (cs : List Char) : (splitDots cs).length = cs.count '.' + 1 := by
  induction cs with
  | nil => rfl
  | cons c rest ih =>
    by_cases hc : c = '.'
    · simp [splitDots, hc, ih]
    · cases hs : splitDots rest with
      | nil =>
        rw [hs] at ih
        simp at ih
      | cons p ps =>
        rw [hs] at ih
        have hne : ¬ ('.' = c) := fun h => hc h.symm
        simp only [splitDots, hc, if_false, hs, List.length_cons] at ih ⊢
        rw [ih, List.count_cons_of_ne hne]

theorem Split_length (name : String) : (Split name).length = dotCount name + 1 := by
  simp [Split, dotCount, splitDots_length]

theorem lookup_eq_resolve (topo : topology) (name : String) :
    (∀ n, lookup topo name = .ok n ↔ resolveSegments topo (Split name) = some n) ∧
    (∀ e, lookup topo name = .error e →
      resolveSegments topo (Split name) = none ∧
      ∃ seg, seg ∈ (Split name).take 3 ∧
        (e = "undefined dataCenter name," ++ seg ∨ e = "undefined rack name," ++ seg ∨
          e = "undefined host name," ++ seg)) := by
  have hlen := Split_length name
  unfold lookup
  cases hparts : Split name with
  | nil =>
    rw [hparts] at hlen
    simp at hlen
  | cons p0 rest =>
    cases rest with
    | nil =>
      cases h0 : topo.dataCenterMap p0 with
      | none => simp [resolveSegments, h0]
      | some d => simp [resolveSegments, h0]
    | cons p1 rest2 =>
      cases rest2 with
      | nil =>
        cases h0 : topo.dataCenterMap p0 with
        | none => simp [resolveSegments, h0]
        | some d =>
          cases h1 : (topo.dcs d).rackMap p1 with
          | none => simp [resolveSegments, h0, h1]
          | some r => simp [resolveSegments, h0, h1]
      | cons p2 rest3 =>
        have hl2 : ¬ (rest3.length + 1 + 1 + 1 < 2) := by omega
        have hl3 : ¬ (rest3.length + 1 + 1 + 1 < 3) := by omega
        cases h0 : topo.dataCenterMap p0 with
        | none => simp [resolveSegments, h0]
        | some d =>
          cases h1 : (topo.dcs d).rackMap p1 with
          | none => simp [resolveSegments, h0, h1, hl2]
          | some r =>
            cases h2 : (topo.racks r).hostMap p2 with
            | none => simp [resolveSegments, h0, h1, h2, hl2, hl3]
            | some h => simp [resolveSegments, h0, h1, h2, hl2, hl3]

theorem splitDots_join (cs : List Char) :
    List.intercalate ['.'] (splitDots cs) = cs ∧ ∀ p ∈ splitDots cs, '.' ∉ p := by
  induction cs with
  | nil => simp [splitDots, List.intercalate]
  | cons c rest ih =>
    cases hs : splitDots rest with
    | nil =>
      have hlen := splitDots_length rest
      rw [hs] at hlen
      simp at hlen
    | cons p ps =>
      rw [hs] at ih
      by_cases hc : c = '.'
      · constructor
        · have h1 := ih.1
          simp only [List.intercalate, splitDots, hc, if_true, hs, List.intersperse_cons_cons,
            List.flatten_cons, List.nil_append, List.singleton_append] at h1 ⊢
          rw [h1]
        · intro q hq
          simp only [splitDots, hc, if_true, hs, List.mem_cons] at hq
          rcases hq with hq | hq
          · rw [hq]
            simp
          · exact ih.2 q (by simpa using hq)
      · constructor
        · have h1 := ih.1
          simp only [splitDots, hc, if_false, hs]
          cases ps with
          | nil =>
            simp only [List.intercalate, List.intersperse_singleton, List.flatten_cons, List.flatten_nil,
              List.append_nil] at h1 ⊢
            rw [h1]
          | cons p2 ps2 =>
            simp only [List.intercalate, List.intersperse_cons_cons, List.flatten_cons,
              List.cons_append] at h1 ⊢
            rw [h1]
        · intro q hq
          simp only [splitDots, hc, if_false, hs, List.mem_cons] at hq
          rcases hq with hq | hq
          · rw [hq]
            have hp := ih.2 p (by simp)
            have hne : ¬ ('.' = c) := fun h => hc h.symm
            simp [hne, hp]
          · exact ih.2 q (by simp [hq])

theorem resolveSegments_level (topo : topology) (parts : List String) (n : node)
    (h : resolveSegments topo parts = some n) : n.level = min (parts.length - 1) 2 := by
  cases parts with
  | nil => simp [resolveSegments] at h
  | cons p0 rest =>
    cases rest with
    | nil =>
      simp only [resolveSegments, Option.map_eq_some'] at h
      obtain ⟨d, _, hd⟩ := h
      rw [← hd]
      rfl
    | cons p1 rest2 =>
      cases rest2 with
      | nil =>
        simp only [resolveSegments, Option.bind_eq_some, Option.map_eq_some'] at h
        obtain ⟨d, _, r, _, hr⟩ := h
        rw [← hr]
        rfl
      | cons p2 rest3 =>
        simp only [resolveSegments, Option.bind_eq_some, Option.map_eq_some'] at h
        obtain ⟨d, _, r, _, hh, _, hn⟩ := h
        rw [← hn]
        simp [node.level]

/-- C15. The segments of a name are the pieces between its dots, one more than there are dots.
`lookup` returns the datacenter named by a one-segment name, the rack named by a two-segment name
and the host named by a three-segment name (segments after the third are not looked at); it
fails exactly when a segment is absent at its level, and then with an "undefined ... name"
error about one of the first three segments. The level of the node returned is the number of
dots, capped at 2. -/
theorem lookup_levels (topo : topology) (name : String) :
    ((Split name).length = dotCount name + 1 ∧
      List.intercalate ['.'] ((Split name).map String.data) = name.data ∧
      ∀ seg ∈ Split name, '.' ∉ seg.data) ∧
    (∀ n, lookup topo name = .ok n ↔ resolveSegments topo (Split name) = some n) ∧
    ((∃ e, lookup topo name = .error e) ↔ resolveSegments topo (Split name) = none) ∧
    (∀ e, lookup topo name = .error e →
      ∃ seg, seg ∈ (Split name).take 3 ∧
        (e = "undefined dataCenter name," ++ seg ∨ e = "undefined rack name," ++ seg ∨
          e = "undefined host name," ++ seg)) ∧
    (∀ n, lookup topo name = .ok n → n.level = min (dotCount name) 2) := by
  have hres := lookup_eq_resolve topo name
  have hlen := Split_length name
  refine ⟨⟨hlen, ?_, ?_⟩, hres.1, ?_, fun e he => (hres.2 e he).2, ?_⟩
  · have hj := (splitDots_join name.data).1
    have hmap : (Split name).map String.data = splitDots name.data := by
      simp only [Split, List.map_map]
      have hid : (String.data ∘ String.mk) = id := rfl
      rw [hid, List.map_id]
    rw [hmap, hj]
  · intro seg hseg
    simp only [Split, List.mem_map] at hseg
    obtain ⟨p, hp, hps⟩ := hseg
    rw [← hps]
    exact (splitDots_join name.data).2 p hp
  · constructor
    · rintro ⟨e, he⟩
      exact (hres.2 e he).1
    · intro hnone
      cases hl : lookup topo name with
      | error e => exact ⟨e, rfl⟩
      | ok n =>
        have h2 := (hres.1 n).mp hl
        rw [hnone] at h2
        simp at h2
  · intro n hn
    have h2 := resolveSegments_level topo (Split name) n ((hres.1 n).mp hn)
    rw [h2, hlen]
    simp

set_option maxRecDepth 100000 in
/-- On the default topology: `plant` is datacenter 1, `plant.fruit` rack 3, `plant.fruit.apple`
host 9; `plant.fruit.melon` fails on its third segment and `plant.wood.oak` on its second. -/
theorem lookup_levels_witness :
    Split "plant.fruit.apple" = ["plant", "fruit", "apple"] ∧
    dotCount "plant.fruit.apple" = 2 ∧
    lookup (stateAfter []) "plant" = .ok (.dc 1) ∧
    lookup (stateAfter []) "plant.fruit" = .ok (.rack 3) ∧
    lookup (stateAfter []) "plant.fruit.apple" = .ok (.host 9) ∧
    (node.host 9).level = min (dotCount "plant.fruit.apple") 2 ∧
    lookup (stateAfter []) "plant.fruit.melon" = .error "undefined host name,melon" ∧
    lookup (stateAfter []) "plant.wood.oak" = .error "undefined rack name,wood" ∧
    resolveSegments (stateAfter []) (Split "plant.wood.oak") = none :=
  ⟨by decide, by decide, by decide, by decide, by decide,
    (lookup_levels (stateAfter []) "plant.fruit.apple").2.2.2.2 (.host 9) (by decide),
    by decide, by decide,
    ((lookup_levels (stateAfter []) "plant.wood.oak").2.2.1).mp
      ⟨"undefined rack name,wood", by decide⟩⟩

/-! ## States at construction -/

theorem range_map_snoc {α : Type} (n : Nat) (f g : Nat → α) (h : ∀ i, i < n → g i = f i) :
    (List.range (n + 1)).map g = (List.range n).map f ++ [g n] := by
  rw [List.range_succ, List.map_append]
  congr 1
  apply List.map_congr_left
  intro i hi
  exact h i (List.mem_range.mp hi)

theorem newHost_states (topo : topology) (confHost : Host) (rp : Nat) :
    hostStates (newHost topo confHost rp).1
      = hostStates topo ++ [(confHost.Name, stateOfOption confHost.NodeState)] ∧
    rackStates (newHost topo confHost rp).1 = rackStates topo ∧
    dcStates (newHost topo confHost rp).1 = dcStates topo ∧
    (newHost topo confHost rp).1.rackNext = topo.rackNext ∧
    (newHost topo confHost rp).1.dcNext = topo.dcNext := by
  refine ⟨?_, rfl, rfl, rfl, rfl⟩
  simp only [hostStates, newHost]
  rw [range_map_snoc topo.hostNext
    (fun i => ((topo.hosts i).name, (topo.hosts i).toNodeState))]
  · simp [storeSet, stateOfOption]
  · intro i hi
    have hne : i ≠ topo.hostNext := Nat.ne_of_lt hi
    simp [storeSet, hne]

theorem rackStates_hostMap (t T : topology) (rp : Nat) (hm : String → Option Nat)
    (hr : T.racks = storeSet t.racks rp { t.racks rp with hostMap := hm })
    (hn : T.rackNext = t.rackNext) : rackStates T = rackStates t := by
  simp only [rackStates, hr, hn]
  apply List.map_congr_left
  intro i _
  by_cases hi : i = rp
  · simp [storeSet, hi]
  · simp [storeSet, hi]

theorem dcStates_rackMap (t T : topology) (dp : Nat) (rm : String → Option Nat)
    (hr : T.dcs = storeSet t.dcs dp { t.dcs dp with rackMap := rm })
    (hn : T.dcNext = t.dcNext) : dcStates T = dcStates t := by
  simp only [dcStates, hr, hn]
  apply List.map_congr_left
  intro i _
  by_cases hi : i = dp
  · simp [storeSet, hi]
  · simp [storeSet, hi]

theorem hostDefaulted (confHost : Host) (hd : Option NodeState) :
    (if confHost.NodeState.isNone then { confHost with NodeState := hd } else confHost)
      = { confHost with NodeState := orDefault confHost.NodeState hd } := by
  unfold orDefault
  split <;> rfl

theorem newRackHosts_states (rp : Nat) (hd : Option NodeState) (hosts : List (Option Host)) :
    ∀ (topo t2 : topology), newRackHosts rp hd hosts topo = some t2 →
      hostStates t2 = hostStates topo ++
        (hosts.filterMap id).map (fun h => (h.Name, stateOfOption (orDefault h.NodeState hd))) ∧
      rackStates t2 = rackStates topo ∧ dcStates t2 = dcStates topo ∧
      t2.rackNext = topo.rackNext ∧ t2.dcNext = topo.dcNext := by
  induction hosts with
  | nil =>
    intro topo t2 h
    simp only [newRackHosts, Option.some.injEq] at h
    rw [← h]
    simp
  | cons x rest ih =>
    intro topo t2 h
    cases x with
    | none => simp [newRackHosts] at h
    | some confHost =>
      simp only [newRackHosts, hostDefaulted] at h
      have h2 := ih _ t2 h
      have h1 := newHost_states topo { confHost with NodeState := orDefault confHost.NodeState hd }
        rp
      have ha : hostStates t2 = hostStates (newHost topo
          { confHost with NodeState := orDefault confHost.NodeState hd } rp).1 ++
          (rest.filterMap id).map
            (fun h => (h.Name, stateOfOption (orDefault h.NodeState hd))) := h2.1
      have hb : rackStates t2 = rackStates (newHost topo
          { confHost with NodeState := orDefault confHost.NodeState hd } rp).1 :=
        h2.2.1.trans (rackStates_hostMap _ _ rp _ rfl rfl)
      have hc : dcStates t2 = dcStates (newHost topo
          { confHost with NodeState := orDefault confHost.NodeState hd } rp).1 := h2.2.2.1
      refine ⟨?_, hb.trans h1.2.1, hc.trans h1.2.2.1, h2.2.2.2.1.trans h1.2.2.2.1,
        h2.2.2.2.2.trans h1.2.2.2.2⟩
      rw [ha, h1.1]
      simp

theorem newRack_states (topo t2 : topology) (confRack : Rack) (dp rp : Nat)
    (h : newRack topo confRack dp = some (t2, rp)) :
    rackStates t2 = rackStates topo ++ [(confRack.Name, stateOfOption confRack.NodeState)] ∧
    hostStates t2 = hostStates topo ++ (confRack.Hosts.filterMap id).map
      (fun h => (h.Name, stateOfOption (orDefault h.NodeState confRack.HostDefault))) ∧
    dcStates t2 = dcStates topo ∧ t2.dcNext = topo.dcNext := by
  simp only [newRack] at h
  split at h
  · simp at h
  · rename_i t3 heq
    simp only [Option.some.injEq, Prod.mk.injEq] at h
    rw [← h.1]
    have h2 := newRackHosts_states _ _ _ _ t3 heq
    refine ⟨?_, h2.1, h2.2.2.1, h2.2.2.2.2⟩
    rw [h2.2.1]
    simp only [rackStates]
    rw [range_map_snoc topo.rackNext
      (fun i => ((topo.racks i).name, (topo.racks i).toNodeState))]
    · simp [storeSet, stateOfOption]
    · intro i hi
      have hne : i ≠ topo.rackNext := Nat.ne_of_lt hi
      simp [storeSet, hne]

theorem rackDefaulted (confRack : Rack) (rd hd : Option NodeState) :
    (if (if confRack.HostDefault.isNone then { confRack with HostDefault := hd }
          else confRack).NodeState.isNone then
        { (if confRack.HostDefault.isNone then { confRack with HostDefault := hd }
            else confRack) with NodeState := rd }
      else (if confRack.HostDefault.isNone then { confRack with HostDefault := hd }
        else confRack))
      = { confRack with
          HostDefault := orDefault confRack.HostDefault hd
          NodeState := orDefault confRack.NodeState rd } := by
  unfold orDefault
  split <;> split <;> simp_all

theorem newDcRacks_states (dp : Nat) (rd hd : Option NodeState) (racks : List (Option Rack)) :
    ∀ (topo t2 : topology), newDcRacks dp rd hd racks topo = some t2 →
      rackStates t2 = rackStates topo ++
        (racks.filterMap id).map (fun r => (r.Name, stateOfOption (orDefault r.NodeState rd))) ∧
      hostStates t2 = hostStates topo ++
        ((racks.filterMap id).map (fun r => (r.Hosts.filterMap id).map
          (fun h => (h.Name,
            stateOfOption (orDefault h.NodeState (orDefault r.HostDefault hd)))))).flatten ∧
      dcStates t2 = dcStates topo ∧ t2.dcNext = topo.dcNext := by
  induction racks with
  | nil =>
    intro topo t2 h
    simp only [newDcRacks, Option.some.injEq] at h
    rw [← h]
    simp
  | cons x rest ih =>
    intro topo t2 h
    cases x with
    | none => simp [newDcRacks] at h
    | some confRack =>
      simp only [newDcRacks, rackDefaulted] at h
      split at h
      · simp at h
      · rename_i res heq
        have h1 := newRack_states topo res.1 _ dp res.2 heq
        have h2 := ih _ t2 h
        have ha : rackStates t2 = rackStates res.1 ++ (rest.filterMap id).map
            (fun r => (r.Name, stateOfOption (orDefault r.NodeState rd))) := h2.1
        have hb : hostStates t2 = hostStates res.1 ++
            ((rest.filterMap id).map (fun r => (r.Hosts.filterMap id).map
              (fun h => (h.Name,
                stateOfOption (orDefault h.NodeState (orDefault r.HostDefault hd)))))).flatten :=
          h2.2.1
        have hc : dcStates t2 = dcStates res.1 :=
          h2.2.2.1.trans (dcStates_rackMap _ _ dp _ rfl rfl)
        have hd2 : t2.dcNext = res.1.dcNext := h2.2.2.2
        refine ⟨?_, ?_, hc.trans h1.2.2.1, hd2.trans h1.2.2.2⟩
        · rw [ha, h1.1]
          simp
        · rw [hb, h1.2.1]
          simp

theorem newDc_states (topo t2 : topology) (confDC : DataCenter) (dp : Nat)
    (h : newDc topo confDC = some (t2, dp)) :
    dcStates t2 = dcStates topo ++ [(confDC.Name, stateOfOption confDC.NodeState)] ∧
    rackStates t2 = rackStates topo ++ (confDC.Racks.filterMap id).map
      (fun r => (r.Name, stateOfOption (orDefault r.NodeState confDC.RackDefault))) ∧
    hostStates t2 = hostStates topo ++
      ((confDC.Racks.filterMap id).map (fun r => (r.Hosts.filterMap id).map
        (fun h => (h.Name, stateOfOption
          (orDefault h.NodeState (orDefault r.HostDefault confDC.HostDefault)))))).flatten := by
  simp only [newDc] at h
  split at h
  · simp at h
  · rename_i t3 heq
    simp only [Option.some.injEq, Prod.mk.injEq] at h
    rw [← h.1]
    have h2 := newDcRacks_states _ _ _ _ _ t3 heq
    refine ⟨?_, h2.1, h2.2.1⟩
    rw [h2.2.2.1]
    simp only [dcStates]
    rw [range_map_snoc topo.dcNext (fun i => ((topo.dcs i).name, (topo.dcs i).toNodeState))]
    · simp [storeSet, stateOfOption]
    · intro i hi
      have hne : i ≠ topo.dcNext := Nat.ne_of_lt hi
      simp [storeSet, hne]

theorem dcDefaulted (config : Config) (confDC : DataCenter) :
    (if (if (if confDC.RackDefault.isNone then { confDC with RackDefault := config.RackDefault }
              else confDC).HostDefault.isNone then
            { (if confDC.RackDefault.isNone then { confDC with RackDefault := config.RackDefault }
                else confDC) with HostDefault := config.HostDefault }
          else (if confDC.RackDefault.isNone then { confDC with RackDefault := config.RackDefault }
            else confDC)).NodeState.isNone then
        { (if (if confDC.RackDefault.isNone then { confDC with RackDefault := config.RackDefault }
                else confDC).HostDefault.isNone then
              { (if confDC.RackDefault.isNone then
                    { confDC with RackDefault := config.RackDefault }
                  else confDC) with HostDefault := config.HostDefault }
            else (if confDC.RackDefault.isNone then
                { confDC with RackDefault := config.RackDefault }
              else confDC)) with NodeState := config.DcDefault }
      else (if (if confDC.RackDefault.isNone then { confDC with RackDefault := config.RackDefault }
            else confDC).HostDefault.isNone then
          { (if confDC.RackDefault.isNone then { confDC with RackDefault := config.RackDefault }
              else confDC) with HostDefault := config.HostDefault }
        else (if confDC.RackDefault.isNone then { confDC with RackDefault := config.RackDefault }
          else confDC)))
      = { confDC with
          RackDefault := orDefault confDC.RackDefault config.RackDefault
          HostDefault := orDefault confDC.HostDefault config.HostDefault
          NodeState := orDefault confDC.NodeState config.DcDefault } := by
  unfold orDefault
  split <;> split <;> split <;> simp_all

theorem newTopologyDcs_states (config : Config) (dcs : List (Option DataCenter)) :
    ∀ (topo t2 : topology), newTopologyDcs config dcs topo = some t2 →
      dcStates t2 = dcStates topo ++ (dcs.filterMap id).map
        (fun dc => (dc.Name, stateOfOption (orDefault dc.NodeState config.DcDefault))) ∧
      rackStates t2 = rackStates topo ++
        ((dcs.filterMap id).map (fun dc => (dc.Racks.filterMap id).map
          (fun r => (r.Name, stateOfOption (orDefault r.NodeState
            (orDefault dc.RackDefault config.RackDefault)))))).flatten ∧
      hostStates t2 = hostStates topo ++
        ((dcs.filterMap id).map (fun dc =>
          ((dc.Racks.filterMap id).map (fun r => (r.Hosts.filterMap id).map
            (fun h => (h.Name, stateOfOption (orDefault h.NodeState (orDefault r.HostDefault
              (orDefault dc.HostDefault config.HostDefault))))))).flatten)).flatten := by
  induction dcs with
  | nil =>
    intro topo t2 h
    simp only [newTopologyDcs, Option.some.injEq] at h
    rw [← h]
    simp
  | cons x rest ih =>
    intro topo t2 h
    cases x with
    | none => simp [newTopologyDcs] at h
    | some confDC =>
      simp only [newTopologyDcs, dcDefaulted] at h
      split at h
      · simp at h
      · rename_i res heq
        have h1 := newDc_states topo res.1 _ res.2 heq
        have h2 := ih _ t2 h
        have ha : dcStates t2 = dcStates res.1 ++ (rest.filterMap id).map
            (fun dc => (dc.Name, stateOfOption (orDefault dc.NodeState config.DcDefault))) :=
          h2.1
        have hb : rackStates t2 = rackStates res.1 ++
            ((rest.filterMap id).map (fun dc => (dc.Racks.filterMap id).map
              (fun r => (r.Name, stateOfOption (orDefault r.NodeState
                (orDefault dc.RackDefault config.RackDefault)))))).flatten := h2.2.1
        have hc : hostStates t2 = hostStates res.1 ++
            ((rest.filterMap id).map (fun dc =>
              ((dc.Racks.filterMap id).map (fun r => (r.Hosts.filterMap id).map
                (fun h => (h.Name, stateOfOption (orDefault h.NodeState (orDefault r.HostDefault
                  (orDefault dc.HostDefault config.HostDefault))))))).flatten)).flatten :=
          h2.2.2
        refine ⟨?_, ?_, ?_⟩
        · rw [ha, h1.1]
          simp
        · rw [hb, h1.2.1]
          simp
        · rw [hc, h1.2.2]
          simp

theorem dcStateRule_eq (config : Config) (dc : DataCenter) :
    stateOfOption (orDefault dc.NodeState config.DcDefault) = dcStateRule config dc := by
  unfold stateOfOption orDefault dcStateRule
  cases dc.NodeState <;> cases config.DcDefault <;> rfl

theorem rackStateRule_eq (config : Config) (dc : DataCenter) (r : Rack) :
    stateOfOption (orDefault r.NodeState (orDefault dc.RackDefault config.RackDefault))
      = rackStateRule config dc r := by
  unfold stateOfOption orDefault rackStateRule
  cases r.NodeState <;> cases dc.RackDefault <;> cases config.RackDefault <;> rfl

theorem hostStateRule_eq (config : Config) (dc : DataCenter) (r : Rack) (h : Host) :
    stateOfOption (orDefault h.NodeState (orDefault r.HostDefault
      (orDefault dc.HostDefault config.HostDefault))) = hostStateRule config dc r h := by
  unfold stateOfOption orDefault hostStateRule
  cases h.NodeState <;> cases r.HostDefault <;> cases dc.HostDefault <;>
    cases config.HostDefault <;> rfl

set_option maxRecDepth 100000 in
/-- C16. In the topology `newTopology` builds, the nodes created, in document order, carry the
names of the document and the states of the inheritance rule: a host its explicit state, else
its rack's `HostDefault`, else its datacenter's, else the top-level one; a rack its explicit
state, else its datacenter's `RackDefault`, else the top-level one; a datacenter its explicit
state, else `DcDefault`; the zero state when nothing applies. The default document gives 3
datacenters at 100 ms, 9 racks at 10 ms and 27 hosts at 1 ms, none of them down. -/
theorem newTopology_states :
    (∀ (config : Config) (topo : topology), newTopology config = some topo →
      dcStates topo = expectedDcStates config ∧
      rackStates topo = expectedRackStates config ∧
      hostStates topo = expectedHostStates config) ∧
    (newTopology DefaultConfig).isSome = true ∧
    (dcStates (stateAfter [])).length = 3 ∧
    (∀ x ∈ dcStates (stateAfter []),
      x.2 = { Latency := 100000000, InternalDown := false, ExternalDown := false }) ∧
    (rackStates (stateAfter [])).length = 9 ∧
    (∀ x ∈ rackStates (stateAfter []),
      x.2 = { Latency := 10000000, InternalDown := false, ExternalDown := false }) ∧
    (hostStates (stateAfter [])).length = 27 ∧
    (∀ x ∈ hostStates (stateAfter []),
      x.2 = { Latency := 1000000, InternalDown := false, ExternalDown := false }) := by
  refine ⟨?_, by decide, by decide, by decide, by decide, by decide, by decide, by decide⟩
  intro config topo h
  have hs := newTopologyDcs_states config config.DataCenters emptyTopology topo h
  have he1 : dcStates emptyTopology = [] := rfl
  have he2 : rackStates emptyTopology = [] := rfl
  have he3 : hostStates emptyTopology = [] := rfl
  rw [he1, he2, he3] at hs
  simp only [List.nil_append] at hs
  refine ⟨?_, ?_, ?_⟩
  · rw [hs.1]
    simp only [expectedDcStates, configDcs, dcStateRule_eq]
  · rw [hs.2.1]
    simp only [expectedRackStates, configDcs, configRacks, rackStateRule_eq]
  · rw [hs.2.2]
    simp only [expectedHostStates, configDcs, configRacks, configHosts, hostStateRule_eq]

set_option maxRecDepth 100000 in
/-- The topology built from `sampleConfig` carries the states of the rule, and the rule gives
them as listed. -/
theorem newTopology_states_witness :
    (dcStates sampleTopology = expectedDcStates sampleConfig ∧
      rackStates sampleTopology = expectedRackStates sampleConfig ∧
      hostStates sampleTopology = expectedHostStates sampleConfig) ∧
    expectedDcStates sampleConfig = [("a", stLatency 100), ("b", stLatency 50)] ∧
    expectedRackStates sampleConfig
      = [("r1", stLatency 20), ("r2", stLatency 30), ("r3", NodeState.zero)] ∧
    expectedHostStates sampleConfig
      = [("h1", stLatency 7), ("h2", stLatency 5), ("h3", stLatency 1), ("h4", stLatency 2)] ∧
    (nodeState sampleTopology "a.r2.h3").1 = stLatency 1 :=
  ⟨newTopology_states.1 sampleConfig sampleTopology rfl, by decide, by decide, by decide,
    by decide⟩

/-! ## conn.go: byte fidelity and Close -/

set_option maxRecDepth 100000 in
/-- Claim C19, the divergence: one `Write` of the bytes 1, 2, 3, 4 on a fresh wrapper is
accepted whole and, with an ok verdict, the writer puts exactly these bytes on the socket; the
reader of a fresh receiving wrapper takes them as one packet; two `Read` calls with a buffer of
2 bytes then return 1, 2 and 0, 0 without an error, which is not a prefix of the written
bytes: `readPacket` keeps `packet.data[packet.length:]`, the part of the packet buffer after
the payload, and not the rest of the payload. -/
theorem read_small_buffer_loses_bytes :
    (Write freshConnection [1, 2, 3, 4] [writeEvent.accepted]).map (fun r => r.2)
        = some (4, none)
      ∧ ((Write freshConnection [1, 2, 3, 4] [writeEvent.accepted]).bind
          (fun r => writeLoopStep r.1 true false none)).map (fun c => c.connWritten)
        = some [1, 2, 3, 4]
      ∧ ((readLoopStep freshConnection [1, 2, 3, 4] none).bind
          (fun c => Read c 2 (readEvent.packet false))).map (fun r => r.2)
        = some ([1, 2], none)
      ∧ (((readLoopStep freshConnection [1, 2, 3, 4] none).bind
          (fun c => Read c 2 (readEvent.packet false))).bind
          (fun r => Read r.1 2 (readEvent.packet false))).map (fun r => r.2)
        = some ([0, 0], none)
      ∧ ¬ (([1, 2] ++ [0, 0] : List UInt8) <+: [1, 2, 3, 4]) := by
  decide!

/-- Claim C20, the counterexample: on a fresh wrapper whose socket closes without an error both
times, the first `Close` returns the result of the socket and the second `Close` panics. -/
theorem Close_twice_panics :
    (Close freshConnection none).map (fun r => r.2) = some none
      ∧ ((Close freshConnection none).bind (fun r => Close r.1 none)).isNone = true := by
  decide

/-- Claim C20, amended: `Close` on a wrapper whose close signal is still open returns, closes
the signal, closes the socket once and gives the result of the socket; every later `Close` on
that wrapper panics at the close signal, whatever the socket would return, and the socket is
not closed again. -/
theorem Close_once (c : connection) (r : Option String) (h : c.closeChClosed = false) :
    ∃ c2 : connection, Close c r = some (c2, r) ∧ c2.closeChClosed = true
      ∧ c2.connCloses = c.connCloses + 1 ∧ c2.connWritten = c.connWritten
      ∧ ∀ r2 : Option String, Close c2 r2 = none := by
  refine ⟨{ c with closeChClosed := true, connCloses := c.connCloses + 1 }, ?_, rfl, rfl, rfl, ?_⟩
  · simp [Close, h]
  · intro r2
    simp [Close]

/-- Claim C20, amended: the statement at a fresh wrapper whose socket closes with an error. -/
theorem Close_once_witness :
    freshConnection.closeChClosed = false
      ∧ ∃ c2 : connection, Close freshConnection (some "use of closed network connection")
            = some (c2, some "use of closed network connection")
          ∧ c2.closeChClosed = true
          ∧ c2.connCloses = freshConnection.connCloses + 1
          ∧ c2.connWritten = freshConnection.connWritten
          ∧ ∀ r2 : Option String, Close c2 r2 = none :=
  ⟨rfl, Close_once freshConnection (some "use of closed network connection") rfl⟩

/-! ## The long poll of `/connState` -/

/-- Claim C21. For a request with both ports given whose verdict on arrival is `v0` (no error):
without an old state the reply is `v0`, whatever happens later; with an old state different
from `v0` the reply is `v0`, whatever happens later; with the old state `v0` the handler waits,
replies 304 when the three seconds pass, and when the update channel fires replies 304 if the
verdict `v1` recomputed then equals the old state and `v1` otherwise. A 304 is replied only when
the old state is `v0` and, if the channel fired, is `v1` too. -/
theorem connState_long_poll (topo later : topology) (clientPort serverPort : Int)
    (v0 : ConnState) (hc : clientPort ≠ 0) (hs : serverPort ≠ 0)
    (h0 : connState topo clientPort serverPort = (v0, none)) :
    (∀ (ev : pollEvent) (later2 : topology),
        ApiServer.connState clientPort serverPort .absent topo ev later2 = some (.verdict v0)) ∧
    (∀ (oldState : ConnState), oldState ≠ v0 → ∀ (ev : pollEvent) (later2 : topology),
        ApiServer.connState clientPort serverPort (.state oldState) topo ev later2
          = some (.verdict v0)) ∧
    (∀ later2 : topology,
        ApiServer.connState clientPort serverPort (.state v0) topo .timeout later2
          = some .notModified) ∧
    (later.chClosed topo.updateCh = true →
        ApiServer.connState clientPort serverPort (.state v0) topo .updated later
          = some (if v0 = (connState later clientPort serverPort).1 then reply.notModified
              else reply.verdict (connState later clientPort serverPort).1)) ∧
    (∀ (oldState : ConnState) (ev : pollEvent),
        ApiServer.connState clientPort serverPort (.state oldState) topo ev later
          = some .notModified →
        oldState = v0 ∧
          (ev = .updated → oldState = (connState later clientPort serverPort).1)) := by
  refine ⟨?_, ?_, ?_, ?_, ?_⟩
  · intro ev later2
    simp [ApiServer.connState, hc, hs, h0]
  · intro oldState hne ev later2
    simp [ApiServer.connState, hc, hs, h0, hne]
  · intro later2
    simp [ApiServer.connState, hc, hs, h0]
  · intro hcl
    simp only [ApiServer.connState, hc, hs, h0, hcl, if_true, if_false]
    split <;> simp_all
  · intro oldState ev h
    by_cases hne : oldState = v0
    · subst hne
      refine ⟨rfl, ?_⟩
      intro hev
      subst hev
      simp only [ApiServer.connState, hc, hs, h0, if_true, if_false] at h
      by_cases hcl : later.chClosed topo.updateCh = true
      · simp only [hcl, if_true] at h
        by_contra hv
        simp [hv] at h
      · simp [hcl] at h
    · simp [ApiServer.connState, hc, hs, h0, hne] at h

set_option maxRecDepth 100000 in
/-- Claim C21 on the default topology with apple serving 30003 and tiger holding client port
50000, where the verdict is (ok, 222 ms): a poll with that old state gets 304 after three
seconds, and gets (not ok, 15 min) when datacenter `plant` is set externalDown meanwhile; a
poll with another old state, or with none, gets (ok, 222 ms). -/
theorem connState_long_poll_witness :
    ApiServer.connState 50000 30003 (.state { Latency := 222000000, OK := true })
        (stateAfter [.addServerPort "plant.fruit.apple" 30003,
          .addClientPort "animal.land.tiger" 50000]) .timeout
        (stateAfter [.addServerPort "plant.fruit.apple" 30003,
          .addClientPort "animal.land.tiger" 50000])
      = some .notModified ∧
    ApiServer.connState 50000 30003 (.state { Latency := 222000000, OK := true })
        (stateAfter [.addServerPort "plant.fruit.apple" 30003,
          .addClientPort "animal.land.tiger" 50000]) .updated
        (stateAfter [.addServerPort "plant.fruit.apple" 30003,
          .addClientPort "animal.land.tiger" 50000, .setNodeState "plant" stExternalDown])
      = some (if ({ Latency := 222000000, OK := true } : ConnState)
            = (connState (stateAfter [.addServerPort "plant.fruit.apple" 30003,
                .addClientPort "animal.land.tiger" 50000,
                .setNodeState "plant" stExternalDown]) 50000 30003).1
          then reply.notModified
          else reply.verdict (connState (stateAfter [.addServerPort "plant.fruit.apple" 30003,
                .addClientPort "animal.land.tiger" 50000,
                .setNodeState "plant" stExternalDown]) 50000 30003).1) ∧
    ApiServer.connState 50000 30003 (.state { Latency := 222000000, OK := true })
        (stateAfter [.addServerPort "plant.fruit.apple" 30003,
          .addClientPort "animal.land.tiger" 50000]) .updated
        (stateAfter [.addServerPort "plant.fruit.apple" 30003,
          .addClientPort "animal.land.tiger" 50000, .setNodeState "plant" stExternalDown])
      = some (.verdict { Latency := 900000000000, OK := false }) ∧
    ApiServer.connState 50000 30003 (.state ConnState.zero)
        (stateAfter [.addServerPort "plant.fruit.apple" 30003,
          .addClientPort "animal.land.tiger" 50000]) .timeout
        (stateAfter [.addServerPort "plant.fruit.apple" 30003,
          .addClientPort "animal.land.tiger" 50000])
      = some (.verdict { Latency := 222000000, OK := true }) ∧
    ApiServer.connState 50000 30003 .absent
        (stateAfter [.addServerPort "plant.fruit.apple" 30003,
          .addClientPort "animal.land.tiger" 50000]) .timeout
        (stateAfter [.addServerPort "plant.fruit.apple" 30003,
          .addClientPort "animal.land.tiger" 50000])
      = some (.verdict { Latency := 222000000, OK := true }) :=
  ⟨(connState_long_poll (stateAfter [.addServerPort "plant.fruit.apple" 30003,
          .addClientPort "animal.land.tiger" 50000])
        (stateAfter [.addServerPort "plant.fruit.apple" 30003,
          .addClientPort "animal.land.tiger" 50000]) 50000 30003
        { Latency := 222000000, OK := true } (by decide) (by decide) (by decide)).2.2.1 _,
    (connState_long_poll (stateAfter [.addServerPort "plant.fruit.apple" 30003,
          .addClientPort "animal.land.tiger" 50000])
        (stateAfter [.addServerPort "plant.fruit.apple" 30003,
          .addClientPort "animal.land.tiger" 50000, .setNodeState "plant" stExternalDown])
        50000 30003 { Latency := 222000000, OK := true }
        (by decide) (by decide) (by decide)).2.2.2.1 (by decide),
    by decide, by decide, by decide⟩

/-! ## conn.go: the overflow of `readPacket` -/

/-- What `readPacket` does with a packet longer than the read buffer: the first `bLen` bytes of
the payload go to the buffer, and the overflow buffer receives `packet.data[packet.length:]`
together with the error of the packet. -/
theorem readPacket_overflow (c : connection) (pk : packet) (bLen : Nat)
    (h : bLen < pk.length) :
    readPacket c pk bLen false
      = (poolPut { c with readBuffer := c.readBuffer ++ pk.data.drop pk.length,
                          readErr := pk.err } pk,
          (pk.data.take pk.length).take bLen, none) := by
  simp [readPacket, Nat.not_le.mpr h]

set_option maxRecDepth 100000 in
/-- Claim C22, the divergence: for the packet the reader makes of the received bytes 1, 2, 3, 4
(length 4, in a new buffer of 4096 bytes) and a read buffer of 2 bytes, `readPacket` copies 1, 2
and returns no error, but the overflow buffer then holds the 4092 bytes of the packet buffer
after the payload, all zero, and not the remaining bytes 3, 4; the next `Read` with a buffer of
2 bytes returns 0, 0. -/
theorem readPacket_stashes_buffer_tail :
    (readPacket freshConnection
        { data := copyInto newPacket.data [1, 2, 3, 4], length := 4, err := none } 2 false).2
      = ([1, 2], none) ∧
    (readPacket freshConnection
        { data := copyInto newPacket.data [1, 2, 3, 4], length := 4, err := none } 2 false).1.readBuffer
      = List.replicate 4092 0 ∧
    (readPacket freshConnection
        { data := copyInto newPacket.data [1, 2, 3, 4], length := 4, err := none } 2 false).1.readBuffer
      ≠ [3, 4] ∧
    (Read (readPacket freshConnection
        { data := copyInto newPacket.data [1, 2, 3, 4], length := 4, err := none } 2 false).1 2
        readEvent.deadline).map (fun r => r.2)
      = some ([0, 0], none) := by
  decide!

/-! ## conn.go: the pieces of `Write` -/

theorem copyInto_length (dst src : List UInt8) : (copyInto dst src).length = dst.length := by
  simp only [copyInto, List.length_append, List.length_take, List.length_drop]
  omega

theorem copyInto_take (dst src : List UInt8) :
    (copyInto dst src).take (min dst.length src.length) = src.take (min dst.length src.length) := by
  simp only [copyInto]
  rw [List.take_append_of_le_length (by simp)]
  rw [List.take_take]
  congr 1
  omega

theorem poolGet_sized (c : connection) (h : packetsSized c) :
    (poolGet c).1.data.length = packetSize ∧ packetsSized (poolGet c).2 := by
  unfold poolGet
  cases hp : c.pool with
  | nil =>
    refine ⟨by simp [newPacket], ?_⟩
    exact h
  | cons p rest =>
    refine ⟨h.1 p (by simp [hp]), ?_, h.2.1, h.2.2⟩
    intro q hq
    exact h.1 q (by simp [hp, List.mem_of_mem_tail, hq])

theorem poolPut_sized (c : connection) (p : packet) (h : packetsSized c)
    (hp : p.data.length = packetSize) : packetsSized (poolPut c p) := by
  unfold poolPut
  split
  · refine ⟨?_, h.2.1, h.2.2⟩
    intro q hq
    simp only [List.mem_append, List.mem_singleton] at hq
    rcases hq with hq | hq
    · exact h.1 q hq
    · rw [hq]; exact hp
  · exact h

theorem writePacket_sized (c : connection) (pk : packet) (verdictOK closedFirst : Bool)
    (connErr : Option String) (h : packetsSized c) (hp : pk.data.length = packetSize) :
    packetsSized (writePacket c pk verdictOK closedFirst connErr) := by
  have h1 : packetsSized (if (verdictOK && connErr.isNone) = true then
      { c with connWritten := c.connWritten ++ pk.data.take pk.length } else c) := by
    split
    · exact h
    · exact h
  have key : ∀ (c1 : connection) (err : Option String), packetsSized c1 →
      packetsSized (match err with
        | none => poolPut c1 pk
        | some e =>
          if (poolPut c1 pk).writeErrCh.isNone then { poolPut c1 pk with writeErrCh := some e }
          else poolPut c1 pk) := by
    intro c1 err hc1
    have h2 := poolPut_sized c1 pk hc1 hp
    cases err with
    | none => exact h2
    | some e =>
      dsimp only
      split
      · exact h2
      · exact h2
  unfold writePacket
  split
  · exact h
  · exact key _ _ h1

theorem writeLoopStep_sized (c c2 : connection) (verdictOK closedFirst : Bool)
    (connErr : Option String) (h : packetsSized c)
    (hs : writeLoopStep c verdictOK closedFirst connErr = some c2) : packetsSized c2 := by
  unfold writeLoopStep at hs
  split at hs
  · exact absurd hs (by simp)
  · rename_i pk rest hq
    simp only [Option.some.injEq] at hs
    rw [← hs]
    apply writePacket_sized
    · refine ⟨h.1, ?_, h.2.2⟩
      intro q hq2
      exact h.2.1 q (by simp [hq, hq2])
    · exact h.2.1 pk (by simp [hq])

theorem readLoopStep_sized (c c2 : connection) (chunk : List UInt8) (err : Option String)
    (h : packetsSized c) (hs : readLoopStep c chunk err = some c2) : packetsSized c2 := by
  unfold readLoopStep at hs
  dsimp only at hs
  have hg := poolGet_sized c h
  split at hs
  · simp only [Option.some.injEq] at hs
    rw [← hs]
    refine ⟨hg.2.1, hg.2.2.1, ?_⟩
    intro q hq
    simp only [List.mem_append, List.mem_singleton] at hq
    rcases hq with hq | hq
    · exact hg.2.2.2 q hq
    · rw [hq]
      simp only [copyInto_length]
      exact hg.1
  · exact absurd hs (by simp)

theorem readPacket_sized (c : connection) (pk : packet) (bLen : Nat) (closedFirst : Bool)
    (h : packetsSized c) (hp : pk.data.length = packetSize) :
    packetsSized (readPacket c pk bLen closedFirst).1 := by
  unfold readPacket
  split
  · exact h
  · dsimp only
    split
    · exact h
    · exact poolPut_sized _ pk h hp

theorem Read_sized (c c2 : connection) (bLen : Nat) (ev : readEvent) (out : List UInt8)
    (err : Option String) (h : packetsSized c) (hs : Read c bLen ev = some (c2, out, err)) :
    packetsSized c2 := by
  have h1 : packetsSized { c with readBuffer := c.readBuffer.drop bLen } := h
  have h2 : packetsSized { c with readBuffer := c.readBuffer.drop bLen, readErr := none } := h
  unfold Read at hs
  dsimp only at hs
  split at hs
  · simp only [Option.some.injEq, Prod.mk.injEq] at hs
    rw [← hs.1]
    exact h1
  · split at hs
    · simp only [Option.some.injEq, Prod.mk.injEq] at hs
      rw [← hs.1]
      exact h2
    · split at hs
      · split at hs
        · exact absurd hs (by simp)
        · rename_i closedFirst _ pk rest hq
          simp only [Option.some.injEq] at hs
          have h3 := readPacket_sized
            { c with readBuffer := c.readBuffer.drop bLen, readErr := none, readPacketCh := rest }
            pk bLen closedFirst
            ⟨h.1, h.2.1, fun q hq2 => h.2.2 q (by
              have hq3 : c.readPacketCh = pk :: rest := hq
              simp [hq3, hq2])⟩
            (h.2.2 pk (by
              have hq3 : c.readPacketCh = pk :: rest := hq
              simp [hq3]))
          rw [hs] at h3
          exact h3
      · simp only [Option.some.injEq, Prod.mk.injEq] at hs
        rw [← hs.1]
        exact h2
      · split at hs
        · simp only [Option.some.injEq, Prod.mk.injEq] at hs
          rw [← hs.1]
          exact h2
        · exact absurd hs (by simp)
      · simp only [Option.some.injEq, Prod.mk.injEq] at hs
        rw [← hs.1]
        exact h2

theorem workerStep_sized (c c2 : connection) (s : workerStep) (h : packetsSized c)
    (hs : s.apply c = some c2) : packetsSized c2 := by
  cases s with
  | writeLoop verdictOK closedFirst connErr => exact writeLoopStep_sized c c2 _ _ _ h hs
  | readLoop chunk err => exact readLoopStep_sized c c2 _ _ h hs
  | read bLen ev =>
    simp only [workerStep.apply, Option.map_eq_some'] at hs
    obtain ⟨r, hr, hr2⟩ := hs
    rw [← hr2]
    exact Read_sized c r.1 bLen ev r.2.1 r.2.2 h hr
  | close connResult =>
    simp only [workerStep.apply, Option.map_eq_some'] at hs
    obtain ⟨r, hr, hr2⟩ := hs
    unfold Close at hr
    split at hr
    · exact absurd hr (by simp)
    · simp only [Option.some.injEq] at hr
      rw [← hr2, ← hr]
      exact h

theorem runWorkers_sized (steps : List workerStep) :
    ∀ (c c2 : connection), packetsSized c → runWorkers c steps = some c2 → packetsSized c2 := by
  induction steps with
  | nil =>
    intro c c2 h hs
    simp only [runWorkers, Option.some.injEq] at hs
    rw [← hs]
    exact h
  | cons s rest ih =>
    intro c c2 h hs
    simp only [runWorkers] at hs
    split at hs
    · exact absurd hs (by simp)
    · rename_i c1 hc1
      exact ih c1 c2 (workerStep_sized c c1 s h hc1) hs

theorem packetSize_eq : packetSize = 4096 := by decide

theorem WriteConcurrent_spec (sched : List writeStep) :
    ∀ (c : connection) (n : Nat) (rest : List UInt8) (sent : List packet) (c2 : connection)
      (n2 : Nat) (err : Option String) (sent2 : List packet),
      packetsSized c → WriteConcurrent sched c n rest sent = some (c2, n2, err, sent2) →
      ∃ (newp : List packet) (m : Nat), sent2 = sent ++ newp ∧ n2 = n + m ∧ m ≤ rest.length ∧
        (newp.map packet.payload).flatten = rest.take m ∧
        newp.length = (m + packetSize - 1) / packetSize ∧
        (∀ pk ∈ newp, pk.length ≤ packetSize) ∧
        (∀ pk ∈ newp.dropLast, pk.length = packetSize) ∧
        (∀ s ∈ sched.take newp.length, s.ev = writeEvent.accepted) ∧
        (err = none → m = rest.length) ∧
        (∀ e, err = some e → m < rest.length ∧ m = packetSize * newp.length ∧
          ∃ s, sched[newp.length]? = some s ∧ s.ev.fails e) ∧
        packetsSized c2 := by
  have hdone : ∀ (sched : List writeStep) (c : connection) (n : Nat) (rest : List UInt8)
      (sent : List packet) (c2 : connection) (n2 : Nat) (err : Option String)
      (sent2 : List packet), packetsSized c → rest.isEmpty = true →
      some (c, n, (none : Option String), sent) = some (c2, n2, err, sent2) →
      ∃ (newp : List packet) (m : Nat), sent2 = sent ++ newp ∧ n2 = n + m ∧ m ≤ rest.length ∧
        (newp.map packet.payload).flatten = rest.take m ∧
        newp.length = (m + packetSize - 1) / packetSize ∧
        (∀ pk ∈ newp, pk.length ≤ packetSize) ∧
        (∀ pk ∈ newp.dropLast, pk.length = packetSize) ∧
        (∀ s ∈ sched.take newp.length, s.ev = writeEvent.accepted) ∧
        (err = none → m = rest.length) ∧
        (∀ e, err = some e → m < rest.length ∧ m = packetSize * newp.length ∧
          ∃ s, sched[newp.length]? = some s ∧ s.ev.fails e) ∧
        packetsSized c2 := by
    intro sched c n rest sent c2 n2 err sent2 hs hre h
    simp only [Option.some.injEq, Prod.mk.injEq] at h
    obtain ⟨h1, h2, h3, h4⟩ := h
    have hr : rest = [] := List.isEmpty_iff.mp hre
    refine ⟨[], 0, by simp [h4], by simp [h2], by simp, by simp, ?_, by simp, by simp, by simp,
      ?_, ?_, ?_⟩
    · simp [packetSize_eq]
    · intro _
      simp [hr]
    · intro e he
      rw [← h3] at he
      exact absurd he (by simp)
    · rw [← h1]
      exact hs
  have hfail : ∀ (s : writeStep) (sched : List writeStep) (c1 : connection) (n : Nat)
      (rest : List UInt8) (sent : List packet) (c2 : connection) (n2 : Nat)
      (err : Option String) (sent2 : List packet) (e : String), packetsSized c1 →
      rest.isEmpty = false → s.ev.fails e →
      some (c1, n, some e, sent) = some (c2, n2, err, sent2) →
      ∃ (newp : List packet) (m : Nat), sent2 = sent ++ newp ∧ n2 = n + m ∧ m ≤ rest.length ∧
        (newp.map packet.payload).flatten = rest.take m ∧
        newp.length = (m + packetSize - 1) / packetSize ∧
        (∀ pk ∈ newp, pk.length ≤ packetSize) ∧
        (∀ pk ∈ newp.dropLast, pk.length = packetSize) ∧
        (∀ s2 ∈ (s :: sched).take newp.length, s2.ev = writeEvent.accepted) ∧
        (err = none → m = rest.length) ∧
        (∀ e2, err = some e2 → m < rest.length ∧ m = packetSize * newp.length ∧
          ∃ s2, (s :: sched)[newp.length]? = some s2 ∧ s2.ev.fails e2) ∧
        packetsSized c2 := by
    intro s sched c1 n rest sent c2 n2 err sent2 e hs hre hf h
    simp only [Option.some.injEq, Prod.mk.injEq] at h
    obtain ⟨h1, h2, h3, h4⟩ := h
    have hr : 0 < rest.length := by
      cases rest with
      | nil => simp at hre
      | cons a as => simp
    refine ⟨[], 0, by simp [h4], by simp [h2], by simp, by simp, ?_, by simp, by simp, by simp,
      ?_, ?_, ?_⟩
    · simp [packetSize_eq]
    · intro he
      rw [← h3] at he
      exact absurd he (by simp)
    · intro e2 he
      rw [← h3] at he
      simp only [Option.some.injEq] at he
      refine ⟨hr, by simp, s, by simp, ?_⟩
      rw [← he]
      exact hf
    · rw [← h1]
      exact hs
  induction sched with
  | nil =>
    intro c n rest sent c2 n2 err sent2 hs h
    simp only [WriteConcurrent] at h
    split at h
    · rename_i hre
      exact hdone [] c n rest sent c2 n2 err sent2 hs hre h
    · exact absurd h (by simp)
  | cons s sched ih =>
    intro c n rest sent c2 n2 err sent2 hs h
    simp only [WriteConcurrent] at h
    split at h
    · rename_i hre
      exact hdone (s :: sched) c n rest sent c2 n2 err sent2 hs hre h
    · rename_i hre
      have hre2 : rest.isEmpty = false := by simpa using hre
      split at h
      · exact absurd h (by simp)
      · rename_i c0 hc0
        have hs0 := runWorkers_sized s.before c c0 hs hc0
        have hg := poolGet_sized c0 hs0
        split at h
        · exact absurd h (by simp)
        · rename_i c1 hc1
          have hs1 := runWorkers_sized s.during (poolGet c0).2 c1 hg.2 hc1
          split at h
          · rename_i e hev
            exact hfail s sched c1 n rest sent c2 n2 err sent2 e hs1 hre2
              (by rw [hev]; simp [writeEvent.fails]) h
          · rename_i hev
            split at h
            · rename_i e hw
              exact hfail s sched { c1 with writeErrCh := none } n rest sent c2 n2 err sent2 e
                (show packetsSized { c1 with writeErrCh := none } from hs1) hre2
                (by rw [hev]; simp [writeEvent.fails]) h
            · exact absurd h (by simp)
          · rename_i hev
            exact hfail s sched c1 n rest sent c2 n2 err sent2 _ hs1 hre2
              (by rw [hev]; simp [writeEvent.fails]) h
          · rename_i hev
            split at h
            · obtain ⟨pk, hpk⟩ : ∃ pk : packet, pk =
                  { (poolGet c0).1 with
                    data := copyInto (poolGet c0).1.data rest
                    length := min (poolGet c0).1.data.length rest.length } := ⟨_, rfl⟩
              obtain ⟨len, hlen⟩ : ∃ len : Nat,
                  len = min (poolGet c0).1.data.length rest.length := ⟨_, rfl⟩
              have h2 : WriteConcurrent sched
                  { c1 with writePacketCh := c1.writePacketCh ++ [pk] } (n + len)
                  (rest.drop len) (sent ++ [pk]) = some (c2, n2, err, sent2) := by
                rw [hpk, hlen]
                exact h
              have hpkd : pk.data.length = packetSize := by
                rw [hpk]
                simp only [copyInto_length]
                exact hg.1
              have hpkl : pk.length = len := by rw [hpk, hlen]
              have hpay : pk.payload = rest.take len := by
                rw [hpk, hlen]
                exact copyInto_take _ _
              have hr : 0 < rest.length := by
                cases rest with
                | nil => simp at hre2
                | cons a as => simp
              have hcase : len = 4096 ∧ 4096 ≤ rest.length ∨ len = rest.length ∧ rest.length ≤ 4096 := by
                rw [hlen, hg.1, packetSize_eq]
                omega
              have hsz : packetsSized { c1 with writePacketCh := c1.writePacketCh ++ [pk] } := by
                refine ⟨hs1.1, ?_, hs1.2.2⟩
                intro q hq
                simp only [List.mem_append, List.mem_singleton] at hq
                rcases hq with hq | hq
                · exact hs1.2.1 q hq
                · rw [hq]
                  exact hpkd
              obtain ⟨newp, m, e1, e2, e3, e4, e5, e6, e7, e8, e9, e10, e11⟩ :=
                ih _ (n + len) (rest.drop len) (sent ++ [pk]) c2 n2 err sent2 hsz h2
              simp only [List.length_drop] at e3 e9 e10
              rw [packetSize_eq] at e5 e10
              refine ⟨pk :: newp, len + m, by simp [e1], by omega, by omega, ?_, ?_, ?_, ?_, ?_,
                ?_, ?_, e11⟩
              · simp only [List.map_cons, List.flatten_cons, hpay, e4]
                rw [List.take_add]
              · simp only [List.length_cons, packetSize_eq]
                omega
              · intro q hq
                simp only [List.mem_cons] at hq
                rcases hq with hq | hq
                · rw [hq, hpkl, packetSize_eq]
                  omega
                · exact e6 q hq
              · by_cases hn : newp = []
                · subst hn
                  simp
                · rw [List.dropLast_cons_of_ne_nil hn]
                  intro q hq
                  simp only [List.mem_cons] at hq
                  have hpos : 0 < newp.length := List.length_pos.mpr hn
                  rcases hq with hq | hq
                  · rw [hq, hpkl, packetSize_eq]
                    omega
                  · exact e7 q hq
              · intro s2 hs2
                simp only [List.length_cons, List.take_succ_cons, List.mem_cons] at hs2
                rcases hs2 with hs2 | hs2
                · rw [hs2]
                  exact hev
                · exact e8 s2 hs2
              · intro he
                have := e9 he
                omega
              · intro e he
                obtain ⟨f1, f2, s2, f3, f4⟩ := e10 e he
                refine ⟨by omega, ?_, s2, by simpa using f3, f4⟩
                rw [packetSize_eq]
                simp only [List.length_cons]
                omega
            · exact absurd h (by simp)
          · rename_i hev
            split at h
            · exact hfail s sched c1 n rest sent c2 n2 err sent2 _ hs1 hre2
                (by rw [hev]; simp [writeEvent.fails]) h
            · exact absurd h (by simp)

theorem WriteFrom_eq_concurrent (evs : List writeEvent) :
    ∀ (c : connection) (n : Nat) (rest : List UInt8) (sent : List packet),
      WriteFrom evs c n rest
        = (WriteConcurrent (evs.map (fun ev => { before := [], during := [], ev := ev }))
            c n rest sent).map (fun r => (r.1, r.2.1, r.2.2.1)) := by
  induction evs with
  | nil =>
    intro c n rest sent
    simp only [WriteFrom, WriteConcurrent, List.map_nil]
    split <;> rfl
  | cons ev evs ih =>
    intro c n rest sent
    simp only [WriteFrom, WriteConcurrent, List.map_cons, runWorkers]
    split
    · rfl
    · cases ev with
      | updateErr err => rfl
      | writeErr =>
        dsimp only
        split <;> rfl
      | deadline => rfl
      | accepted =>
        dsimp only
        split
        · exact ih _ _ _ _
        · rfl
      | closed =>
        dsimp only
        split <;> rfl

theorem WriteConcurrent_runs (evs : List writeEvent) :
    ∀ (c : connection) (n : Nat) (rest : List UInt8) (sent : List packet),
      packetsSized c →
      (∀ ev ∈ evs, ev = writeEvent.accepted ∨ ev = writeEvent.deadline
        ∨ ∃ e, ev = writeEvent.updateErr e) →
      ((rest.length + packetSize - 1) / packetSize ≤ evs.length
        ∨ ∃ ev ∈ evs, ev ≠ writeEvent.accepted) →
      c.writePacketCh.length + (rest.length + packetSize - 1) / packetSize ≤ NumOfPackets →
      ∃ r, WriteConcurrent (evs.map (fun ev => { before := [], during := [], ev := ev }))
        c n rest sent = some r := by
  induction evs with
  | nil =>
    intro c n rest sent hs hev hlong hroom
    have hr : rest = [] := by
      rcases hlong with hl | ⟨ev, hm, _⟩
      · rw [packetSize_eq] at hl
        simp only [List.length_nil] at hl
        apply List.eq_nil_of_length_eq_zero
        omega
      · simp at hm
    simp [WriteConcurrent, hr]
  | cons ev evs ih =>
    intro c n rest sent hs hev hlong hroom
    simp only [WriteConcurrent, List.map_cons, runWorkers]
    split
    · exact ⟨_, rfl⟩
    · rename_i hre
      have hr : 0 < rest.length := by
        cases rest with
        | nil => simp at hre
        | cons a as => simp
      have hg := poolGet_sized c hs
      rcases hev ev (by simp) with he | he | ⟨e, he⟩
      · subst he
        dsimp only
        rw [packetSize_eq] at hroom hlong
        have hq : c.writePacketCh.length < NumOfPackets := by
          have : (poolGet c).2.writePacketCh = c.writePacketCh := by
            unfold poolGet
            split <;> rfl
          omega
        have hq2 : (poolGet c).2.writePacketCh.length < NumOfPackets := by
          have : (poolGet c).2.writePacketCh = c.writePacketCh := by
            unfold poolGet
            split <;> rfl
          rw [this]
          exact hq
        rw [if_pos hq2]
        apply ih
        · refine ⟨hg.2.1, ?_, hg.2.2.2⟩
          intro q hq3
          simp only [List.mem_append, List.mem_singleton] at hq3
          rcases hq3 with hq3 | hq3
          · exact hg.2.2.1 q hq3
          · rw [hq3]
            simp only [copyInto_length]
            exact hg.1
        · intro ev2 hev2
          exact hev ev2 (by simp [hev2])
        · rw [hg.1, packetSize_eq]
          simp only [List.length_drop]
          rcases hlong with hl | ⟨ev2, hm, hne⟩
          · left
            simp only [List.length_cons] at hl
            omega
          · right
            simp only [List.mem_cons] at hm
            rcases hm with hm | hm
            · exact absurd hm hne
            · exact ⟨ev2, hm, hne⟩
        · have : (poolGet c).2.writePacketCh = c.writePacketCh := by
            unfold poolGet
            split <;> rfl
          rw [hg.1, packetSize_eq]
          simp only [List.length_append, List.length_drop, List.length_singleton, this]
          omega
      · subst he
        exact ⟨_, rfl⟩
      · subst he
        exact ⟨_, rfl⟩

/-- Claim C23. On a wrapper whose packets have buffers of `packetSize` bytes, take any run of
`Write(b)` among the other goroutines that returns `n` and `err` after handing the packets
`sent` to the write queue. Then the payloads of `sent`, in order, make up the first `n` bytes
of `b`; there are `ceil(n / 4096)` of them, each of at most 4096 bytes and all but the last of
exactly 4096. If every `select` accepted its packet there is no error; without an error
`n = len(b)`, so the payloads make up `b` in `ceil(len(b) / 4096)` packets. With an error `e`,
the passes before the failing one all handed off a full packet, `n = 4096 * len(sent)` is below
`len(b)`, and `e` is the error of the case that fired in that pass. Such runs exist: when the
queue has room for all pieces, no other goroutine steps in, and each `select` accepts the packet
or ends on the deadline or an updater error, `Write` returns. -/
theorem Write_pieces (c : connection) (b : List UInt8) (hs : packetsSized c) :
    (∀ (sched : List writeStep) (c2 : connection) (n : Nat) (err : Option String)
        (sent : List packet),
        WriteConcurrent sched c 0 b [] = some (c2, n, err, sent) →
        n ≤ b.length ∧ (sent.map packet.payload).flatten = b.take n ∧
        sent.length = (n + packetSize - 1) / packetSize ∧
        (∀ pk ∈ sent, pk.length ≤ packetSize) ∧
        (∀ pk ∈ sent.dropLast, pk.length = packetSize) ∧
        (∀ s ∈ sched.take sent.length, s.ev = writeEvent.accepted) ∧
        ((∀ s ∈ sched, s.ev = writeEvent.accepted) → err = none) ∧
        (err = none → n = b.length ∧ (sent.map packet.payload).flatten = b ∧
          sent.length = (b.length + packetSize - 1) / packetSize) ∧
        (∀ e, err = some e → n < b.length ∧ n = packetSize * sent.length ∧
          ∃ s, sched[sent.length]? = some s ∧ s.ev.fails e)) ∧
    (∀ evs : List writeEvent,
        (∀ ev ∈ evs, ev = writeEvent.accepted ∨ ev = writeEvent.deadline
          ∨ ∃ e, ev = writeEvent.updateErr e) →
        ((b.length + packetSize - 1) / packetSize ≤ evs.length
          ∨ ∃ ev ∈ evs, ev ≠ writeEvent.accepted) →
        c.writePacketCh.length + (b.length + packetSize - 1) / packetSize ≤ NumOfPackets →
        ∃ r, WriteConcurrent (evs.map (fun ev => { before := [], during := [], ev := ev }))
            c 0 b [] = some r ∧
          Write c b evs = some (r.1, r.2.1, r.2.2.1)) := by
  constructor
  · intro sched c2 n err sent h
    obtain ⟨newp, m, e1, e2, e3, e4, e5, e6, e7, e8, e9, e10, _⟩ :=
      WriteConcurrent_spec sched c 0 b [] c2 n err sent hs h
    simp only [List.nil_append] at e1
    simp only [Nat.zero_add] at e2
    subst e1
    subst e2
    refine ⟨e3, e4, e5, e6, e7, e8, ?_, ?_, e10⟩
    · intro hall
      cases herr : err with
      | none => rfl
      | some e =>
        obtain ⟨_, _, s, f3, f4⟩ := e10 e herr
        have hmem : s ∈ sched := List.getElem?_mem f3
        rw [hall s hmem] at f4
        exact absurd f4 (by simp [writeEvent.fails])
    · intro he
      have hn := e9 he
      refine ⟨hn, ?_, ?_⟩
      · rw [e4, hn, List.take_length]
      · rw [e5, hn]
  · intro evs hev hlong hroom
    obtain ⟨r, hr⟩ := WriteConcurrent_runs evs c 0 b [] hs hev hlong hroom
    refine ⟨r, hr, ?_⟩
    unfold Write
    rw [WriteFrom_eq_concurrent evs c 0 b [], hr]
    rfl

set_option maxRecDepth 100000 in
/-- Claim C23 on a fresh wrapper and 5000 bytes of value 7: with two accepting passes `Write`
returns 5000 and no error after queueing packets of 4096 and 904 bytes; with the deadline
firing in the second pass it returns 4096 and the timeout error after queueing one packet. -/
theorem Write_pieces_witness :
    packetsSized freshConnection ∧
    (∃ r, WriteConcurrent
          ([writeEvent.accepted, writeEvent.accepted].map
            (fun ev => { before := [], during := [], ev := ev }))
          freshConnection 0 (List.replicate 5000 7) [] = some r ∧
        Write freshConnection (List.replicate 5000 7) [writeEvent.accepted, writeEvent.accepted]
          = some (r.1, r.2.1, r.2.2.1)) ∧
    (Write freshConnection (List.replicate 5000 7)
        [writeEvent.accepted, writeEvent.accepted]).map
        (fun r => (r.2.1, r.2.2, r.1.writePacketCh.map (fun pk => pk.length)))
      = some (5000, none, [4096, 904]) ∧
    (Write freshConnection (List.replicate 5000 7)
        [writeEvent.accepted, writeEvent.deadline]).map
        (fun r => (r.2.1, r.2.2, r.1.writePacketCh.map (fun pk => pk.length)))
      = some (4096, some "write timeout", [4096]) :=
  ⟨by simp [packetsSized, freshConnection],
    (Write_pieces freshConnection (List.replicate 5000 7)
      (by simp [packetsSized, freshConnection])).2
      [writeEvent.accepted, writeEvent.accepted]
      (fun ev hev => by
        simp only [List.mem_cons, List.mem_singleton, List.mem_nil_iff, or_false, or_self] at hev
        exact Or.inl hev)
      (Or.inl (by rw [List.length_replicate]; decide))
      (by rw [List.length_replicate]; decide),
    by decide!, by decide!⟩

/-! ## Errors and zero verdicts of `connState` -/

set_option maxRecDepth 100000 in
/-- Claim C24, the counterexample to its last part: after tiger has served 30011, taken client
port 40000 and stopped serving 30011, `connState(40000, 30011)` is the zero verdict without an
error, although the global map names tiger (host 0) for 40000 and tiger's own map still holds
40000 as a client port. The two ends are the same host, so the network is ok with latency 0,
and `OK` is false because 30011 is no longer in tiger's map. -/
theorem connState_zero_with_client_registered :
    connState (stateAfter [.addServerPort "animal.land.tiger" 30011,
        .addClientPort "animal.land.tiger" 40000,
        .removeServerPort "animal.land.tiger" 30011]) 40000 30011 = (ConnState.zero, none) ∧
    (stateAfter [.addServerPort "animal.land.tiger" 30011,
        .addClientPort "animal.land.tiger" 40000,
        .removeServerPort "animal.land.tiger" 30011]).ports 40000 = some 0 ∧
    ((stateAfter [.addServerPort "animal.land.tiger" 30011,
        .addClientPort "animal.land.tiger" 40000,
        .removeServerPort "animal.land.tiger" 30011]).hosts 0).portMap 40000
      = some clientPortType ∧
    computeNetworkState (stateAfter [.addServerPort "animal.land.tiger" 30011,
        .addClientPort "animal.land.tiger" 40000,
        .removeServerPort "animal.land.tiger" 30011]) 0 0 = (true, 0) := by
  decide

/-- Claim C24, amended. `connState` returns an error exactly when one of the two ports is absent
from the global port map. After a successful `addClientPort(name, p)`, `removeClientPort(p)`
succeeds and `connState(p, q)` then returns the error of an unknown client port for every `q`.
The zero verdict without an error is returned exactly when the global map names a host for
both ports and either the client host's own map does not hold the client port, or the network
between the two hosts is ok with latency 0 and the server host's own map does not hold the
server port. -/
theorem connState_error_iff (topo : topology) (clientPort serverPort : Int) :
    ((connState topo clientPort serverPort).2.isSome = true ↔
      (topo.ports clientPort = none ∨ topo.ports serverPort = none)) ∧
    (∀ (name : String) (t1 : topology), addClientPort topo name clientPort = some (t1, none) →
      ∃ t2, removeClientPort t1 clientPort = some (t2, none) ∧
        ∀ q : Int, connState t2 clientPort q =
          (ConnState.zero, some ("connState:unknown client port " ++ toString clientPort))) ∧
    (connState topo clientPort serverPort = (ConnState.zero, none) ↔
      ∃ ch sh, topo.ports clientPort = some ch ∧ topo.ports serverPort = some sh ∧
        ((topo.hosts ch).portMap clientPort = none ∨
          (computeNetworkState topo ch sh = (true, 0) ∧
            (topo.hosts sh).portMap serverPort = none))) := by
  refine ⟨?_, ?_, ?_⟩
  · cases hc : topo.ports clientPort with
    | none => simp [connState, hc]
    | some ch =>
      cases hs : topo.ports serverPort with
      | none => simp [connState, hc, hs]
      | some sh =>
        cases hm : (topo.hosts ch).portMap clientPort with
        | none => simp [connState, hc, hs, hm]
        | some role =>
          simp only [connState, hc, hs, hm]
          split <;> simp
  · intro name t1 h
    unfold addClientPort at h
    cases hl : lookupHost topo name with
    | error e => simp [hl] at h
    | ok hp =>
      simp only [hl] at h
      cases hm : (topo.hosts hp).portMap clientPort with
      | some role => simp [hm] at h
      | none =>
        simp only [hm, Option.some.injEq, Prod.mk.injEq, and_true] at h
        have hg : t1.ports clientPort = some hp := by
          rw [← h]
          simp [mapSet]
        have hr : (t1.hosts hp).portMap clientPort = some clientPortType := by
          rw [← h]
          simp [mapSet, storeSet]
        refine ⟨_, removeClientPort_of_client t1 hp clientPort hg hr, ?_⟩
        intro q
        simp [connState, mapDelete]
  · cases hc : topo.ports clientPort with
    | none => simp [connState, hc]
    | some ch =>
      cases hs : topo.ports serverPort with
      | none => simp [connState, hc, hs]
      | some sh =>
        cases hm : (topo.hosts ch).portMap clientPort with
        | none => simp [connState, hc, hs, hm]
        | some role =>
          cases hn : computeNetworkState topo ch sh with
          | mk ok lat =>
            cases ok with
            | false =>
              simp [connState, hc, hs, hm, hn, ConnState.zero, tcpTimeOut, Minute]
            | true =>
              cases hsm : (topo.hosts sh).portMap serverPort with
              | none =>
                simp [connState, hc, hs, hm, hn, hsm, ConnState.zero]
              | some r =>
                simp [connState, hc, hs, hm, hn, hsm, ConnState.zero]

set_option maxRecDepth 100000 in
/-- Claim C24, amended, on the default topology: apple takes client port 40001 and gives it
back; `connState(40001, q)` then returns the error of an unknown client port for every `q`. -/
theorem connState_error_iff_witness :
    addClientPort (stateAfter []) "plant.fruit.apple" 40001
      = some (stateAfter [.addClientPort "plant.fruit.apple" 40001], none) ∧
    (∃ t2, removeClientPort (stateAfter [.addClientPort "plant.fruit.apple" 40001]) 40001
        = some (t2, none) ∧
      ∀ q : Int, connState t2 40001 q =
        (ConnState.zero, some ("connState:unknown client port " ++ toString (40001 : Int)))) ∧
    connState (stateAfter [.addClientPort "plant.fruit.apple" 40001, .removeClientPort 40001])
        40001 30003
      = (ConnState.zero, some "connState:unknown client port 40001") :=
  ⟨rfl,
    (connState_error_iff (stateAfter []) 40001 30003).2.1 "plant.fruit.apple"
      (stateAfter [.addClientPort "plant.fruit.apple" 40001]) rfl,
    by decide⟩

/-! ## Registering a port that another host holds -/

/-- Claim C25. In every state reached from a topology built by `newTopology` through the five
mutating calls, `addServerPort(name, port)` and `addClientPort(name, port)` return, and they
return no error exactly when `name` resolves to a host whose own port map does not hold `port`.
When another host `g` holds `port` in its own map, the call still succeeds: afterwards the
global port map names the new host for `port`, the new host holds `port` with the role asked
for, and `g` still holds `port` with its old role. -/
theorem addPort_succeeds_iff (config : Config) (t0 topo : topology) (ops : List Op)
    (name : String) (port : Int) (h0 : newTopology config = some t0)
    (hrun : runOps t0 ops = some topo) :
    (∃ r, addServerPort topo name port = some r) ∧
    (∃ r, addClientPort topo name port = some r) ∧
    ((∃ t2, addServerPort topo name port = some (t2, none)) ↔
      ∃ hp, lookupHost topo name = .ok hp ∧ (topo.hosts hp).portMap port = none) ∧
    ((∃ t2, addClientPort topo name port = some (t2, none)) ↔
      ∃ hp, lookupHost topo name = .ok hp ∧ (topo.hosts hp).portMap port = none) ∧
    (∀ (hp g : Nat) (role : Bool), lookupHost topo name = .ok hp →
      (topo.hosts hp).portMap port = none → g ≠ hp → (topo.hosts g).portMap port = some role →
      (∃ t2, addServerPort topo name port = some (t2, none) ∧ t2.ports port = some hp ∧
        (t2.hosts hp).portMap port = some serverPortType ∧
        (t2.hosts g).portMap port = some role) ∧
      (∃ t2, addClientPort topo name port = some (t2, none) ∧ t2.ports port = some hp ∧
        (t2.hosts hp).portMap port = some clientPortType ∧
        (t2.hosts g).portMap port = some role)) := by
  obtain ⟨t, hrun2, hw⟩ := runOps_channelWell ops t0 (newTopology_channelWell config t0 h0)
  rw [hrun] at hrun2
  simp only [Option.some.injEq] at hrun2
  subst hrun2
  have hopen := hw.2
  refine ⟨?_, ?_, ?_, ?_, ?_⟩
  · cases hl : lookupHost topo name with
    | error e => simp [addServerPort, hl]
    | ok hp =>
      cases hm : (topo.hosts hp).portMap port with
      | some role => simp [addServerPort, hl, hm]
      | none => exact ⟨_, addServerPort_of_free topo name hp port hl hm hopen⟩
  · cases hl : lookupHost topo name with
    | error e => simp [addClientPort, hl]
    | ok hp =>
      cases hm : (topo.hosts hp).portMap port with
      | some role => simp [addClientPort, hl, hm]
      | none => exact ⟨_, addClientPort_of_free topo name hp port hl hm⟩
  · constructor
    · rintro ⟨t2, h⟩
      cases hl : lookupHost topo name with
      | error e => simp [addServerPort, hl] at h
      | ok hp =>
        cases hm : (topo.hosts hp).portMap port with
        | some role => simp [addServerPort, hl, hm] at h
        | none => exact ⟨hp, rfl, hm⟩
    · rintro ⟨hp, hl, hm⟩
      exact ⟨_, addServerPort_of_free topo name hp port hl hm hopen⟩
  · constructor
    · rintro ⟨t2, h⟩
      cases hl : lookupHost topo name with
      | error e => simp [addClientPort, hl] at h
      | ok hp =>
        cases hm : (topo.hosts hp).portMap port with
        | some role => simp [addClientPort, hl, hm] at h
        | none => exact ⟨hp, rfl, hm⟩
    · rintro ⟨hp, hl, hm⟩
      exact ⟨_, addClientPort_of_free topo name hp port hl hm⟩
  · intro hp g role hl hm hne hg
    refine ⟨⟨_, addServerPort_of_free topo name hp port hl hm hopen, ?_, ?_, ?_⟩,
      ⟨_, addClientPort_of_free topo name hp port hl hm, ?_, ?_, ?_⟩⟩
    · simp [mapSet]
    · simp [mapSet, storeSet]
    · simp [storeSet, hne, hg]
    · simp [mapSet]
    · simp [mapSet, storeSet]
    · simp [storeSet, hne, hg]

set_option maxRecDepth 100000 in
/-- Claim C25 on the default topology where tiger (host 0) serves 30011: lion (host 1) can
register 30011 too, as a server or as a client port; the global map then names lion and tiger
keeps its entry. A second registration on tiger itself is refused. -/
theorem addPort_succeeds_iff_witness :
    newTopology DefaultConfig = some (stateAfter []) ∧
    runOps (stateAfter []) [.addServerPort "animal.land.tiger" 30011]
      = some (stateAfter [.addServerPort "animal.land.tiger" 30011]) ∧
    ((∃ t2, addServerPort (stateAfter [.addServerPort "animal.land.tiger" 30011])
          "animal.land.lion" 30011 = some (t2, none) ∧ t2.ports 30011 = some 1 ∧
        (t2.hosts 1).portMap 30011 = some serverPortType ∧
        (t2.hosts 0).portMap 30011 = some serverPortType) ∧
      (∃ t2, addClientPort (stateAfter [.addServerPort "animal.land.tiger" 30011])
          "animal.land.lion" 30011 = some (t2, none) ∧ t2.ports 30011 = some 1 ∧
        (t2.hosts 1).portMap 30011 = some clientPortType ∧
        (t2.hosts 0).portMap 30011 = some serverPortType)) ∧
    ((stateAfter [.addServerPort "animal.land.tiger" 30011]).ports 30011 = some 0) ∧
    ((stateAfter [.addServerPort "animal.land.tiger" 30011,
        .addServerPort "animal.land.lion" 30011]).ports 30011 = some 1) ∧
    (((stateAfter [.addServerPort "animal.land.tiger" 30011,
        .addServerPort "animal.land.lion" 30011]).hosts 0).portMap 30011 = some true) ∧
    (((stateAfter [.addServerPort "animal.land.tiger" 30011,
        .addServerPort "animal.land.lion" 30011]).hosts 1).portMap 30011 = some true) ∧
    ((addServerPort (stateAfter [.addServerPort "animal.land.tiger" 30011])
        "animal.land.tiger" 30011).map (fun r => r.2)
      = some (some "port has been taken already.")) :=
  ⟨rfl, rfl,
    (addPort_succeeds_iff DefaultConfig (stateAfter [])
      (stateAfter [.addServerPort "animal.land.tiger" 30011])
      [.addServerPort "animal.land.tiger" 30011] "animal.land.lion" 30011 rfl rfl).2.2.2.2
      1 0 serverPortType (by decide) (by decide) (by decide) (by decide),
    by decide, by decide, by decide, by decide, by decide⟩

/-! ## Verdicts for a port that two hosts hold -/

set_option maxRecDepth 100000 in
/-- Claim C2, the counterexample to its consequence: on the default topology apple (host 9)
serves 30003 and then tiger (host 0) registers 30003 too. The port is still a server port in
apple's own map and apple is not internalDown, but the global map now names tiger, so apple
dialling 30003 gets (ok, 444 ms), the verdict towards tiger, and not (ok, 0). -/
theorem dialState_own_port_held_elsewhere :
    ((stateAfter [.addServerPort "plant.fruit.apple" 30003,
        .addServerPort "animal.land.tiger" 30003]).hosts 9).portMap 30003
      = some serverPortType ∧
    lookupHost (stateAfter [.addServerPort "plant.fruit.apple" 30003,
        .addServerPort "animal.land.tiger" 30003]) "plant.fruit.apple" = .ok 9 ∧
    ((stateAfter [.addServerPort "plant.fruit.apple" 30003,
        .addServerPort "animal.land.tiger" 30003]).hosts 9).InternalDown = false ∧
    (stateAfter [.addServerPort "plant.fruit.apple" 30003,
        .addServerPort "animal.land.tiger" 30003]).ports 30003 = some 0 ∧
    dialState (stateAfter [.addServerPort "plant.fruit.apple" 30003,
        .addServerPort "animal.land.tiger" 30003]) "plant.fruit.apple" 30003
      = ({ Latency := 444000000, OK := true }, none) := by
  decide

set_option maxRecDepth 100000 in
/-- Claim C3, the counterexample: on the default topology tiger (host 0) serves 30011 and then
pear (host 10, in apple's rack) registers 30011 too. The port is still a server port in the map
of tiger, a host of another datacenter than apple (host 9), and no node on the path is down, the
doubled path latency being 444 ms; but the global map now names pear, so apple dialling 30011
gets (ok, 4 ms). -/
theorem dialState_cross_datacenter_held_elsewhere :
    ((stateAfter [.addServerPort "animal.land.tiger" 30011,
        .addServerPort "plant.fruit.pear" 30011]).hosts 0).portMap 30011
      = some serverPortType ∧
    lookupHost (stateAfter [.addServerPort "animal.land.tiger" 30011,
        .addServerPort "plant.fruit.pear" 30011]) "plant.fruit.apple" = .ok 9 ∧
    dcPtrOf (stateAfter [.addServerPort "animal.land.tiger" 30011,
        .addServerPort "plant.fruit.pear" 30011]) 9
      ≠ dcPtrOf (stateAfter [.addServerPort "animal.land.tiger" 30011,
        .addServerPort "plant.fruit.pear" 30011]) 0 ∧
    pathUp (stateAfter [.addServerPort "animal.land.tiger" 30011,
        .addServerPort "plant.fruit.pear" 30011]) 9 0 = true ∧
    2 * pathLatency (stateAfter [.addServerPort "animal.land.tiger" 30011,
        .addServerPort "plant.fruit.pear" 30011]) 9 0 = 444000000 ∧
    (stateAfter [.addServerPort "animal.land.tiger" 30011,
        .addServerPort "plant.fruit.pear" 30011]).ports 30011 = some 10 ∧
    dialState (stateAfter [.addServerPort "animal.land.tiger" 30011,
        .addServerPort "plant.fruit.pear" 30011]) "plant.fruit.apple" 30011
      = ({ Latency := 4000000, OK := true }, none) := by
  decide

set_option maxRecDepth 100000 in
/-- Claim C6, the counterexample: on the default topology tiger (host 0) serves 30011 and then
lion (host 1) registers 30011 too. The network between apple (host 9) and tiger is up and 30011
is a server port in tiger's map; `removeServerPort(tiger, 30011)` succeeds, and apple dialling
30011 right after it gets (ok, 444 ms), the verdict towards lion, and not ok = false. -/
theorem dialState_ok_after_removal_held_elsewhere :
    ((stateAfter [.addServerPort "animal.land.tiger" 30011,
        .addServerPort "animal.land.lion" 30011]).hosts 0).portMap 30011
      = some serverPortType ∧
    lookupHost (stateAfter [.addServerPort "animal.land.tiger" 30011,
        .addServerPort "animal.land.lion" 30011]) "animal.land.tiger" = .ok 0 ∧
    lookupHost (stateAfter [.addServerPort "animal.land.tiger" 30011,
        .addServerPort "animal.land.lion" 30011]) "plant.fruit.apple" = .ok 9 ∧
    (computeNetworkState (stateAfter [.addServerPort "animal.land.tiger" 30011,
        .addServerPort "animal.land.lion" 30011]) 9 0).1 = true ∧
    (stateAfter [.addServerPort "animal.land.tiger" 30011,
        .addServerPort "animal.land.lion" 30011]).ports 30011 = some 1 ∧
    (removeServerPort (stateAfter [.addServerPort "animal.land.tiger" 30011,
        .addServerPort "animal.land.lion" 30011]) "animal.land.tiger" 30011).map (fun r => r.2)
      = some none ∧
    ((stateAfter [.addServerPort "animal.land.tiger" 30011,
        .addServerPort "animal.land.lion" 30011,
        .removeServerPort "animal.land.tiger" 30011]).hosts 0).portMap 30011 = none ∧
    dialState (stateAfter [.addServerPort "animal.land.tiger" 30011,
        .addServerPort "animal.land.lion" 30011,
        .removeServerPort "animal.land.tiger" 30011]) "plant.fruit.apple" 30011
      = ({ Latency := 444000000, OK := true }, none) := by
  decide

set_option maxRecDepth 100000 in
/-- Claim C11, the counterexample: on the default topology apple (host 9) serves 30003, tiger
(host 0) takes client port 50000 and then apple takes client port 50000 too. The port is still
in tiger's map and `computeNetworkState(tiger, apple)` is (ok, 222 ms), but the global map now
names apple for 50000, so `connState(50000, 30003)` is (ok, 0), the verdict of apple with
itself. -/
theorem connState_client_port_held_elsewhere :
    ((stateAfter [.addServerPort "plant.fruit.apple" 30003,
        .addClientPort "animal.land.tiger" 50000,
        .addClientPort "plant.fruit.apple" 50000]).hosts 0).portMap 50000
      = some clientPortType ∧
    (stateAfter [.addServerPort "plant.fruit.apple" 30003,
        .addClientPort "animal.land.tiger" 50000,
        .addClientPort "plant.fruit.apple" 50000]).ports 30003 = some 9 ∧
    computeNetworkState (stateAfter [.addServerPort "plant.fruit.apple" 30003,
        .addClientPort "animal.land.tiger" 50000,
        .addClientPort "plant.fruit.apple" 50000]) 0 9 = (true, 222000000) ∧
    (stateAfter [.addServerPort "plant.fruit.apple" 30003,
        .addClientPort "animal.land.tiger" 50000,
        .addClientPort "plant.fruit.apple" 50000]).ports 50000 = some 9 ∧
    connState (stateAfter [.addServerPort "plant.fruit.apple" 30003,
        .addClientPort "animal.land.tiger" 50000,
        .addClientPort "plant.fruit.apple" 50000]) 50000 30003
      = ({ Latency := 0, OK := true }, none) := by
  decide

end Stadis
